import Mathlib

/-!
# X11 driver DRI3 / PRESENT back end (`dlls/winex11.drv/dri3.c`)

A shallow embedding of the PRESENT synchronisation engine of `dri3.c`.

* The C structures `PRESENTPriv` and `PRESENTPixmapPriv` become Lean structures.
  The linked list hanging off `first_present_priv` becomes a `List`; every node
  carries the address `ptr` it lives at, which is what a `PRESENTPixmapPriv *`
  argument denotes.
* The X server and the xcb library are an oracle `Xcb`: the results of the xcb
  calls are read from lists (every theorem is stated for all oracles), the
  requests that are issued are appended to the trace `sent`.
* The two pthread mutexes are not modelled: each function is the sequential
  body that runs while `mutex_present` is held.  A foreign thread blocked in
  `PRESENTwait_events` is visible through the flag `xcb_wait`.
* `uint32_t`, `uint64_t`, `int64_t`, `int16_t`, `uint16_t` values are `Nat` or
  `Int` with explicit reductions; the `int` counter `pixmap_present_pending` is
  an unbounded `Int`.
* Of `d3dadapter.c` the drawable table is embedded: `get_d3d_drawable`,
  `release_d3d_drawable`, `DRI3Present_FrontBufferCopy` and
  `DRI3Present_PresentBuffer`.  The critical section `context_section` is the
  pair of counters of its enters and leaves.
-/

namespace Dri3

/-! ## Constants of the protocol headers -/

def XCB_PRESENT_COMPLETE_KIND_PIXMAP : Nat := 0
def XCB_PRESENT_COMPLETE_KIND_NOTIFY_MSC : Nat := 1
def XCB_PRESENT_COMPLETE_MODE_COPY : Nat := 0
def XCB_PRESENT_COMPLETE_MODE_FLIP : Nat := 1
def XCB_PRESENT_OPTION_NONE : Nat := 0
def XCB_PRESENT_OPTION_ASYNC : Nat := 1
def XCB_PRESENT_OPTION_COPY : Nat := 2
def XCB_PRESENT_EVENT_MASK_COMPLETE_NOTIFY : Nat := 2
def XCB_PRESENT_EVENT_MASK_IDLE_NOTIFY : Nat := 4
def D3DPRESENT_INTERVAL_DEFAULT : Nat := 0
def D3DPRESENT_INTERVAL_ONE : Nat := 1
def D3DPRESENT_INTERVAL_TWO : Nat := 2
def D3DPRESENT_INTERVAL_THREE : Nat := 4
def D3DPRESENT_INTERVAL_FOUR : Nat := 8
def D3DPRESENT_INTERVAL_IMMEDIATE : Nat := 2147483648
def D3DSWAPEFFECT_COPY : Nat := 3
def XCB_GC_GRAPHICS_EXPOSURES : Nat := 65536
def D3D_OK : Nat := 0
/-- The value of `MAKE_D3DHRESULT(2087)`. -/
def D3DERR_DRIVERINTERNALERROR : Nat := 0x88760827

/-! ## Machine integers -/

/-- Conversion to `uint32_t`. -/
def toU32 (x : Int) : Nat := (x % 4294967296).toNat

/-- Conversion to `uint64_t`. -/
def toU64 (x : Int) : Nat := (x % 18446744073709551616).toNat

/-- Conversion to `int64_t` (two's complement). -/
def toI64 (x : Int) : Int :=
  (x + 9223372036854775808) % 18446744073709551616 - 9223372036854775808

/-- Conversion to `LONG`, a 32-bit two's complement integer. -/
def toI32 (x : Int) : Int := (x + 2147483648) % 4294967296 - 2147483648

/-- Conversion to `uint16_t`. -/
def toU16 (x : Int) : Nat := (x % 65536).toNat

/-- Conversion to `int16_t` (two's complement). -/
def toI16 (x : Int) : Int := (x + 32768) % 65536 - 32768

/-! ## Data model -/

/-- The Windows `RECT`. -/
structure RECT where
  left : Int
  top : Int
  right : Int
  bottom : Int
deriving DecidableEq, Repr

/-- The xcb rectangle: `int16_t x, y; uint16_t width, height`. -/
structure xcb_rectangle_t where
  x : Int
  y : Int
  width : Nat
  height : Nat
deriving DecidableEq, Repr

/-- The fields of `D3DPRESENT_PARAMETERS` that `PRESENTPixmap` reads. -/
structure D3DPRESENT_PARAMETERS where
  PresentationInterval : Nat
  SwapEffect : Nat
  BackBufferCount : Nat
deriving DecidableEq, Repr

/-- An event of the PRESENT special-event queue, by `evtype`. -/
inductive Event where
  | complete_notify (kind mode serial msc : Nat)
  | idle_notify (serial pixmap : Nat)
  | other (evtype : Nat)
deriving DecidableEq, Repr

/-- A request (or library call with an effect on the server side) issued by the driver. -/
inductive Request where
  | present_notify_msc (window serial target_msc divisor remainder : Nat)
  | present_pixmap (checked : Bool) (window pixmap serial valid update : Nat)
      (x_off y_off : Int) (options target_msc : Nat)
  | present_select_input (eid window event_mask : Nat)
  | xfixes_create_region (region : Nat) (rects : List xcb_rectangle_t)
  | unregister_for_special_event (special_event : Option Nat)
  | create_gc (cid drawable value_mask : Nat) (value_list : List Nat)
  | copy_area (checked : Bool) (src_drawable dst_drawable gc : Nat)
      (src_x src_y dst_x dst_y : Int) (width height : Nat)
  | free_gc (gc : Nat)
deriving DecidableEq, Repr

/-- The C `struct PRESENTPixmapPriv`; `ptr` is the address of the node, `next` is the list order. -/
structure PRESENTPixmapPriv where
  ptr : Nat
  pixmap : Nat
  released : Bool
  present_complete_pending : Bool
  serial : Nat
  last_present_was_flip : Bool
deriving DecidableEq, Repr

/-- The C `struct PRESENTPriv` without the connection pointer and the two mutexes. -/
structure PRESENTpriv where
  window : Nat
  last_msc : Nat
  last_target : Nat
  last_serial_given : Nat
  special_event : Option Nat
  first_present_priv : List PRESENTPixmapPriv
  pixmap_present_pending : Int
  notify_with_serial_pending : Bool
  xcb_wait : Bool
deriving DecidableEq, Repr

/-- The connection and the server behind it: oracle lists for the results of the xcb calls,
the drawable geometries, the id allocator and the trace of issued requests. -/
structure Xcb where
  /-- Successive results of `xcb_poll_for_special_event` / `xcb_wait_for_special_event`;
  `none` is a `NULL` result, and so is an exhausted list. -/
  events : List (Option Event)
  /-- Successive results of `xcb_request_check`; `true` is a non-`NULL` error. -/
  checks : List Bool
  /-- Successive results of `xcb_register_for_special_xge`; `true` is a non-`NULL` queue. -/
  specials : List Bool
  /-- Triples `(drawable, width, height)` answering `XGetGeometry`. -/
  geometry : List (Nat × Nat × Nat)
  next_id : Nat
  sent : List Request
deriving DecidableEq, Repr

/-! ## The xcb primitives -/

def xcb_generate_id (w : Xcb) : Nat × Xcb :=
  (w.next_id, { w with next_id := w.next_id + 1 })

def xcb_send (w : Xcb) (r : Request) : Xcb :=
  { w with sent := w.sent ++ [r] }

/-- The next event of the queue, shared by the polling and the blocking call. -/
def xcb_next_event (w : Xcb) : Option Event × Xcb :=
  match w.events with
  | [] => (none, w)
  | e :: rest => (e, { w with events := rest })

/-- Result of `xcb_request_check`: `true` when an error is returned. -/
def xcb_request_check (w : Xcb) : Bool × Xcb :=
  match w.checks with
  | [] => (false, w)
  | b :: rest => (b, { w with checks := rest })

/-- Result of `xcb_register_for_special_xge` for event id `eid`. -/
def xcb_register_for_special_xge (w : Xcb) (eid : Nat) : Option Nat × Xcb :=
  match w.specials with
  | [] => (none, w)
  | b :: rest => (if b then some eid else none, { w with specials := rest })

/-- Width and height that `XGetGeometry` reports for a drawable. -/
def XGetGeometry (w : Xcb) (drawable : Nat) : Nat × Nat :=
  match w.geometry.find? (fun g => g.1 == drawable) with
  | some g => g.2
  | none => (0, 0)

/-! ## The buffer registry -/

/-- The node a `PRESENTPixmapPriv *` with value `p` points to. -/
def derefPixmapPriv (l : List PRESENTPixmapPriv) (p : Nat) : Option PRESENTPixmapPriv :=
  l.find? (fun n => n.ptr == p)

/-- A store through a `PRESENTPixmapPriv *` with value `p`. -/
def storePixmapPriv (l : List PRESENTPixmapPriv) (p : Nat)
    (f : PRESENTPixmapPriv → PRESENTPixmapPriv) : List PRESENTPixmapPriv :=
  l.map (fun n => if n.ptr = p then f n else n)

/-- Walk of the list from `first_present_priv` to the first node with the serial. -/
def PRESENTFindPixmapPrivList : List PRESENTPixmapPriv → Nat → Option PRESENTPixmapPriv
  | [], _ => none
  | current :: rest, serial =>
    if current.serial = serial then some current else PRESENTFindPixmapPrivList rest serial

def PRESENTFindPixmapPriv (present_priv : PRESENTpriv) (serial : Nat) :
    Option PRESENTPixmapPriv :=
  PRESENTFindPixmapPrivList present_priv.first_present_priv serial

/-! ## Event dispatch -/

def PRESENThandle_events (present_priv : PRESENTpriv) (ge : Event) : PRESENTpriv :=
  match ge with
  | Event.complete_notify kind mode serial msc =>
    if kind = XCB_PRESENT_COMPLETE_KIND_NOTIFY_MSC then
      if serial ≠ 0 then { present_priv with notify_with_serial_pending := false }
      else present_priv
    else
      match PRESENTFindPixmapPriv present_priv serial with
      | none => present_priv
      | some present_pixmap_priv =>
        if kind ≠ XCB_PRESENT_COMPLETE_KIND_PIXMAP then present_priv
        else
          let flip (n : PRESENTPixmapPriv) : Bool :=
            if mode = XCB_PRESENT_COMPLETE_MODE_FLIP then true
            else if mode = XCB_PRESENT_COMPLETE_MODE_COPY then false
            else n.last_present_was_flip
          { present_priv with
            first_present_priv :=
              storePixmapPriv present_priv.first_present_priv present_pixmap_priv.ptr
                (fun n => { n with present_complete_pending := false,
                                   last_present_was_flip := flip n })
            pixmap_present_pending := present_priv.pixmap_present_pending - 1
            last_msc := msc }
  | Event.idle_notify serial pixmap =>
    match PRESENTFindPixmapPriv present_priv serial with
    | none => present_priv
    | some present_pixmap_priv =>
      if present_pixmap_priv.pixmap ≠ pixmap then present_priv
      else
        { present_priv with
          first_present_priv :=
            storePixmapPriv present_priv.first_present_priv present_pixmap_priv.ptr
              (fun n => { n with released := true }) }
  | Event.other _ => present_priv

/-- The loop `while ((ev = xcb_poll_for_special_event(..)) != NULL) PRESENThandle_events(..)`. -/
def PRESENTflush_loop : List (Option Event) → PRESENTpriv → PRESENTpriv × List (Option Event)
  | [], present_priv => (present_priv, [])
  | none :: rest, present_priv => (present_priv, rest)
  | some ev :: rest, present_priv => PRESENTflush_loop rest (PRESENThandle_events present_priv ev)

def PRESENTflush_events (present_priv : PRESENTpriv) (w : Xcb)
    (assert_no_other_thread_waiting : Bool) : PRESENTpriv × Xcb :=
  if (present_priv.xcb_wait && !assert_no_other_thread_waiting)
      || present_priv.special_event.isNone then
    (present_priv, w)
  else
    let r := PRESENTflush_loop w.events present_priv
    (r.1, { w with events := r.2 })

/-- The blocking wait.  With `allow_other_threads` the flag `xcb_wait` is raised around the
blocking call and cleared again before the event is handled. -/
def PRESENTwait_events (present_priv : PRESENTpriv) (w : Xcb) (allow_other_threads : Bool) :
    Bool × PRESENTpriv × Xcb :=
  let p1 := if allow_other_threads then { present_priv with xcb_wait := true } else present_priv
  let r := xcb_next_event w
  let p2 := if allow_other_threads then { p1 with xcb_wait := false } else p1
  match r.1 with
  | none => (false, p2, r.2)
  | some ev => (true, PRESENThandle_events p2 ev, r.2)

/-- The state `calloc` leaves in `PRESENTInit`; `none` when the allocation fails. -/
def PRESENTInit (calloc_ok : Bool) : Option PRESENTpriv :=
  if calloc_ok then
    some { window := 0, last_msc := 0, last_target := 0, last_serial_given := 0,
           special_event := none, first_present_priv := [], pixmap_present_pending := 0,
           notify_with_serial_pending := false, xcb_wait := false }
  else none

/-! ## Drain, attach and detach -/

/-- The loops `while (cond) PRESENTwait_events(present_priv, FALSE);` of the drain.  Every round
takes one result from the oracle (`fuel` is the number of results left); once the oracle is
exhausted the wait fails for ever without touching the state, so a loop whose condition still
holds never ends: `none`. -/
def PRESENTwait_while (cond : PRESENTpriv → Bool) :
    Nat → PRESENTpriv → Xcb → Option (PRESENTpriv × Xcb)
  | 0, present_priv, w => if cond present_priv then none else some (present_priv, w)
  | fuel + 1, present_priv, w =>
    if cond present_priv then
      let r := PRESENTwait_events present_priv w false
      PRESENTwait_while cond fuel r.2.1 r.2.2
    else some (present_priv, w)

/-- The rectangle of the forced present of `PRESENTForceReleases`. -/
def force_rect_update : xcb_rectangle_t := { x := 0, y := 0, width := 8, height := 1 }

/-- The requests of the forced present of the pixmap of one unreleased node. -/
def PRESENTForceReleases_present (present_priv : PRESENTpriv) (w : Xcb) (pixmap : Nat) : Xcb :=
  let v := xcb_generate_id w
  let u := xcb_generate_id v.2
  let w1 := xcb_send u.2 (Request.xfixes_create_region v.1 [force_rect_update])
  let w2 := xcb_send w1 (Request.xfixes_create_region u.1 [force_rect_update])
  xcb_send w2 (Request.present_pixmap false present_priv.window pixmap 0 v.1 u.1 0 0
    (XCB_PRESENT_OPTION_COPY ||| XCB_PRESENT_OPTION_ASYNC) 0)

/-- The second loop of `PRESENTForceReleases`: `current` runs over the addresses of the nodes
in list order; the flags are read from the state of the moment. -/
def PRESENTForceReleases_walk : List Nat → PRESENTpriv → Xcb → PRESENTpriv × Xcb
  | [], present_priv, w => (present_priv, w)
  | current :: rest, present_priv, w =>
    match derefPixmapPriv present_priv.first_present_priv current with
    | none => PRESENTForceReleases_walk rest present_priv w
    | some cur =>
      if !cur.released then
        if !cur.last_present_was_flip && !present_priv.xcb_wait then
          PRESENTForceReleases_walk rest present_priv w
        else
          let w1 := PRESENTForceReleases_present present_priv w cur.pixmap
          let r := PRESENTwait_events present_priv w1 false
          let f := PRESENTflush_events r.2.1 r.2.2 true
          PRESENTForceReleases_walk rest f.1 f.2
      else PRESENTForceReleases_walk rest present_priv w

/-- The first half of `PRESENTForceReleases`: wait until nothing is pending. -/
def PRESENTForceReleases_wait (present_priv : PRESENTpriv) (w : Xcb) :
    Option (PRESENTpriv × Xcb) :=
  if present_priv.xcb_wait then
    let w1 := xcb_send w (Request.present_notify_msc present_priv.window 0 0 0 0)
    match PRESENTwait_while (fun s => decide (s.pixmap_present_pending ≥ 2))
        w1.events.length present_priv w1 with
    | none => none
    | some a =>
      let f := PRESENTflush_events a.1 a.2 true
      let p1 := { f.1 with notify_with_serial_pending := true }
      let w2 := xcb_send f.2 (Request.present_notify_msc p1.window 1 (toU64 (p1.last_target + 5)) 0 0)
      PRESENTwait_while (fun s => s.notify_with_serial_pending) w2.events.length p1 w2
  else
    match PRESENTwait_while (fun s => decide (s.pixmap_present_pending ≠ 0))
        w.events.length present_priv w with
    | none => none
    | some a => some (PRESENTflush_events a.1 a.2 true)

def PRESENTForceReleases (present_priv : PRESENTpriv) (w : Xcb) : Option (PRESENTpriv × Xcb) :=
  if present_priv.window = 0 then some (present_priv, w)
  else
    match PRESENTForceReleases_wait present_priv w with
    | none => none
    | some a =>
      some (PRESENTForceReleases_walk (a.1.first_present_priv.map (fun n => n.ptr)) a.1 a.2)

def PRESENTFreeXcbQueue (present_priv : PRESENTpriv) (w : Xcb) : PRESENTpriv × Xcb :=
  if present_priv.window ≠ 0 then
    ({ present_priv with last_msc := 0, last_target := 0, special_event := none },
     xcb_send w (Request.unregister_for_special_event present_priv.special_event))
  else (present_priv, w)

/-- The subscription half of `PRESENTPrivChangeWindow`, from `present_priv->window = window` on. -/
def PRESENTPrivChangeWindow_select (present_priv : PRESENTpriv) (w : Xcb) (window : Nat) :
    Bool × PRESENTpriv × Xcb :=
  let p1 := { present_priv with window := window }
  if window ≠ 0 then
    let g := xcb_generate_id w
    let w1 := xcb_send g.2 (Request.present_select_input g.1 window
      (XCB_PRESENT_EVENT_MASK_COMPLETE_NOTIFY ||| XCB_PRESENT_EVENT_MASK_IDLE_NOTIFY))
    let s := xcb_register_for_special_xge w1 g.1
    let p2 := { p1 with special_event := s.1 }
    let c := xcb_request_check s.2
    if c.1 || p2.special_event.isNone then
      let w2 := if p2.special_event.isSome then
          xcb_send c.2 (Request.unregister_for_special_event p2.special_event)
        else c.2
      let p3 := { p2 with special_event := none, window := 0 }
      (decide (p3.window ≠ 0), p3, w2)
    else (decide (p2.window ≠ 0), p2, c.2)
  else (decide (p1.window ≠ 0), p1, w)

def PRESENTPrivChangeWindow (present_priv : PRESENTpriv) (w : Xcb) (window : Nat) :
    Option (Bool × PRESENTpriv × Xcb) :=
  match PRESENTForceReleases present_priv w with
  | none => none
  | some a =>
    let q := PRESENTFreeXcbQueue a.1 a.2
    some (PRESENTPrivChangeWindow_select q.1 q.2 window)

/-! ## Registration and release of buffers -/

/-- The function `PRESENTPixmapInit`; `alloc` is the address `calloc` returns, `none` for `NULL`.
The new handle is the address. -/
def PRESENTPixmapInit (present_priv : PRESENTpriv) (pixmap : Nat) (alloc : Option Nat) :
    Bool × PRESENTpriv :=
  match alloc with
  | none => (false, present_priv)
  | some p =>
    let serial := toU32 (present_priv.last_serial_given + 1)
    let node : PRESENTPixmapPriv :=
      { ptr := p, pixmap := pixmap, released := true, present_complete_pending := false,
        serial := serial, last_present_was_flip := false }
    (true, { present_priv with last_serial_given := serial,
                               first_present_priv := node :: present_priv.first_present_priv })

/-- Unlinking of the node at address `p`: the head test, then the walk to its predecessor. -/
def PRESENTTryFreePixmap_unlink : List PRESENTPixmapPriv → Nat → List PRESENTPixmapPriv
  | [], _ => []
  | current :: rest, p =>
    if current.ptr = p then rest else current :: PRESENTTryFreePixmap_unlink rest p

/-- The function `PRESENTTryFreePixmap`; `none` when the pointer is not a registered node. -/
def PRESENTTryFreePixmap (present_priv : PRESENTpriv) (present_pixmap_priv : Nat) :
    Option (Bool × PRESENTpriv) :=
  match derefPixmapPriv present_priv.first_present_priv present_pixmap_priv with
  | none => none
  | some h =>
    if !h.released || h.present_complete_pending then some (false, present_priv)
    else
      some (true, { present_priv with
        first_present_priv :=
          PRESENTTryFreePixmap_unlink present_priv.first_present_priv present_pixmap_priv })

/-! ## Presentation -/

/-- The `switch` on `PresentationInterval`: the pacing step and the option bits it sets. -/
def presentationInterval (interval : Nat) : Int × Nat :=
  if interval = D3DPRESENT_INTERVAL_DEFAULT ∨ interval = D3DPRESENT_INTERVAL_ONE then
    (1, XCB_PRESENT_OPTION_NONE)
  else if interval = D3DPRESENT_INTERVAL_TWO then (2, XCB_PRESENT_OPTION_NONE)
  else if interval = D3DPRESENT_INTERVAL_THREE then (3, XCB_PRESENT_OPTION_NONE)
  else if interval = D3DPRESENT_INTERVAL_FOUR then (4, XCB_PRESENT_OPTION_NONE)
  else (0, XCB_PRESENT_OPTION_NONE ||| XCB_PRESENT_OPTION_ASYNC)

/-- The value `target_msc` (an `int64_t`) computed by `PRESENTPixmap`. -/
def target_msc (present_priv : PRESENTpriv) (interval : Nat) : Int :=
  toI64 (toI64 present_priv.last_msc
    + (presentationInterval interval).1 * (present_priv.pixmap_present_pending + 1))

/-- The rectangle stored for one dirty `RECT`. -/
def dirty_rect_update (rc : RECT) : xcb_rectangle_t :=
  { x := toI16 rc.left, y := toI16 rc.top,
    width := toU16 (rc.right - rc.left), height := toU16 (rc.bottom - rc.top) }

/-- Element index addressed by `rect_updates + i * sizeof(xcb_rectangle_t)`: the pointer
arithmetic already scales by the element size, which is 8 bytes. -/
def rect_updates_index (i : Nat) : Nat := i * 8

/-- The `for` loop over the dirty rectangles from index `i` on; `rect_updates` is the array
`calloc` returned.  A store beyond the end of the array is not recorded. -/
def fill_rect_updates : Nat → List RECT → List xcb_rectangle_t → List xcb_rectangle_t
  | _, [], rect_updates => rect_updates
  | i, rc :: rest, rect_updates =>
    fill_rect_updates (i + 1) rest (rect_updates.set (rect_updates_index i) (dirty_rect_update rc))

/-- The rectangle `rect_update` of the valid region. -/
def valid_rect_update (geom : Nat × Nat) (pSourceRect pDestRect : Option RECT) :
    xcb_rectangle_t :=
  let r0 : xcb_rectangle_t := { x := 0, y := 0, width := toU16 geom.1, height := toU16 geom.2 }
  let r1 : xcb_rectangle_t :=
    match pSourceRect with
    | some s => { x := toI16 s.left, y := toI16 s.top,
                  width := toU16 (s.right - s.left), height := toU16 (s.bottom - s.top) }
    | none => r0
  match pDestRect with
  | some d => { r1 with width := toU16 (d.right - d.left), height := toU16 (d.bottom - d.top) }
  | none => r1

/-- The offsets `x_off`, `y_off`. -/
def present_offsets (pSourceRect pDestRect : Option RECT) : Int × Int :=
  let o1 : Int × Int :=
    match pSourceRect with
    | some s => (toI16 (-s.left), toI16 (-s.top))
    | none => (0, 0)
  match pDestRect with
  | some d => (toI16 (o1.1 + d.left), toI16 (o1.2 + d.top))
  | none => o1

/-- The regions and offsets of a present request, lines 609 to 667: the result is
`(valid, update, x_off, y_off)` and the connection after the region requests.  The dirty
region is the list of its `nCount` rectangles. -/
def PRESENTPixmap_regions (w : Xcb) (pixmap : Nat) (pSourceRect pDestRect : Option RECT)
    (pDirtyRegion : Option (List RECT)) : (Nat × Nat × Int × Int) × Xcb :=
  if pSourceRect.isNone ∧ pDestRect.isNone ∧ pDirtyRegion.isNone then ((0, 0, 0, 0), w)
  else
    let rect_update := valid_rect_update (XGetGeometry w pixmap) pSourceRect pDestRect
    let off := present_offsets pSourceRect pDestRect
    let v := xcb_generate_id w
    let u := xcb_generate_id v.2
    let w1 := xcb_send u.2 (Request.xfixes_create_region v.1 [rect_update])
    let w2 :=
      match pDirtyRegion with
      | some (rc :: rest) =>
        xcb_send w1 (Request.xfixes_create_region u.1
          (fill_rect_updates 0 (rc :: rest)
            (List.replicate (rc :: rest).length { x := 0, y := 0, width := 0, height := 0 })))
      | _ => xcb_send w1 (Request.xfixes_create_region u.1 [rect_update])
    ((v.1, u.1, off.1, off.2), w2)

/-- Lines 554 to 555 of `PRESENTPixmap`: retarget the channel when the window differs; the
result of `PRESENTPrivChangeWindow` is dropped. -/
def PRESENTPixmap_attach (present_priv : PRESENTpriv) (w : Xcb) (window : Nat) :
    Option (PRESENTpriv × Xcb) :=
  if window ≠ present_priv.window then
    match PRESENTPrivChangeWindow present_priv w window with
    | none => none
    | some r => some r.2
  else some (present_priv, w)

/-- Lines 570 to 676 of `PRESENTPixmap` for the node `h`: the wake-up of a foreign waiter, the
regions and the checked present request; the result is the connection after the request. -/
def PRESENTPixmap_send (present_priv : PRESENTpriv) (w : Xcb) (window : Nat)
    (h : PRESENTPixmapPriv) (pPresentationParameters : D3DPRESENT_PARAMETERS)
    (pSourceRect pDestRect : Option RECT) (pDirtyRegion : Option (List RECT)) : Xcb :=
  let w1 := if present_priv.xcb_wait then
      xcb_send w (Request.present_notify_msc present_priv.window 0 0 0 0)
    else w
  let target := target_msc present_priv pPresentationParameters.PresentationInterval
  let rg := PRESENTPixmap_regions w1 h.pixmap pSourceRect pDestRect pDirtyRegion
  let options := (presentationInterval pPresentationParameters.PresentationInterval).2 |||
    (if pPresentationParameters.SwapEffect = D3DSWAPEFFECT_COPY then XCB_PRESENT_OPTION_COPY
     else 0)
  xcb_send rg.2 (Request.present_pixmap true window h.pixmap h.serial
    rg.1.1 rg.1.2.1 rg.1.2.2.1 rg.1.2.2.2 options (toU64 target))

/-- Lines 564 to 707 of `PRESENTPixmap`: the busy check and the submission.  `none` when the
pointer is not a registered node. -/
def PRESENTPixmap_submit (present_priv : PRESENTpriv) (w : Xcb) (window : Nat)
    (present_pixmap_priv : Nat) (pPresentationParameters : D3DPRESENT_PARAMETERS)
    (pSourceRect pDestRect : Option RECT) (pDirtyRegion : Option (List RECT)) :
    Option (Bool × PRESENTpriv × Xcb) :=
  match derefPixmapPriv present_priv.first_present_priv present_pixmap_priv with
  | none => none
  | some h =>
    if !h.released || h.present_complete_pending then some (false, present_priv, w)
    else
      let c := xcb_request_check (PRESENTPixmap_send present_priv w window h
        pPresentationParameters pSourceRect pDestRect pDirtyRegion)
      if c.1 then some (false, present_priv, c.2)
      else
        some (true,
          { present_priv with
            last_target :=
              toU64 (target_msc present_priv pPresentationParameters.PresentationInterval)
            pixmap_present_pending := present_priv.pixmap_present_pending + 1
            first_present_priv :=
              storePixmapPriv present_priv.first_present_priv present_pixmap_priv
                (fun n => { n with present_complete_pending := true, released := false }) },
          c.2)

/-- The function `PRESENTPixmap`.  `none` when the drain of the retarget never ends or the
pointer is not a registered node. -/
def PRESENTPixmap (present_priv : PRESENTpriv) (w : Xcb) (window : Nat)
    (present_pixmap_priv : Nat) (pPresentationParameters : D3DPRESENT_PARAMETERS)
    (pSourceRect pDestRect : Option RECT) (pDirtyRegion : Option (List RECT)) :
    Option (Bool × PRESENTpriv × Xcb) :=
  match PRESENTPixmap_attach present_priv w window with
  | none => none
  | some a =>
    if window = 0 then some (false, a.1, a.2)
    else
      let f := PRESENTflush_events a.1 a.2 false
      PRESENTPixmap_submit f.1 f.2 window present_pixmap_priv pPresentationParameters
        pSourceRect pDestRect pDirtyRegion

/-! ## The channel as a state machine -/

/-- One step of the life of a channel: the calls of the interface, the two halves of a
blocking wait of a foreign thread (which drops `mutex_present` in between), and the server
filling the oracle for the calls that follow. -/
inductive Op where
  | register (pixmap : Nat) (alloc : Option Nat)
  | release (present_pixmap_priv : Nat)
  | present (window present_pixmap_priv : Nat) (params : D3DPRESENT_PARAMETERS)
      (pSourceRect pDestRect : Option RECT) (pDirtyRegion : Option (List RECT))
  | attach (window : Nat)
  | dispatch (ev : Event)
  | wait_enter
  | wait_leave (ev : Option Event)
  | server (events : List (Option Event)) (checks specials : List Bool)
deriving DecidableEq, Repr

/-- Effect of one step; `none` when the call does not return or is handed a pointer that is
not a registered node, and for an allocation that returns the address of a live node. -/
def step (s : PRESENTpriv × Xcb) : Op → Option (PRESENTpriv × Xcb)
  | Op.register pixmap alloc =>
    match alloc with
    | none => some ((PRESENTPixmapInit s.1 pixmap none).2, s.2)
    | some p =>
      if p ∈ s.1.first_present_priv.map (fun n => n.ptr) then none
      else some ((PRESENTPixmapInit s.1 pixmap (some p)).2, s.2)
  | Op.release p =>
    match PRESENTTryFreePixmap s.1 p with
    | none => none
    | some r => some (r.2, s.2)
  | Op.present window p params src dst dirty =>
    match PRESENTPixmap s.1 s.2 window p params src dst dirty with
    | none => none
    | some r => some r.2
  | Op.attach window =>
    match PRESENTPrivChangeWindow s.1 s.2 window with
    | none => none
    | some r => some r.2
  | Op.dispatch ev => some (PRESENThandle_events s.1 ev, s.2)
  | Op.wait_enter => some ({ s.1 with xcb_wait := true }, s.2)
  | Op.wait_leave ev =>
    match ev with
    | none => some ({ s.1 with xcb_wait := false }, s.2)
    | some e => some (PRESENThandle_events { s.1 with xcb_wait := false } e, s.2)
  | Op.server events checks specials =>
    some (s.1, { s.2 with events := events, checks := checks, specials := specials })

/-- A sequence of steps. -/
def run (s : PRESENTpriv × Xcb) : List Op → Option (PRESENTpriv × Xcb)
  | [] => some s
  | op :: rest =>
    match step s op with
    | none => none
    | some s1 => run s1 rest

/-- The channel `PRESENTInit` creates. -/
def channel0 : PRESENTpriv :=
  { window := 0, last_msc := 0, last_target := 0, last_serial_given := 0,
    special_event := none, first_present_priv := [], pixmap_present_pending := 0,
    notify_with_serial_pending := false, xcb_wait := false }

/-- A connection on which nothing has happened yet. -/
def xcb0 : Xcb :=
  { events := [], checks := [], specials := [], geometry := [], next_id := 1, sent := [] }

/-- Number of registered handles with `present_complete_pending` set. -/
def pending_handles (l : List PRESENTPixmapPriv) : Nat :=
  (l.filter (fun n => n.present_complete_pending)).length

/-! ## Waiting for a buffer -/

/-- The call `PRESENTwait_events(present_priv, TRUE)` of a waiter: `xcb_wait` is raised,
`mutex_present` is dropped for the blocking call, during which other threads do the steps
`foreign`, and once the lock is taken again the flag is cleared and the event handled.
`none` when a step of the other threads does not return. -/
def PRESENTwait_events_shared (present_priv : PRESENTpriv) (w : Xcb) (foreign : List Op) :
    Option (Bool × PRESENTpriv × Xcb) :=
  match run ({ present_priv with xcb_wait := true }, w) foreign with
  | none => none
  | some s =>
    let r := xcb_next_event s.2
    let p2 := { s.1 with xcb_wait := false }
    match r.1 with
    | none => some (false, p2, r.2)
    | some ev => some (true, PRESENThandle_events p2 ev, r.2)

/-- The loop of `PRESENTWaitPixmapReleased`.  Each round drops `mutex_present` once, either
around the sleep or around the blocking wait; `foreign` lists what the other threads do
during the successive rounds.  `none` when `fuel` rounds do not end the loop, when a foreign
step does not return, and when the pointer is not a registered node. -/
def PRESENTWaitPixmapReleased_loop :
    Nat → PRESENTpriv → Xcb → Nat → List (List Op) → Option (Bool × PRESENTpriv × Xcb)
  | 0, present_priv, w, p, _ =>
    match derefPixmapPriv present_priv.first_present_priv p with
    | none => none
    | some h =>
      if !h.released || h.present_complete_pending then none else some (true, present_priv, w)
  | fuel + 1, present_priv, w, p, foreign =>
    match derefPixmapPriv present_priv.first_present_priv p with
    | none => none
    | some h =>
      if !h.released || h.present_complete_pending then
        if present_priv.xcb_wait then
          match run (present_priv, w) (foreign.headD []) with
          | none => none
          | some s => PRESENTWaitPixmapReleased_loop fuel s.1 s.2 p foreign.tail
        else
          match PRESENTwait_events_shared present_priv w (foreign.headD []) with
          | none => none
          | some r =>
            if !r.1 then some (false, r.2.1, r.2.2)
            else PRESENTWaitPixmapReleased_loop fuel r.2.1 r.2.2 p foreign.tail
      else some (true, present_priv, w)

/-- The function `PRESENTWaitPixmapReleased`. -/
def PRESENTWaitPixmapReleased (fuel : Nat) (present_priv : PRESENTpriv) (w : Xcb)
    (present_pixmap_priv : Nat) (foreign : List (List Op)) :
    Option (Bool × PRESENTpriv × Xcb) :=
  let f := PRESENTflush_events present_priv w false
  PRESENTWaitPixmapReleased_loop fuel f.1 f.2 present_pixmap_priv foreign

/-- The call `PRESENTwait_events(present_priv, TRUE)` of a waiter as in
`PRESENTwait_events_shared`, together with what `xcb_wait_for_special_event` returned in it
(the first component; `none` is `NULL`). -/
def PRESENTwait_events_waited (present_priv : PRESENTpriv) (w : Xcb) (foreign : List Op) :
    Option (Option Event × Bool × PRESENTpriv × Xcb) :=
  match run ({ present_priv with xcb_wait := true }, w) foreign with
  | none => none
  | some s =>
    let r := xcb_next_event s.2
    let p2 := { s.1 with xcb_wait := false }
    match r.1 with
    | none => some (none, false, p2, r.2)
    | some ev => some (some ev, true, PRESENThandle_events p2 ev, r.2)

/-- The loop of `PRESENTWaitPixmapReleased` as in `PRESENTWaitPixmapReleased_loop`, together
with the results of the blocking waits the call performs itself, in the order of the
waits. -/
def PRESENTWaitPixmapReleased_traced :
    Nat → PRESENTpriv → Xcb → Nat → List (List Op) →
      Option ((Bool × PRESENTpriv × Xcb) × List (Option Event))
  | 0, present_priv, w, p, _ =>
    match derefPixmapPriv present_priv.first_present_priv p with
    | none => none
    | some h =>
      if !h.released || h.present_complete_pending then none
      else some ((true, present_priv, w), [])
  | fuel + 1, present_priv, w, p, foreign =>
    match derefPixmapPriv present_priv.first_present_priv p with
    | none => none
    | some h =>
      if !h.released || h.present_complete_pending then
        if present_priv.xcb_wait then
          match run (present_priv, w) (foreign.headD []) with
          | none => none
          | some s => PRESENTWaitPixmapReleased_traced fuel s.1 s.2 p foreign.tail
        else
          match PRESENTwait_events_waited present_priv w (foreign.headD []) with
          | none => none
          | some r =>
            if !r.2.1 then some ((false, r.2.2.1, r.2.2.2), [r.1])
            else
              match PRESENTWaitPixmapReleased_traced fuel r.2.2.1 r.2.2.2 p foreign.tail with
              | none => none
              | some t => some (t.1, r.1 :: t.2)
      else some ((true, present_priv, w), [])

/-! ## Capability queries and buffer export -/

/-- The fields of the version reply that the check functions read. -/
structure query_version_reply_t where
  major_version : Nat
  minor_version : Nat
deriving DecidableEq, Repr

/-- The function `DRI3CheckExtension`.  `extension` is the extension data (`none` for `NULL`,
else its `present` flag), `dri3_reply` what `xcb_dri3_query_version_reply` returns for the
query of `major`, `minor`. -/
def DRI3CheckExtension (extension : Option Bool) (dri3_reply : Option query_version_reply_t)
    (_major _minor : Nat) : Bool :=
  match extension with
  | some true =>
    match dri3_reply with
    | none => false
    | some _ => true
  | _ => false

/-- The function `PRESENTCheckExtension`, with the same inputs. -/
def PRESENTCheckExtension (extension : Option Bool)
    (present_reply : Option query_version_reply_t) (_major _minor : Nat) : Bool :=
  match extension with
  | some true =>
    match present_reply with
    | none => false
    | some _ => true
  | _ => false

/-- The reply `xcb_dri3_buffer_from_pixmap_reply_t`, with the descriptor that comes with it. -/
structure buffer_from_pixmap_reply_t where
  fd : Nat
  width : Nat
  height : Nat
  stride : Nat
  depth : Nat
  bpp : Nat
deriving DecidableEq, Repr

/-- The values `DRI3DmaBufFromPixmap` stores through its out pointers. -/
structure DmaBuf where
  fd : Nat
  width : Nat
  height : Nat
  stride : Nat
  depth : Nat
  bpp : Nat
deriving DecidableEq, Repr

/-- The function `DRI3DmaBufFromPixmap`: `none` for FALSE, else the out values. -/
def DRI3DmaBufFromPixmap (bp_reply : Option buffer_from_pixmap_reply_t) : Option DmaBuf :=
  match bp_reply with
  | none => none
  | some r =>
    some { fd := r.fd, width := r.width, height := r.height, stride := r.stride,
           depth := r.depth, bpp := r.depth }

/-- The element indices the `for` loop over the dirty rectangles stores to, from index `i`
on, in the order of the stores. -/
def rect_updates_writes : Nat → List RECT → List Nat
  | _, [] => []
  | i, _ :: rest => rect_updates_index i :: rect_updates_writes (i + 1) rest

/-! ## The front-buffer copy -/

/-- The function `PRESENTHelperCopyFront`: the result is the returned `BOOL` and the
connection afterwards.  `none` when the pointer is not a registered node. -/
def PRESENTHelperCopyFront (present_priv : PRESENTpriv) (w : Xcb) (present_pixmap_priv : Nat) :
    Option (Bool × Xcb) :=
  match derefPixmapPriv present_priv.first_present_priv present_pixmap_priv with
  | none => none
  | some h =>
    if present_priv.window = 0 then some (false, w)
    else
      let geom := XGetGeometry w h.pixmap
      let gc := xcb_generate_id w
      let w1 := xcb_send gc.2
        (Request.create_gc gc.1 present_priv.window XCB_GC_GRAPHICS_EXPOSURES [0])
      let w2 := xcb_send w1 (Request.copy_area true present_priv.window h.pixmap gc.1
        0 0 0 0 (toU16 geom.1) (toU16 geom.2))
      let error := xcb_request_check w2
      let w3 := xcb_send error.2 (Request.free_gc gc.1)
      some (error.1, w3)

/-- The function `DRI3Present_FrontBufferCopy` of `d3dadapter.c`. -/
def DRI3Present_FrontBufferCopy (present_priv : PRESENTpriv) (w : Xcb)
    (present_pixmap_priv : Nat) : Option (Nat × Xcb) :=
  match PRESENTHelperCopyFront present_priv w present_pixmap_priv with
  | none => none
  | some r => if r.1 then some (D3D_OK, r.2) else some (D3DERR_DRIVERINTERNALERROR, r.2)

/-! ## The drawables of `d3dadapter.c` -/

/-- The C `struct d3d_drawable` without the device context handle. -/
structure d3d_drawable where
  drawable : Nat
  wnd : Nat
  dc_rect : RECT
deriving DecidableEq, Repr

/-- The state `get_d3d_drawable` works on: the table `d3d_hwnd_context`, the critical section
`context_section` as the counts of its enters and leaves, and oracles for the calls whose
result comes from outside. -/
structure D3DContexts where
  /-- Pairs `(hwnd, d3d)` saved with `XSaveContext`. -/
  contexts : List (Nat × d3d_drawable)
  enters : Nat
  leaves : Nat
  /-- Successive results of `HeapAlloc`; `true` is a `NULL` result. -/
  alloc_fails : List Bool
  /-- Successive results of `ExtEscape`: `none` is a result `<= 0`, otherwise the drawable
  and the rectangle written to `extesc`. -/
  escapes : List (Option (Nat × RECT))
  /-- What another thread saved for the window while `context_section` was not held, one
  entry for each such gap. -/
  races : List (Option d3d_drawable)
deriving DecidableEq, Repr

def EnterCriticalSection (c : D3DContexts) : D3DContexts := { c with enters := c.enters + 1 }

def LeaveCriticalSection (c : D3DContexts) : D3DContexts := { c with leaves := c.leaves + 1 }

/-- The lookup `XFindContext`; `some` is the result 0 with the value found. -/
def XFindContext (c : D3DContexts) (hwnd : Nat) : Option d3d_drawable :=
  (c.contexts.find? (fun e => e.1 == hwnd)).map (fun e => e.2)

def XSaveContext (c : D3DContexts) (hwnd : Nat) (d3d : d3d_drawable) : D3DContexts :=
  { c with contexts := (hwnd, d3d) :: c.contexts.filter (fun e => e.1 != hwnd) }

def HeapAlloc (c : D3DContexts) : Bool × D3DContexts :=
  match c.alloc_fails with
  | [] => (false, c)
  | b :: rest => (b, { c with alloc_fails := rest })

def ExtEscape (c : D3DContexts) : Option (Nat × RECT) × D3DContexts :=
  match c.escapes with
  | [] => (none, c)
  | e :: rest => (e, { c with escapes := rest })

def create_d3dadapter_drawable (c : D3DContexts) (hwnd : Nat) :
    Option d3d_drawable × D3DContexts :=
  let a := HeapAlloc c
  if a.1 then (none, a.2)
  else
    let e := ExtEscape a.2
    match e.1 with
    | none => (none, e.2)
    | some x => (some { drawable := x.1, wnd := hwnd, dc_rect := x.2 }, e.2)

/-- The function `get_d3d_drawable`; the store through the pointer found in the table is a
replacement of the table entry. -/
def get_d3d_drawable (c : D3DContexts) (hwnd : Nat) : Option d3d_drawable × D3DContexts :=
  let c1 := EnterCriticalSection c
  match XFindContext c1 hwnd with
  | some d3d =>
    let e := ExtEscape c1
    let dc_rect : RECT :=
      match e.1 with
      | some x => x.2
      | none => { left := 0, top := 0, right := 0, bottom := 0 }
    let c2 := e.2
    if d3d.dc_rect ≠ dc_rect then
      (some { d3d with dc_rect := dc_rect },
       { c2 with
         contexts := c2.contexts.map (fun p =>
           if p.1 = hwnd then (p.1, { drawable := p.2.drawable, wnd := p.2.wnd,
                                      dc_rect := dc_rect })
           else p) })
    else (some d3d, c2)
  | none =>
    let c2 := LeaveCriticalSection c1
    let r := create_d3dadapter_drawable c2 hwnd
    match r.1 with
    | none => (none, r.2)
    | some d3d =>
      let c3 : D3DContexts :=
        match r.2.races with
        | some other :: rest => XSaveContext { r.2 with races := rest } hwnd other
        | none :: rest => { r.2 with races := rest }
        | [] => r.2
      let c4 := EnterCriticalSection c3
      match XFindContext c4 hwnd with
      | some race => (some race, c4)
      | none => (some d3d, XSaveContext c4 hwnd d3d)

def release_d3d_drawable (c : D3DContexts) (d3d : Option d3d_drawable) : D3DContexts :=
  if d3d.isSome then LeaveCriticalSection c else c

/-- The fields of `struct DRI3Present` that `DRI3Present_PresentBuffer` reads;
`hDeviceWindow` is the field of that name of `params`. -/
structure DRI3Present where
  params : D3DPRESENT_PARAMETERS
  hDeviceWindow : Nat
  focus_wnd : Nat
deriving DecidableEq, Repr

/-- The destination rectangle `DRI3Present_PresentBuffer` passes on. -/
def dest_translate (dc_rect : RECT) (pDestRect : Option RECT) : Option RECT :=
  if dc_rect.top ≠ 0 ∧ dc_rect.left ≠ 0 then
    match pDestRect with
    | none => some dc_rect
    | some d =>
      some { top := toI32 (d.top + dc_rect.top), left := toI32 (d.left + dc_rect.left),
             bottom := toI32 (d.bottom + dc_rect.bottom),
             right := toI32 (d.right + dc_rect.right) }
  else pDestRect

/-- The function `DRI3Present_PresentBuffer`: the result is the `HRESULT` and the state
afterwards.  `none` when `PRESENTPixmap` does not return. -/
def DRI3Present_PresentBuffer (This : DRI3Present) (c : D3DContexts)
    (present_priv : PRESENTpriv) (w : Xcb) (present_pixmap_priv : Nat) (hWndOverride : Nat)
    (pSourceRect pDestRect : Option RECT) (pDirtyRegion : Option (List RECT)) :
    Option (Nat × D3DContexts × PRESENTpriv × Xcb) :=
  let g :=
    if hWndOverride ≠ 0 then get_d3d_drawable c hWndOverride
    else if This.hDeviceWindow ≠ 0 then get_d3d_drawable c This.hDeviceWindow
    else get_d3d_drawable c This.focus_wnd
  match g.1 with
  | none => some (D3DERR_DRIVERINTERNALERROR, g.2, present_priv, w)
  | some d3d =>
    match PRESENTPixmap present_priv w d3d.drawable present_pixmap_priv This.params
        pSourceRect (dest_translate d3d.dc_rect pDestRect) pDirtyRegion with
    | none => none
    | some r =>
      if !r.1 then some (D3DERR_DRIVERINTERNALERROR, g.2, r.2.1, r.2.2)
      else some (D3D_OK, release_d3d_drawable g.2 (some d3d), r.2.1, r.2.2)

/-! ## Concrete channels used as test inputs -/

/-- Presentation parameters: one refresh per present, swap effect discard. -/
def params_one : D3DPRESENT_PARAMETERS :=
  { PresentationInterval := 1, SwapEffect := 1, BackBufferCount := 1 }

/-- A free handle at address 1 for pixmap 100 with serial 1. -/
def free_node : PRESENTPixmapPriv :=
  { ptr := 1, pixmap := 100, released := true, present_complete_pending := false,
    serial := 1, last_present_was_flip := false }

/-- The same handle after a successful present. -/
def busy_node : PRESENTPixmapPriv :=
  { free_node with released := false, present_complete_pending := true }

/-- A channel attached to window 5 whose only handle is free. -/
def idle_channel : PRESENTpriv :=
  { channel0 with window := 5, special_event := some 1, last_serial_given := 1,
                  first_present_priv := [free_node] }

/-- A channel attached to window 5 whose only handle was presented and not yet completed. -/
def busy_channel : PRESENTpriv :=
  { idle_channel with first_present_priv := [busy_node], pixmap_present_pending := 1,
                      last_target := 1 }

/-- A detached channel whose only handle is free. -/
def detached_channel : PRESENTpriv :=
  { channel0 with last_serial_given := 1, first_present_priv := [free_node] }

/-- The connection after the present request of the handle of `idle_channel`. -/
def xcb_presented : Xcb :=
  { xcb0 with sent := [Request.present_pixmap true 5 100 1 0 0 0 0 0 1] }

/-- A connection whose next request check reports an error. -/
def xcb_reject : Xcb := { xcb0 with checks := [true] }

/-- A connection on which no special-event queue can be registered, while the request checks
report no error. -/
def xcb_noqueue : Xcb := { xcb0 with specials := [false], checks := [false, false] }

/-- A connection on which the select-input request is refused. -/
def xcb_noselect : Xcb := { xcb0 with specials := [true], checks := [true, false] }

/-- Two connections on which the request checks and the queue registrations still to come
have the same results. -/
def same_replies (w w' : Xcb) : Prop :=
  w'.checks = w.checks ∧ w'.specials = w.specials

/-- A connection that delivers the completion and the idle notice of serial 1 and then
refuses to register a special-event queue. -/
def xcb_drain_noqueue : Xcb :=
  { xcb0 with events := [some (Event.complete_notify 0 0 1 10), some (Event.idle_notify 1 100)],
              specials := [false] }

/-- Two channel states with the same target window and the same event subscription. -/
def same_target (st st' : PRESENTpriv) : Prop :=
  st'.window = st.window ∧ st'.special_event = st.special_event

/-- The invariant of the data model: a subscription exists exactly when a window is targeted. -/
def subscribed_iff_attached (st : PRESENTpriv) : Prop :=
  st.special_event.isSome = true ↔ st.window ≠ 0

/-- A life of a channel: a buffer is registered, presented on window 5 and completed as a
flip, then the channel is retargeted to window 9 and finally to a window whose subscription
fails. -/
def retarget_ops : List Op :=
  [Op.register 100 (some 1), Op.server [] [false, false] [true],
   Op.present 5 1 params_one none none none,
   Op.dispatch (Event.complete_notify 0 1 1 77),
   Op.server [some (Event.idle_notify 1 100)] [false] [true], Op.attach 9,
   Op.server [] [] [false], Op.attach 11]

/-- The steps that register or release a buffer. -/
def is_registry_op : Op → Bool
  | Op.register _ _ => true
  | Op.release _ => true
  | _ => false

/-- The serials handed out by the registrations of a run, oldest first. -/
def assigned_serials (s : PRESENTpriv × Xcb) : List Op → List Nat
  | [] => []
  | op :: rest =>
    match step s op with
    | none => []
    | some s1 =>
      (match op with
       | Op.register _ (some _) => [s1.1.last_serial_given]
       | _ => []) ++ assigned_serials s1 rest

/-- The steps `cycle` done `n` times, followed by `tail`. -/
def repeat_ops : Nat → List Op → List Op → List Op
  | 0, _, tail => tail
  | n + 1, cycle, tail => cycle ++ repeat_ops n cycle tail

/-- The state with `last_serial_given` advanced `n` times, as a `uint32_t`. -/
def advance_serial (s : PRESENTpriv × Xcb) (n : Nat) : PRESENTpriv × Xcb :=
  ({ s.1 with last_serial_given := (s.1.last_serial_given + n) % 4294967296 }, s.2)

/-- A buffer is registered and kept; 4294967295 times another buffer is registered and
released again; then a third buffer is registered. -/
def wrap_ops : List Op :=
  Op.register 100 (some 1) ::
    repeat_ops 4294967295 [Op.register 101 (some 2), Op.release 2] [Op.register 102 (some 3)]

/-- The request is the checked present request that `PRESENTPixmap` submits for its handle. -/
def is_checked_present : Request → Bool
  | Request.present_pixmap true _ _ _ _ _ _ _ _ _ => true
  | _ => false

/-- The second connection has sent what the first has sent and then requests that are not
checked present requests. -/
def appends_unchecked (w w' : Xcb) : Prop :=
  ∃ new, w'.sent = w.sent ++ new ∧ ∀ q ∈ new, is_checked_present q = false

/-- A buffer is registered, presented on window 5 and completed as a flip; no idle notice
has arrived. -/
def flip_ops : List Op :=
  [Op.register 100 (some 1), Op.server [] [false, false] [true],
   Op.present 5 1 params_one none none none,
   Op.dispatch (Event.complete_notify 0 1 1 77)]

/-- The event is not a pixmap completion for a handle that has no completion pending: such a
completion is what a server sends once for every present request it accepted. -/
def completion_expected (st : PRESENTpriv) : Event → Bool
  | Event.complete_notify kind _ serial _ =>
    if kind = XCB_PRESENT_COMPLETE_KIND_PIXMAP then
      match PRESENTFindPixmapPriv st serial with
      | some h => h.present_complete_pending
      | none => true
    else true
  | _ => true

/-- Every event of the queue is expected at the moment it is dispatched, when the events are
dispatched in order. -/
def events_expected : PRESENTpriv → List (Option Event) → Bool
  | _, [] => true
  | st, none :: rest => events_expected st rest
  | st, some ev :: rest =>
    completion_expected st ev && events_expected (PRESENThandle_events st ev) rest

/-- The events a step dispatches are expected. -/
def op_expected (s : PRESENTpriv × Xcb) : Op → Bool
  | Op.dispatch ev => completion_expected s.1 ev
  | Op.wait_leave (some ev) => completion_expected s.1 ev
  | Op.present _ _ _ _ _ _ => events_expected s.1 s.2.events
  | Op.attach _ => events_expected s.1 s.2.events
  | _ => true

/-- The events dispatched along a run are expected. -/
def ops_expected : PRESENTpriv × Xcb → List Op → Bool
  | _, [] => true
  | s, op :: rest =>
    op_expected s op &&
      (match step s op with
       | none => true
       | some s1 => ops_expected s1 rest)

/-- The counter of pending presentations agrees with the flags of the registered handles,
which live at pairwise distinct addresses. -/
def pending_consistent (st : PRESENTpriv) : Prop :=
  st.pixmap_present_pending = (pending_handles st.first_present_priv : Int)
    ∧ (st.first_present_priv.map (fun n => n.ptr)).Nodup

/-- Scenario A as a run: register, present with interval one, completion in copy mode, idle
notice, release. -/
def scenario_a_ops : List Op :=
  [Op.server [] [false] [true], Op.attach 5, Op.register 100 (some 1),
   Op.server [] [false] [], Op.present 5 1 params_one none none none,
   Op.dispatch (Event.complete_notify 0 0 1 77), Op.dispatch (Event.idle_notify 1 100),
   Op.release 1]

/-- The counter is consistent and the queued events are expected. -/
def drain_ready (st : PRESENTpriv) (w : Xcb) : Prop :=
  pending_consistent st ∧ events_expected st w.events = true

/-- The node `PRESENTPixmapInit` links in front of the registry. -/
def registered_node (st : PRESENTpriv) (pixmap p : Nat) : PRESENTPixmapPriv :=
  { ptr := p, pixmap := pixmap, released := true, present_complete_pending := false,
    serial := toU32 (st.last_serial_given + 1), last_present_was_flip := false }

/-- A connection on which polling finds nothing and the blocking waits then deliver the
completion and the idle notice of serial 1. -/
def xcb_late_events : Xcb :=
  { xcb0 with events := [none, some (Event.complete_notify 0 0 1 10),
                         some (Event.idle_notify 1 100)] }

/-- A buffer is presented on window 5; a foreign thread enters the blocking wait; the
server delivers the fence of the drain; the channel is retargeted to window 9.  The completion
of the presentation has not been dispatched. -/
def foreign_waiter_ops : List Op :=
  [Op.server [] [false] [true], Op.attach 5, Op.register 100 (some 1),
   Op.server [] [false] [], Op.present 5 1 params_one none none none, Op.wait_enter,
   Op.server [none, some (Event.complete_notify 1 0 1 6)] [false] [true], Op.attach 9]

/-- A buffer is presented on window 5; the completion in copy mode is queued, the idle
notice arrives only after a poll found the queue empty; the channel is retargeted to
window 9. -/
def late_idle_ops : List Op :=
  [Op.server [] [false] [true], Op.attach 5, Op.register 100 (some 1),
   Op.server [] [false] [], Op.present 5 1 params_one none none none,
   Op.server [some (Event.complete_notify 0 0 1 6), none, some (Event.idle_notify 1 100)]
     [false] [true],
   Op.attach 9]

/-- The event is one of the faults of the dispatcher: a pixmap completion whose serial is not
registered, or an idle notice whose serial is not registered or whose pixmap differs. -/
def faulty_event (st : PRESENTpriv) : Event → Bool
  | Event.complete_notify kind _ serial _ =>
    decide (kind = XCB_PRESENT_COMPLETE_KIND_PIXMAP) && (PRESENTFindPixmapPriv st serial).isNone
  | Event.idle_notify serial pixmap =>
    match PRESENTFindPixmapPriv st serial with
    | none => true
    | some h => decide (h.pixmap ≠ pixmap)
  | Event.other _ => false

/-- The option bits of the present request. -/
def present_options (params : D3DPRESENT_PARAMETERS) : Nat :=
  (presentationInterval params.PresentationInterval).2 |||
    (if params.SwapEffect = D3DSWAPEFFECT_COPY then XCB_PRESENT_OPTION_COPY else 0)

/-- The serial an event carries. -/
def event_serial : Event → Nat
  | Event.complete_notify _ _ serial _ => serial
  | Event.idle_notify serial _ => serial
  | Event.other _ => 0

/-- A channel with two handles: the busy one of `busy_channel` and a free one at address 2
with serial 2. -/
def two_channel : PRESENTpriv :=
  { busy_channel with
    last_serial_given := 2
    first_present_priv :=
      [{ ptr := 2, pixmap := 101, released := true, present_complete_pending := false,
         serial := 2, last_present_was_flip := false }, busy_node] }

/-- The origin of an optional rectangle; an absent rectangle has origin (0, 0). -/
def rect_origin (r : Option RECT) : Int × Int :=
  match r with
  | some r => (r.left, r.top)
  | none => (0, 0)

/-- The values an `int16_t` field holds. -/
def fits_int16 (x : Int) : Bool := decide (-32768 ≤ x ∧ x ≤ 32767)

/-- A connection on which pixmap 100 is a buffer of 100 by 100 pixels. -/
def xcb_geometry : Xcb := { xcb0 with geometry := [(100, 100, 100)] }

/-- The memory `calloc` returns for one rectangle. -/
def zero_rect : xcb_rectangle_t := { x := 0, y := 0, width := 0, height := 0 }

/-- A channel on window 5 with a foreign thread in the blocking wait, nothing pending, and
one handle that is not released and whose last present was a copy. -/
def copy_waited_channel : PRESENTpriv :=
  { idle_channel with
    xcb_wait := true
    first_present_priv := [{ free_node with released := false }] }

/-- How many enters of `context_section` have no leave yet. -/
def section_held (c : D3DContexts) : Int := (c.enters : Int) - c.leaves

/-- The window `DRI3Present_PresentBuffer` asks the drawable of. -/
def present_hwnd (This : DRI3Present) (hWndOverride : Nat) : Nat :=
  if hWndOverride ≠ 0 then hWndOverride
  else if This.hDeviceWindow ≠ 0 then This.hDeviceWindow
  else This.focus_wnd

/-- A device whose window is 7. -/
def device_seven : DRI3Present := { params := params_one, hDeviceWindow := 7, focus_wnd := 8 }

/-- The drawable table with window 7 on X drawable 5 and the section free. -/
def contexts_seven : D3DContexts :=
  { contexts := [(7, { drawable := 5, wnd := 7,
                       dc_rect := { left := 0, top := 0, right := 0, bottom := 0 } })],
    enters := 0, leaves := 0, alloc_fails := [], escapes := [], races := [] }

/-- The results of `k` successive calls of `xcb_wait_for_special_event` on a connection. -/
def xcb_wait_results : Nat → Xcb → List (Option Event)
  | 0, _ => []
  | k + 1, w => (xcb_next_event w).1 :: xcb_wait_results k (xcb_next_event w).2

/-! ## Basic facts about the primitives -/

theorem PRESENTflush_events_sent (st : PRESENTpriv) (w : Xcb) (b : Bool) :
    (PRESENTflush_events st w b).2.sent = w.sent := by
  unfold PRESENTflush_events
  split <;> rfl

theorem PRESENTflush_events_checks (st : PRESENTpriv) (w : Xcb) (b : Bool) :
    (PRESENTflush_events st w b).2.checks = w.checks
      ∧ (PRESENTflush_events st w b).2.specials = w.specials := by
  unfold PRESENTflush_events
  split <;> exact ⟨rfl, rfl⟩

theorem PRESENTflush_events_idle (st : PRESENTpriv) (w : Xcb) (b : Bool)
    (h : ∀ e, w.events.head? ≠ some (some e)) : (PRESENTflush_events st w b).1 = st := by
  unfold PRESENTflush_events
  split
  · rfl
  · cases hw : w.events with
    | nil => simp [PRESENTflush_loop]
    | cons e rest =>
      cases e with
      | none => simp [PRESENTflush_loop]
      | some e => exact absurd (by simp [hw]) (h e)

theorem PRESENTPixmap_attach_same (st : PRESENTpriv) (w : Xcb) :
    PRESENTPixmap_attach st w st.window = some (st, w) := by
  simp [PRESENTPixmap_attach]

/-! ## C1: presenting a busy buffer -/

/-- C1: on a channel attached to the requested window, when the handle is not released or
still completion-pending after the initial non-blocking drain, `PRESENTPixmap` returns FALSE,
the state it leaves is the state the drain left, no request at all has been issued, and when
the drain found no event queued the state is the one the call started with. -/
theorem present_busy_fails (st : PRESENTpriv) (w : Xcb) (window p : Nat)
    (params : D3DPRESENT_PARAMETERS) (src dst : Option RECT) (dirty : Option (List RECT))
    (h : PRESENTPixmapPriv)
    (hattached : window = st.window) (hwindow : window ≠ 0)
    (hnode : derefPixmapPriv (PRESENTflush_events st w false).1.first_present_priv p = some h)
    (hbusy : h.released = false ∨ h.present_complete_pending = true) :
    PRESENTPixmap st w window p params src dst dirty
        = some (false, (PRESENTflush_events st w false).1, (PRESENTflush_events st w false).2)
      ∧ (PRESENTflush_events st w false).2.sent = w.sent
      ∧ ((∀ e, w.events.head? ≠ some (some e)) → (PRESENTflush_events st w false).1 = st) := by
  refine ⟨?_, PRESENTflush_events_sent st w false, PRESENTflush_events_idle st w false⟩
  subst hattached
  have hb : (!h.released || h.present_complete_pending) = true := by
    rcases hbusy with hb | hb <;> simp [hb]
  simp [PRESENTPixmap, PRESENTPixmap_attach_same, hwindow, PRESENTPixmap_submit, hnode, hb]

/-- C1 at a concrete input: presenting the busy handle of `busy_channel`. -/
theorem present_busy_fails_witness :
    PRESENTPixmap busy_channel xcb0 5 1 params_one none none none
        = some (false, busy_channel, xcb0) :=
  (present_busy_fails busy_channel xcb0 5 1 params_one none none none busy_node
    rfl (by decide) rfl (Or.inl rfl)).1

/-! ## C2, C3: the outcome of a submission -/

theorem derefPixmapPriv_store (l : List PRESENTPixmapPriv) (p q : Nat)
    (f : PRESENTPixmapPriv → PRESENTPixmapPriv) (hf : ∀ n, (f n).ptr = n.ptr) :
    derefPixmapPriv (storePixmapPriv l p f) q
      = (derefPixmapPriv l q).map (fun n => if n.ptr = p then f n else n) := by
  induction l with
  | nil => rfl
  | cons a l ih =>
    simp only [derefPixmapPriv, storePixmapPriv] at ih ⊢
    rw [List.map_cons, List.find?_cons, List.find?_cons]
    have hptr : (if a.ptr = p then f a else a).ptr = a.ptr := by split <;> simp [hf]
    rw [hptr]
    cases hq : (a.ptr == q) with
    | true => simp
    | false => simpa using ih

theorem derefPixmapPriv_ptr (l : List PRESENTPixmapPriv) (p : Nat) (h : PRESENTPixmapPriv)
    (hd : derefPixmapPriv l p = some h) : h.ptr = p ∧ h ∈ l := by
  unfold derefPixmapPriv at hd
  have h1 := List.find?_some hd
  exact ⟨by simpa using h1, List.mem_of_find?_eq_some hd⟩

/-- Shape of a call of `PRESENTPixmap` that returns. -/
theorem PRESENTPixmap_cases (st : PRESENTpriv) (w : Xcb) (window p : Nat)
    (params : D3DPRESENT_PARAMETERS) (src dst : Option RECT) (dirty : Option (List RECT))
    (r : Bool × PRESENTpriv × Xcb)
    (hs : PRESENTPixmap st w window p params src dst dirty = some r) :
    ∃ a, PRESENTPixmap_attach st w window = some a ∧
      ((window = 0 ∧ r = (false, a.1, a.2)) ∨
       (window ≠ 0 ∧ PRESENTPixmap_submit (PRESENTflush_events a.1 a.2 false).1
          (PRESENTflush_events a.1 a.2 false).2 window p params src dst dirty = some r)) := by
  unfold PRESENTPixmap at hs
  cases ha : PRESENTPixmap_attach st w window with
  | none => simp [ha] at hs
  | some a =>
    refine ⟨a, rfl, ?_⟩
    simp only [ha] at hs
    by_cases hw : window = 0
    · left; simp [hw] at hs; exact ⟨hw, hs.symm⟩
    · right; simp [hw] at hs; exact ⟨hw, hs⟩

theorem xcb_request_check_sent (w : Xcb) : (xcb_request_check w).2.sent = w.sent := by
  unfold xcb_request_check
  split <;> rfl

theorem xcb_request_check_error (w : Xcb) :
    (xcb_request_check w).1 = true ↔ w.checks.head? = some true := by
  unfold xcb_request_check
  split <;> rename_i h <;> simp [h]

/-- The checked present request is the last request `PRESENTPixmap_send` issues, and it
carries the target sequence computed from the state. -/
theorem PRESENTPixmap_send_sent (st : PRESENTpriv) (w : Xcb) (window : Nat)
    (h : PRESENTPixmapPriv) (params : D3DPRESENT_PARAMETERS) (src dst : Option RECT)
    (dirty : Option (List RECT)) :
    ∃ prior valid update x_off y_off options,
      (PRESENTPixmap_send st w window h params src dst dirty).sent
        = prior ++ [Request.present_pixmap true window h.pixmap h.serial valid update
            x_off y_off options (toU64 (target_msc st params.PresentationInterval))] :=
  ⟨_, _, _, _, _, _, rfl⟩

/-- Shape of a submission that returns: busy, rejected or accepted. -/
theorem PRESENTPixmap_submit_cases (st : PRESENTpriv) (w : Xcb) (window p : Nat)
    (params : D3DPRESENT_PARAMETERS) (src dst : Option RECT) (dirty : Option (List RECT))
    (r : Bool × PRESENTpriv × Xcb)
    (hs : PRESENTPixmap_submit st w window p params src dst dirty = some r) :
    ∃ h, derefPixmapPriv st.first_present_priv p = some h ∧
      (((h.released = false ∨ h.present_complete_pending = true) ∧ r = (false, st, w)) ∨
       (h.released = true ∧ h.present_complete_pending = false ∧
        r.2.2 = (xcb_request_check (PRESENTPixmap_send st w window h params src dst dirty)).2 ∧
        (((PRESENTPixmap_send st w window h params src dst dirty).checks.head? = some true ∧
            r.1 = false ∧ r.2.1 = st) ∨
         ((PRESENTPixmap_send st w window h params src dst dirty).checks.head? ≠ some true ∧
            r.1 = true ∧ r.2.1 =
              { st with
                last_target := toU64 (target_msc st params.PresentationInterval)
                pixmap_present_pending := st.pixmap_present_pending + 1
                first_present_priv := storePixmapPriv st.first_present_priv p
                  (fun n => { n with present_complete_pending := true, released := false }) })))) := by
  unfold PRESENTPixmap_submit at hs
  cases hd : derefPixmapPriv st.first_present_priv p with
  | none => simp [hd] at hs
  | some h =>
    refine ⟨h, rfl, ?_⟩
    simp only [hd] at hs
    by_cases hb : (!h.released || h.present_complete_pending) = true
    · left
      simp only [hb, if_true, Option.some.injEq] at hs
      refine ⟨?_, hs.symm⟩
      cases hr : h.released <;> cases hp : h.present_complete_pending <;> simp [hr, hp] at hb ⊢
    · right
      have hr : h.released = true := by
        cases hr : h.released <;> simp [hr] at hb ⊢
      have hp : h.present_complete_pending = false := by
        cases hp : h.present_complete_pending <;> simp [hr, hp] at hb ⊢
      refine ⟨hr, hp, ?_⟩
      rw [if_neg hb] at hs
      by_cases hc : (xcb_request_check
          (PRESENTPixmap_send st w window h params src dst dirty)).1 = true
      · simp only [hc, if_true, Option.some.injEq] at hs
        subst hs
        exact ⟨rfl, Or.inl ⟨(xcb_request_check_error _).1 hc, rfl, rfl⟩⟩
      · rw [if_neg hc] at hs
        injection hs with hs
        subst hs
        exact ⟨rfl, Or.inr ⟨fun hx => hc ((xcb_request_check_error _).2 hx), rfl, rfl⟩⟩

theorem PRESENTPixmap_regions_checks (w : Xcb) (pixmap : Nat) (src dst : Option RECT)
    (dirty : Option (List RECT)) :
    (PRESENTPixmap_regions w pixmap src dst dirty).2.checks = w.checks := by
  unfold PRESENTPixmap_regions
  split
  · rfl
  · split <;> rfl

theorem PRESENTPixmap_send_checks (st : PRESENTpriv) (w : Xcb) (window : Nat)
    (h : PRESENTPixmapPriv) (params : D3DPRESENT_PARAMETERS) (src dst : Option RECT)
    (dirty : Option (List RECT)) :
    (PRESENTPixmap_send st w window h params src dst dirty).checks = w.checks := by
  unfold PRESENTPixmap_send
  simp only [xcb_send, PRESENTPixmap_regions_checks]
  split <;> rfl

/-- C2: when `PRESENTPixmap` returns TRUE for the handle at `p`, then with respect to the
state right before the submission (after the retarget and the non-blocking drain): the
handle has `present_complete_pending` set and `released` cleared, `pixmap_present_pending`
is one more, `last_target` is the target sequence carried by the present request, which is
the last request sent, and every node at another address is unchanged. -/
theorem present_success_effect (st : PRESENTpriv) (w : Xcb) (window p : Nat)
    (params : D3DPRESENT_PARAMETERS) (src dst : Option RECT) (dirty : Option (List RECT))
    (st' : PRESENTpriv) (w' : Xcb)
    (hs : PRESENTPixmap st w window p params src dst dirty = some (true, st', w')) :
    ∃ a h prior valid update x_off y_off options,
      PRESENTPixmap_attach st w window = some a ∧
      derefPixmapPriv (PRESENTflush_events a.1 a.2 false).1.first_present_priv p = some h ∧
      derefPixmapPriv st'.first_present_priv p
        = some { h with present_complete_pending := true, released := false } ∧
      st'.pixmap_present_pending
        = (PRESENTflush_events a.1 a.2 false).1.pixmap_present_pending + 1 ∧
      w'.sent = prior ++ [Request.present_pixmap true window h.pixmap h.serial valid update
        x_off y_off options st'.last_target] ∧
      st'.first_present_priv = (PRESENTflush_events a.1 a.2 false).1.first_present_priv.map
        (fun n => if n.ptr = p then { n with present_complete_pending := true, released := false }
                  else n) := by
  obtain ⟨a, ha, hcase⟩ := PRESENTPixmap_cases _ _ _ _ _ _ _ _ _ hs
  rcases hcase with ⟨_, hr⟩ | ⟨_, hsub⟩
  · simp at hr
  · obtain ⟨h, hd, hcase⟩ := PRESENTPixmap_submit_cases _ _ _ _ _ _ _ _ _ hsub
    rcases hcase with ⟨_, hr⟩ | ⟨_, _, hw, hcase⟩
    · simp at hr
    · rcases hcase with ⟨_, hr, _⟩ | ⟨_, _, hst⟩
      · simp at hr
      · simp only at hw hst
        obtain ⟨prior, valid, update, x_off, y_off, options, hsent⟩ :=
          PRESENTPixmap_send_sent (PRESENTflush_events a.1 a.2 false).1
            (PRESENTflush_events a.1 a.2 false).2 window h params src dst dirty
        refine ⟨a, h, prior, valid, update, x_off, y_off, options, ha, hd, ?_, ?_, ?_, ?_⟩
        · rw [hst]
          simp only
          rw [derefPixmapPriv_store _ _ _
            (fun n => { n with present_complete_pending := true, released := false })
            (fun _ => rfl), hd]
          simp [(derefPixmapPriv_ptr _ _ _ hd).1]
        · rw [hst]
        · rw [hw, xcb_request_check_sent, hsent, hst]
        · rw [hst]; rfl

/-- C3: when the server rejects the present request (the request check returns an error),
`PRESENTPixmap` returns FALSE after having sent the request, and the whole channel state,
with it the flags of the handle, `pixmap_present_pending` and `last_target`, is the state
right before the submission attempt. -/
theorem present_rejected_unchanged (st : PRESENTpriv) (w : Xcb) (window p : Nat)
    (params : D3DPRESENT_PARAMETERS) (src dst : Option RECT) (dirty : Option (List RECT))
    (a : PRESENTpriv × Xcb) (h : PRESENTPixmapPriv)
    (hwindow : window ≠ 0)
    (hattach : PRESENTPixmap_attach st w window = some a)
    (hnode : derefPixmapPriv (PRESENTflush_events a.1 a.2 false).1.first_present_priv p = some h)
    (hfree : h.released = true ∧ h.present_complete_pending = false)
    (hreject : (PRESENTflush_events a.1 a.2 false).2.checks.head? = some true) :
    ∃ w' prior valid update x_off y_off options,
      PRESENTPixmap st w window p params src dst dirty
        = some (false, (PRESENTflush_events a.1 a.2 false).1, w') ∧
      w'.sent = prior ++ [Request.present_pixmap true window h.pixmap h.serial valid update
        x_off y_off options
        (toU64 (target_msc (PRESENTflush_events a.1 a.2 false).1 params.PresentationInterval))] := by
  obtain ⟨prior, valid, update, x_off, y_off, options, hsent⟩ :=
    PRESENTPixmap_send_sent (PRESENTflush_events a.1 a.2 false).1
      (PRESENTflush_events a.1 a.2 false).2 window h params src dst dirty
  refine ⟨(xcb_request_check (PRESENTPixmap_send (PRESENTflush_events a.1 a.2 false).1
    (PRESENTflush_events a.1 a.2 false).2 window h params src dst dirty)).2,
    prior, valid, update, x_off, y_off, options, ?_, ?_⟩
  · have hc : (xcb_request_check (PRESENTPixmap_send (PRESENTflush_events a.1 a.2 false).1
        (PRESENTflush_events a.1 a.2 false).2 window h params src dst dirty)).1 = true := by
      rw [xcb_request_check_error, PRESENTPixmap_send_checks]; exact hreject
    simp only [PRESENTPixmap, hattach, hwindow, if_false, PRESENTPixmap_submit, hnode, hfree.1,
      hfree.2, Bool.not_true, Bool.or_false, hc, if_true]
    simp
  · rw [xcb_request_check_sent, hsent]

/-- C2 at a concrete input: presenting the free handle of `idle_channel`. -/
theorem present_success_effect_witness :
    PRESENTPixmap idle_channel xcb0 5 1 params_one none none none
        = some (true, busy_channel, xcb_presented) ∧
    ∃ a h prior valid update x_off y_off options,
      PRESENTPixmap_attach idle_channel xcb0 5 = some a ∧
      derefPixmapPriv (PRESENTflush_events a.1 a.2 false).1.first_present_priv 1 = some h ∧
      derefPixmapPriv busy_channel.first_present_priv 1
        = some { h with present_complete_pending := true, released := false } ∧
      busy_channel.pixmap_present_pending
        = (PRESENTflush_events a.1 a.2 false).1.pixmap_present_pending + 1 ∧
      xcb_presented.sent = prior ++ [Request.present_pixmap true 5 h.pixmap h.serial valid update
        x_off y_off options busy_channel.last_target] ∧
      busy_channel.first_present_priv
        = (PRESENTflush_events a.1 a.2 false).1.first_present_priv.map
        (fun n => if n.ptr = 1 then { n with present_complete_pending := true, released := false }
                  else n) :=
  ⟨by decide, present_success_effect idle_channel xcb0 5 1 params_one none none none
    busy_channel xcb_presented (by decide)⟩

/-- C3 at a concrete input: the present of the free handle of `idle_channel` is rejected. -/
theorem present_rejected_unchanged_witness :
    ∃ w' prior valid update x_off y_off options,
      PRESENTPixmap idle_channel xcb_reject 5 1 params_one none none none
        = some (false, idle_channel, w') ∧
      w'.sent = prior ++ [Request.present_pixmap true 5 100 1 valid update x_off y_off options
        1] :=
  present_rejected_unchanged idle_channel xcb_reject 5 1 params_one none none none
    (idle_channel, xcb_reject) free_node (by decide) (by decide) (by decide)
    ⟨rfl, rfl⟩ (by decide)

/-! ## C4: a failed attach inside `PRESENTPixmap` -/

/-- C4, the code at the failing inputs.  On a detached channel the attach to window 5 fails
(no special-event queue, or the select-input request refused) and leaves the channel
detached, yet `PRESENTPixmap` goes on, sends the present request of the handle and, the
server accepting it, returns TRUE with the handle marked pending. -/
theorem present_ignores_failed_attach :
    (PRESENTPrivChangeWindow detached_channel xcb_noqueue 5).map (fun r => (r.1, r.2.1))
        = some (false, detached_channel) ∧
    (PRESENTPixmap detached_channel xcb_noqueue 5 1 params_one none none none).map
        (fun r => (r.1, r.2.1, r.2.2.sent))
      = some (true,
          { detached_channel with first_present_priv := [busy_node], pixmap_present_pending := 1,
                                  last_target := 1 },
          [Request.present_select_input 1 5 6,
           Request.present_pixmap true 5 100 1 0 0 0 0 0 1]) ∧
    (PRESENTPrivChangeWindow detached_channel xcb_noselect 5).map (fun r => (r.1, r.2.1))
        = some (false, detached_channel) ∧
    (PRESENTPixmap detached_channel xcb_noselect 5 1 params_one none none none).map
        (fun r => (r.1, r.2.2.sent))
      = some (true,
          [Request.present_select_input 1 5 6,
           Request.unregister_for_special_event (some 1),
           Request.present_pixmap true 5 100 1 0 0 0 0 0 1]) := by
  refine ⟨?_, ?_, ?_, ?_⟩ <;> decide

/-! ## C5: a failed subscription -/

theorem same_replies_refl (w : Xcb) : same_replies w w := ⟨rfl, rfl⟩

theorem same_replies_trans {w1 w2 w3 : Xcb} (h1 : same_replies w1 w2)
    (h2 : same_replies w2 w3) : same_replies w1 w3 :=
  ⟨h2.1.trans h1.1, h2.2.trans h1.2⟩

theorem PRESENTwait_events_replies (st : PRESENTpriv) (w : Xcb) (b : Bool) :
    same_replies w (PRESENTwait_events st w b).2.2 := by
  unfold PRESENTwait_events xcb_next_event
  cases hw : w.events with
  | nil => exact ⟨rfl, rfl⟩
  | cons e rest => cases e <;> exact ⟨rfl, rfl⟩

theorem PRESENTwait_while_replies (cond : PRESENTpriv → Bool) (fuel : Nat) :
    ∀ (st : PRESENTpriv) (w : Xcb) (a : PRESENTpriv × Xcb),
      PRESENTwait_while cond fuel st w = some a → same_replies w a.2 := by
  induction fuel with
  | zero =>
    intro st w a h
    unfold PRESENTwait_while at h
    split at h
    · cases h
    · injection h with h; subst h; exact same_replies_refl w
  | succ n ih =>
    intro st w a h
    unfold PRESENTwait_while at h
    split at h
    · exact same_replies_trans (PRESENTwait_events_replies st w false) (ih _ _ _ h)
    · injection h with h; subst h; exact same_replies_refl w

theorem PRESENTflush_events_replies (st : PRESENTpriv) (w : Xcb) (b : Bool) :
    same_replies w (PRESENTflush_events st w b).2 :=
  PRESENTflush_events_checks st w b

theorem PRESENTForceReleases_walk_replies (l : List Nat) :
    ∀ (st : PRESENTpriv) (w : Xcb), same_replies w (PRESENTForceReleases_walk l st w).2 := by
  induction l with
  | nil => intro st w; exact same_replies_refl w
  | cons c rest ih =>
    intro st w
    unfold PRESENTForceReleases_walk
    split
    · exact ih st w
    · split
      · split
        · exact ih st w
        · refine same_replies_trans ?_ (ih _ _)
          refine same_replies_trans ?_ (PRESENTflush_events_replies _ _ true)
          exact same_replies_trans ⟨rfl, rfl⟩ (PRESENTwait_events_replies _ _ false)
      · exact ih st w

theorem PRESENTForceReleases_replies (st : PRESENTpriv) (w : Xcb) (a : PRESENTpriv × Xcb)
    (h : PRESENTForceReleases st w = some a) : same_replies w a.2 := by
  unfold PRESENTForceReleases at h
  split at h
  · injection h with h; subst h; exact same_replies_refl w
  · cases hw : PRESENTForceReleases_wait st w with
    | none => simp [hw] at h
    | some b =>
      simp only [hw, Option.some.injEq] at h
      subst h
      refine same_replies_trans ?_ (PRESENTForceReleases_walk_replies _ _ _)
      unfold PRESENTForceReleases_wait at hw
      split at hw
      · dsimp only at hw
        split at hw
        · cases hw
        · rename_i c hc
          have h1 := PRESENTwait_while_replies _ _ _ _ _ hc
          have h2 := PRESENTwait_while_replies _ _ _ _ _ hw
          have h3 := PRESENTflush_events_replies c.1 c.2 true
          exact same_replies_trans (same_replies_trans (same_replies_trans ⟨rfl, rfl⟩ h1) h3)
            (same_replies_trans ⟨rfl, rfl⟩ h2)
      · split at hw
        · cases hw
        · rename_i c hc
          injection hw with hw
          subst hw
          exact same_replies_trans (PRESENTwait_while_replies _ _ _ _ _ hc)
            (PRESENTflush_events_replies c.1 c.2 true)

theorem PRESENTFreeXcbQueue_replies (st : PRESENTpriv) (w : Xcb) :
    same_replies w (PRESENTFreeXcbQueue st w).2 := by
  unfold PRESENTFreeXcbQueue
  split <;> exact ⟨rfl, rfl⟩

/-- A subscription that fails leaves the channel detached and reports FALSE. -/
theorem PRESENTPrivChangeWindow_select_fail (st : PRESENTpriv) (w : Xcb) (window : Nat)
    (hw : window ≠ 0)
    (hfail : w.checks.head? = some true ∨ w.specials.head? ≠ some true) :
    (PRESENTPrivChangeWindow_select st w window).1 = false
      ∧ (PRESENTPrivChangeWindow_select st w window).2.1.window = 0
      ∧ (PRESENTPrivChangeWindow_select st w window).2.1.special_event = none := by
  unfold PRESENTPrivChangeWindow_select
  · simp only [ne_eq, hw, not_false_eq_true, if_true]
    have hc : (xcb_request_check (xcb_register_for_special_xge
        (xcb_send (xcb_generate_id w).2 (Request.present_select_input (xcb_generate_id w).1 window
          (XCB_PRESENT_EVENT_MASK_COMPLETE_NOTIFY ||| XCB_PRESENT_EVENT_MASK_IDLE_NOTIFY)))
        (xcb_generate_id w).1).2).1 = true
        ∨ (xcb_register_for_special_xge
        (xcb_send (xcb_generate_id w).2 (Request.present_select_input (xcb_generate_id w).1 window
          (XCB_PRESENT_EVENT_MASK_COMPLETE_NOTIFY ||| XCB_PRESENT_EVENT_MASK_IDLE_NOTIFY)))
        (xcb_generate_id w).1).1 = none := by
      rcases hfail with hf | hf
      · left
        rw [xcb_request_check_error]
        unfold xcb_register_for_special_xge xcb_send xcb_generate_id
        cases hs : w.specials <;> simpa using hf
      · right
        unfold xcb_register_for_special_xge xcb_send xcb_generate_id
        cases hs : w.specials with
        | nil => rfl
        | cons b rest =>
          cases b
          · rfl
          · simp [hs] at hf
    rcases hc with hc | hc
    · simp [hc, hw]
    · simp [hc, hw]

/-- C5: for every channel state and every non-null window, once the drain has returned,
a subscription that fails (the select-input check returns an error, or no special-event
queue is obtained) makes `PRESENTPrivChangeWindow` return FALSE with `window` 0 and
`special_event` NULL. -/
theorem attach_failure_detaches (st : PRESENTpriv) (w : Xcb) (window : Nat)
    (a : PRESENTpriv × Xcb) (hwindow : window ≠ 0)
    (hdrain : PRESENTForceReleases st w = some a)
    (hfail : w.checks.head? = some true ∨ w.specials.head? ≠ some true) :
    ∃ st' w', PRESENTPrivChangeWindow st w window = some (false, st', w')
      ∧ st'.window = 0 ∧ st'.special_event = none := by
  have hr := same_replies_trans (PRESENTForceReleases_replies st w a hdrain)
    (PRESENTFreeXcbQueue_replies a.1 a.2)
  have hfail' : (PRESENTFreeXcbQueue a.1 a.2).2.checks.head? = some true
      ∨ (PRESENTFreeXcbQueue a.1 a.2).2.specials.head? ≠ some true := by
    rw [hr.1, hr.2]; exact hfail
  have hsel := PRESENTPrivChangeWindow_select_fail (PRESENTFreeXcbQueue a.1 a.2).1
    (PRESENTFreeXcbQueue a.1 a.2).2 window hwindow hfail'
  refine ⟨(PRESENTPrivChangeWindow_select (PRESENTFreeXcbQueue a.1 a.2).1
      (PRESENTFreeXcbQueue a.1 a.2).2 window).2.1,
    (PRESENTPrivChangeWindow_select (PRESENTFreeXcbQueue a.1 a.2).1
      (PRESENTFreeXcbQueue a.1 a.2).2 window).2.2, ?_, hsel.2.1, hsel.2.2⟩
  unfold PRESENTPrivChangeWindow
  rw [hdrain]
  simp only [Option.some.injEq]
  rw [← hsel.1]

/-- C5 at a concrete input: retargeting `busy_channel` to window 9 when no queue can be
registered; the drain first consumes the completion and the idle notice. -/
theorem attach_failure_detaches_witness :
    PRESENTForceReleases busy_channel xcb_drain_noqueue
        = some ({ idle_channel with last_msc := 10, last_target := 1 },
                { xcb_drain_noqueue with events := [] }) ∧
    ∃ st' w', PRESENTPrivChangeWindow busy_channel xcb_drain_noqueue 9 = some (false, st', w')
      ∧ st'.window = 0 ∧ st'.special_event = none :=
  ⟨by decide, attach_failure_detaches busy_channel xcb_drain_noqueue 9
    ({ idle_channel with last_msc := 10, last_target := 1 },
     { xcb_drain_noqueue with events := [] })
    (by decide) (by decide) (Or.inr (by decide))⟩

/-! ## C10: releasing a buffer -/

/-- Unlinking removes the node the pointer denotes and keeps all others in order. -/
theorem PRESENTTryFreePixmap_unlink_split (l : List PRESENTPixmapPriv) (p : Nat)
    (h : PRESENTPixmapPriv) (hd : derefPixmapPriv l p = some h) :
    ∃ before after, l = before ++ h :: after ∧ (∀ n ∈ before, n.ptr ≠ p)
      ∧ PRESENTTryFreePixmap_unlink l p = before ++ after := by
  induction l with
  | nil => simp [derefPixmapPriv] at hd
  | cons a l ih =>
    unfold derefPixmapPriv at hd ih
    rw [List.find?_cons] at hd
    by_cases ha : a.ptr = p
    · have : (a.ptr == p) = true := by simp [ha]
      simp only [this, Option.some.injEq] at hd
      subst hd
      exact ⟨[], l, rfl, by simp, by simp [PRESENTTryFreePixmap_unlink, ha]⟩
    · have : (a.ptr == p) = false := by simp [ha]
      simp only [this] at hd
      obtain ⟨before, after, hl, hb, hu⟩ := ih hd
      refine ⟨a :: before, after, by simp [hl], ?_, by simp [PRESENTTryFreePixmap_unlink, ha, hu]⟩
      intro n hn
      rcases List.mem_cons.1 hn with rfl | hn
      · exact ha
      · exact hb n hn

/-- C10: for a registered handle, `PRESENTTryFreePixmap` returns TRUE exactly when the handle
is released and not completion-pending; on FALSE the channel is unchanged; on TRUE the
registry is the old one with that node taken out, all other nodes unchanged and in the same
order, and no other field of the channel changes. -/
theorem try_free_pixmap_spec (st : PRESENTpriv) (p : Nat) (h : PRESENTPixmapPriv)
    (hnode : derefPixmapPriv st.first_present_priv p = some h) :
    ∃ r st', PRESENTTryFreePixmap st p = some (r, st') ∧
      (r = true ↔ (h.released = true ∧ h.present_complete_pending = false)) ∧
      (r = false → st' = st) ∧
      (r = true → ∃ before after,
        st.first_present_priv = before ++ h :: after ∧ (∀ n ∈ before, n.ptr ≠ p) ∧
        st' = { st with first_present_priv := before ++ after }) := by
  unfold PRESENTTryFreePixmap
  rw [hnode]
  by_cases hb : (!h.released || h.present_complete_pending) = true
  · refine ⟨false, st, by simp [hb], ?_, fun _ => rfl, by simp⟩
    cases hr : h.released <;> cases hp : h.present_complete_pending <;> simp [hr, hp] at hb ⊢
  · obtain ⟨before, after, hl, hbef, hu⟩ := PRESENTTryFreePixmap_unlink_split _ _ _ hnode
    refine ⟨true, _, by simp only [hb]; rfl, ?_, by simp, fun _ => ⟨before, after, hl, hbef, ?_⟩⟩
    · cases hr : h.released <;> cases hp : h.present_complete_pending <;> simp [hr, hp] at hb ⊢
    · rw [hu]

/-- C10 at concrete inputs: the free handle of `idle_channel` is freed, the busy handle of
`busy_channel` is not. -/
theorem try_free_pixmap_spec_witness :
    (∃ r st', PRESENTTryFreePixmap idle_channel 1 = some (r, st') ∧
      (r = true ↔ (free_node.released = true ∧ free_node.present_complete_pending = false)) ∧
      (r = false → st' = idle_channel) ∧
      (r = true → ∃ before after,
        idle_channel.first_present_priv = before ++ free_node :: after ∧
        (∀ n ∈ before, n.ptr ≠ 1) ∧
        st' = { idle_channel with first_present_priv := before ++ after })) ∧
    PRESENTTryFreePixmap idle_channel 1
      = some (true, { idle_channel with first_present_priv := [] }) ∧
    PRESENTTryFreePixmap busy_channel 1 = some (false, busy_channel) :=
  ⟨try_free_pixmap_spec idle_channel 1 free_node (by decide), by decide, by decide⟩

/-! ## C9: subscription exactly when attached -/

theorem same_target_refl (st : PRESENTpriv) : same_target st st := ⟨rfl, rfl⟩

theorem same_target_trans {s1 s2 s3 : PRESENTpriv} (h1 : same_target s1 s2)
    (h2 : same_target s2 s3) : same_target s1 s3 :=
  ⟨h2.1.trans h1.1, h2.2.trans h1.2⟩

theorem PRESENThandle_events_target (st : PRESENTpriv) (ev : Event) :
    same_target st (PRESENThandle_events st ev) := by
  unfold PRESENThandle_events
  cases ev with
  | complete_notify kind mode serial msc =>
    simp only
    split
    · split <;> exact ⟨rfl, rfl⟩
    · split
      · exact ⟨rfl, rfl⟩
      · split <;> exact ⟨rfl, rfl⟩
  | idle_notify serial pixmap =>
    simp only
    split
    · exact ⟨rfl, rfl⟩
    · split <;> exact ⟨rfl, rfl⟩
  | other t => exact ⟨rfl, rfl⟩

theorem PRESENTflush_loop_target (evs : List (Option Event)) :
    ∀ st : PRESENTpriv, same_target st (PRESENTflush_loop evs st).1 := by
  induction evs with
  | nil => intro st; exact same_target_refl st
  | cons e rest ih =>
    intro st
    cases e with
    | none => exact same_target_refl st
    | some ev =>
      unfold PRESENTflush_loop
      exact same_target_trans (PRESENThandle_events_target st ev) (ih _)

theorem PRESENTflush_events_target (st : PRESENTpriv) (w : Xcb) (b : Bool) :
    same_target st (PRESENTflush_events st w b).1 := by
  unfold PRESENTflush_events
  split
  · exact same_target_refl st
  · exact PRESENTflush_loop_target _ _

theorem PRESENTwait_events_target (st : PRESENTpriv) (w : Xcb) :
    same_target st (PRESENTwait_events st w false).2.1 := by
  unfold PRESENTwait_events xcb_next_event
  cases hw : w.events with
  | nil => exact ⟨rfl, rfl⟩
  | cons e rest =>
    cases e with
    | none => exact ⟨rfl, rfl⟩
    | some ev => exact PRESENThandle_events_target st ev

theorem PRESENTwait_while_target (cond : PRESENTpriv → Bool) (fuel : Nat) :
    ∀ (st : PRESENTpriv) (w : Xcb) (a : PRESENTpriv × Xcb),
      PRESENTwait_while cond fuel st w = some a → same_target st a.1 := by
  induction fuel with
  | zero =>
    intro st w a h
    unfold PRESENTwait_while at h
    split at h
    · cases h
    · injection h with h; subst h; exact same_target_refl st
  | succ n ih =>
    intro st w a h
    unfold PRESENTwait_while at h
    split at h
    · exact same_target_trans (PRESENTwait_events_target st w) (ih _ _ _ h)
    · injection h with h; subst h; exact same_target_refl st

theorem PRESENTForceReleases_walk_target (l : List Nat) :
    ∀ (st : PRESENTpriv) (w : Xcb), same_target st (PRESENTForceReleases_walk l st w).1 := by
  induction l with
  | nil => intro st w; exact same_target_refl st
  | cons c rest ih =>
    intro st w
    unfold PRESENTForceReleases_walk
    split
    · exact ih st w
    · split
      · split
        · exact ih st w
        · refine same_target_trans ?_ (ih _ _)
          exact same_target_trans (PRESENTwait_events_target _ _)
            (PRESENTflush_events_target _ _ true)
      · exact ih st w

theorem PRESENTForceReleases_target (st : PRESENTpriv) (w : Xcb) (a : PRESENTpriv × Xcb)
    (h : PRESENTForceReleases st w = some a) : same_target st a.1 := by
  unfold PRESENTForceReleases at h
  split at h
  · injection h with h; subst h; exact same_target_refl st
  · cases hw : PRESENTForceReleases_wait st w with
    | none => simp [hw] at h
    | some b =>
      simp only [hw, Option.some.injEq] at h
      subst h
      refine same_target_trans ?_ (PRESENTForceReleases_walk_target _ _ _)
      unfold PRESENTForceReleases_wait at hw
      split at hw
      · dsimp only at hw
        split at hw
        · cases hw
        · rename_i c hc
          have h1 := PRESENTwait_while_target _ _ _ _ _ hc
          have h2 := PRESENTwait_while_target _ _ _ _ _ hw
          have h3 := PRESENTflush_events_target c.1 c.2 true
          exact same_target_trans (same_target_trans h1 h3) (same_target_trans ⟨rfl, rfl⟩ h2)
      · split at hw
        · cases hw
        · rename_i c hc
          injection hw with hw
          subst hw
          exact same_target_trans (PRESENTwait_while_target _ _ _ _ _ hc)
            (PRESENTflush_events_target c.1 c.2 true)

theorem subscribed_iff_attached_of_same_target {st st' : PRESENTpriv}
    (h : same_target st st') (hi : subscribed_iff_attached st) : subscribed_iff_attached st' := by
  unfold subscribed_iff_attached at *
  rw [h.1, h.2]; exact hi

theorem PRESENTFreeXcbQueue_unsubscribed (st : PRESENTpriv) (w : Xcb)
    (hi : subscribed_iff_attached st) : (PRESENTFreeXcbQueue st w).1.special_event = none := by
  unfold PRESENTFreeXcbQueue
  split
  · rfl
  · rename_i hw
    unfold subscribed_iff_attached at hi
    cases hs : st.special_event with
    | none => rfl
    | some e => exact absurd (hi.1 (by simp [hs])) hw

theorem PRESENTPrivChangeWindow_select_inv (st : PRESENTpriv) (w : Xcb) (window : Nat)
    (hs : st.special_event = none) :
    subscribed_iff_attached (PRESENTPrivChangeWindow_select st w window).2.1 := by
  unfold PRESENTPrivChangeWindow_select subscribed_iff_attached
  by_cases hw : window = 0
  · subst hw; simp [hs]
  · simp only [ne_eq, hw, not_false_eq_true, if_true]
    split
    · simp
    · rename_i hc
      simp only [Bool.or_eq_true, not_or, Bool.not_eq_true, Option.isNone_eq_false_iff] at hc
      simp [hc.2, hw]

theorem PRESENTPrivChangeWindow_inv (st : PRESENTpriv) (w : Xcb) (window : Nat)
    (r : Bool × PRESENTpriv × Xcb) (hi : subscribed_iff_attached st)
    (h : PRESENTPrivChangeWindow st w window = some r) : subscribed_iff_attached r.2.1 := by
  unfold PRESENTPrivChangeWindow at h
  cases hf : PRESENTForceReleases st w with
  | none => simp [hf] at h
  | some a =>
    simp only [hf, Option.some.injEq] at h
    subst h
    exact PRESENTPrivChangeWindow_select_inv _ _ _
      (PRESENTFreeXcbQueue_unsubscribed _ _
        (subscribed_iff_attached_of_same_target (PRESENTForceReleases_target st w a hf) hi))

theorem PRESENTPixmap_submit_target (st : PRESENTpriv) (w : Xcb) (window p : Nat)
    (params : D3DPRESENT_PARAMETERS) (src dst : Option RECT) (dirty : Option (List RECT))
    (r : Bool × PRESENTpriv × Xcb)
    (h : PRESENTPixmap_submit st w window p params src dst dirty = some r) :
    same_target st r.2.1 := by
  obtain ⟨h0, _, hcase⟩ := PRESENTPixmap_submit_cases _ _ _ _ _ _ _ _ _ h
  rcases hcase with ⟨_, hr⟩ | ⟨_, _, _, hcase⟩
  · subst hr; exact same_target_refl st
  · rcases hcase with ⟨_, _, hst⟩ | ⟨_, _, hst⟩
    · rw [hst]; exact same_target_refl st
    · rw [hst]
      unfold same_target
      exact ⟨rfl, rfl⟩

theorem PRESENTPixmap_attach_inv (st : PRESENTpriv) (w : Xcb) (window : Nat)
    (a : PRESENTpriv × Xcb) (hi : subscribed_iff_attached st)
    (ha : PRESENTPixmap_attach st w window = some a) : subscribed_iff_attached a.1 := by
  unfold PRESENTPixmap_attach at ha
  split at ha
  · cases hc : PRESENTPrivChangeWindow st w window with
    | none => simp [hc] at ha
    | some c =>
      simp only [hc, Option.some.injEq] at ha
      subst ha
      exact PRESENTPrivChangeWindow_inv st w window c hi hc
  · injection ha with ha; subst ha; exact hi

theorem PRESENTPixmap_inv (st : PRESENTpriv) (w : Xcb) (window p : Nat)
    (params : D3DPRESENT_PARAMETERS) (src dst : Option RECT) (dirty : Option (List RECT))
    (r : Bool × PRESENTpriv × Xcb) (hi : subscribed_iff_attached st)
    (h : PRESENTPixmap st w window p params src dst dirty = some r) :
    subscribed_iff_attached r.2.1 := by
  obtain ⟨a, ha, hcase⟩ := PRESENTPixmap_cases _ _ _ _ _ _ _ _ _ h
  have hia : subscribed_iff_attached a.1 := PRESENTPixmap_attach_inv st w window a hi ha
  rcases hcase with ⟨_, hr⟩ | ⟨_, hsub⟩
  · subst hr; exact hia
  · have hif := subscribed_iff_attached_of_same_target
      (PRESENTflush_events_target a.1 a.2 false) hia
    exact subscribed_iff_attached_of_same_target
      (PRESENTPixmap_submit_target _ _ _ _ _ _ _ _ r hsub) hif

theorem step_inv (s : PRESENTpriv × Xcb) (op : Op) (s' : PRESENTpriv × Xcb) (hi : subscribed_iff_attached s.1)
    (h : step s op = some s') : subscribed_iff_attached s'.1 := by
  cases op with
  | register pixmap alloc =>
    unfold step at h
    cases alloc with
    | none => simp only [Option.some.injEq] at h; subst h; exact hi
    | some p =>
      simp only at h
      split at h
      · cases h
      · injection h with h; subst h; exact hi
  | release p =>
    unfold step PRESENTTryFreePixmap at h
    simp only at h
    split at h
    · cases h
    · rename_i r hr
      injection h with h; subst h
      split at hr
      · cases hr
      · split at hr <;> (injection hr with hr; subst hr; exact hi)
  | present window p params src dst dirty =>
    unfold step at h
    simp only at h
    split at h
    · cases h
    · rename_i r hr
      injection h with h; subst h
      exact PRESENTPixmap_inv _ _ _ _ _ _ _ _ r hi hr
  | attach window =>
    unfold step at h
    simp only at h
    split at h
    · cases h
    · rename_i r hr
      injection h with h; subst h
      exact PRESENTPrivChangeWindow_inv _ _ _ r hi hr
  | dispatch ev =>
    unfold step at h
    injection h with h; subst h
    exact subscribed_iff_attached_of_same_target (PRESENThandle_events_target _ _) hi
  | wait_enter =>
    unfold step at h
    injection h with h; subst h; exact hi
  | wait_leave ev =>
    unfold step at h
    cases ev with
    | none => injection h with h; subst h; exact hi
    | some e =>
      injection h with h; subst h
      exact subscribed_iff_attached_of_same_target (PRESENThandle_events_target _ _) hi
  | server events checks specials =>
    unfold step at h
    injection h with h; subst h; exact hi

/-- An invariant of the steps holds after every sequence of steps. -/
theorem run_induction (I : PRESENTpriv × Xcb → Prop)
    (hstep : ∀ s op s', I s → step s op = some s' → I s') :
    ∀ (ops : List Op) (s s' : PRESENTpriv × Xcb), I s → run s ops = some s' → I s' := by
  intro ops
  induction ops with
  | nil => intro s s' hi h; unfold run at h; injection h with h; subst h; exact hi
  | cons op rest ih =>
    intro s s' hi h
    unfold run at h
    cases hs : step s op with
    | none => simp [hs] at h
    | some s1 =>
      simp only [hs] at h
      exact ih s1 s' (hstep s op s1 hi hs) h

/-- C9: in every state reached from the channel `PRESENTInit` creates by attach calls
(to a window or to 0, succeeding or failing) and present calls, and also by registrations,
releases and dispatched events, whatever the server answers, `special_event` is non-NULL
exactly when `window` is non-zero. -/
theorem subscription_iff_attached (st0 : PRESENTpriv) (w0 : Xcb) (ops : List Op)
    (st : PRESENTpriv) (w : Xcb) (hinit : PRESENTInit true = some st0)
    (hrun : run (st0, w0) ops = some (st, w)) :
    st.special_event.isSome = true ↔ st.window ≠ 0 := by
  have h0 : subscribed_iff_attached st0 := by
    unfold PRESENTInit at hinit
    simp only [if_true, Option.some.injEq] at hinit
    subst hinit
    simp [subscribed_iff_attached]
  exact run_induction (fun s => subscribed_iff_attached s.1) step_inv ops (st0, w0) (st, w) h0 hrun

/-- C9 at a concrete run: after `retarget_ops` the channel is detached and unsubscribed. -/
theorem subscription_iff_attached_witness :
    (run (channel0, xcb0) retarget_ops).map (fun s => (s.1.window, s.1.special_event))
        = some (0, none) ∧
    ∀ st w, run (channel0, xcb0) retarget_ops = some (st, w) →
      (st.special_event.isSome = true ↔ st.window ≠ 0) :=
  ⟨by decide, fun st w h =>
    subscription_iff_attached channel0 xcb0 retarget_ops st w (by decide) h⟩

/-! ## C8: serials -/

theorem toU32_succ (n : Nat) : toU32 (↑n + 1) = (n + 1) % 4294967296 := by
  unfold toU32
  omega

theorem run_cons (s s1 : PRESENTpriv × Xcb) (op : Op) (rest : List Op)
    (h : step s op = some s1) : run s (op :: rest) = run s1 rest := by
  simp only [run, h]

/-- One registration at address 2 followed by the release of that handle only advances
`last_serial_given`. -/
theorem register_release_cycle (s : PRESENTpriv × Xcb) (pixmap : Nat) (rest : List Op)
    (hfresh : 2 ∉ s.1.first_present_priv.map (fun n => n.ptr)) :
    run s (Op.register pixmap (some 2) :: Op.release 2 :: rest)
      = run (advance_serial s 1) rest := by
  have h1 : step s (Op.register pixmap (some 2))
      = some ((PRESENTPixmapInit s.1 pixmap (some 2)).2, s.2) := by
    simp only [step, hfresh, if_false]
  have h2 : step ((PRESENTPixmapInit s.1 pixmap (some 2)).2, s.2) (Op.release 2)
      = some (advance_serial s 1) := by
    simp only [step, PRESENTPixmapInit, PRESENTTryFreePixmap, derefPixmapPriv, List.find?_cons,
      beq_self_eq_true, Bool.not_true, Bool.or_false, Bool.false_eq_true, if_false,
      PRESENTTryFreePixmap_unlink, if_true, toU32_succ, advance_serial]
  rw [run_cons _ _ _ _ h1, run_cons _ _ _ _ h2]

theorem advance_serial_add (s : PRESENTpriv × Xcb) (n : Nat) :
    advance_serial (advance_serial s 1) n = advance_serial s (n + 1) := by
  unfold advance_serial
  simp only [Prod.mk.injEq, and_true]
  have : ((s.1.last_serial_given + 1) % 4294967296 + n) % 4294967296
      = (s.1.last_serial_given + (n + 1)) % 4294967296 := by omega
  rw [this]

theorem repeat_cycle_run (n : Nat) :
    ∀ (s : PRESENTpriv × Xcb) (tail : List Op),
      2 ∉ s.1.first_present_priv.map (fun n => n.ptr) →
      run s (repeat_ops (n + 1) [Op.register 101 (some 2), Op.release 2] tail)
        = run (advance_serial s (n + 1)) tail := by
  induction n with
  | zero =>
    intro s tail hfresh
    have hstep : repeat_ops (0 + 1) [Op.register 101 (some 2), Op.release 2] tail
        = Op.register 101 (some 2) :: Op.release 2 :: tail := rfl
    rw [hstep, register_release_cycle s 101 _ hfresh]
  | succ n ih =>
    intro s tail hfresh
    have hstep : repeat_ops (n + 1 + 1) [Op.register 101 (some 2), Op.release 2] tail
        = Op.register 101 (some 2) :: Op.release 2 ::
            repeat_ops (n + 1) [Op.register 101 (some 2), Op.release 2] tail := rfl
    rw [hstep, register_release_cycle s 101 _ hfresh, ih (advance_serial s 1) tail hfresh,
      advance_serial_add]

/-- C8, counterexample: after `wrap_ops` two handles are registered at the same time, at the
addresses 3 and 1, and both carry serial 1: the serial of the newest handle is not greater
than the serial handed out first. -/
theorem serial_wraps_counterexample :
    (run (channel0, xcb0) wrap_ops).map
        (fun s => s.1.first_present_priv.map (fun n => (n.ptr, n.serial)))
      = some [(3, 1), (1, 1)] := by
  have h0 : step (channel0, xcb0) (Op.register 100 (some 1))
      = some ({ channel0 with last_serial_given := 1, first_present_priv := [free_node] },
          xcb0) := by decide
  have h1 := repeat_cycle_run 4294967294
    ({ channel0 with last_serial_given := 1, first_present_priv := [free_node] }, xcb0)
    [Op.register 102 (some 3)] (by decide)
  rw [show (4294967294 + 1 : Nat) = 4294967295 from rfl] at h1
  unfold wrap_ops
  rw [run_cons _ _ _ _ h0, h1]
  decide

theorem PRESENTTryFreePixmap_unlink_sublist (l : List PRESENTPixmapPriv) (p : Nat) :
    List.Sublist (PRESENTTryFreePixmap_unlink l p) l := by
  induction l with
  | nil => exact List.Sublist.slnil
  | cons a l ih =>
    unfold PRESENTTryFreePixmap_unlink
    split
    · exact List.sublist_cons_self a l
    · exact List.Sublist.cons₂ a ih

/-- Registrations and releases below the wrap of the `uint32_t` counter: the serials handed
out exceed the counter and increase, and the registered serials stay distinct. -/
theorem registry_run_serials (ops : List Op) :
    ∀ s : PRESENTpriv × Xcb,
      (∀ op ∈ ops, is_registry_op op = true) →
      s.1.last_serial_given + (assigned_serials s ops).length < 4294967296 →
      (∀ n ∈ s.1.first_present_priv, n.serial ≤ s.1.last_serial_given) →
      (s.1.first_present_priv.map (fun n => n.serial)).Nodup →
      (∀ x ∈ assigned_serials s ops, s.1.last_serial_given < x)
        ∧ List.Pairwise (fun a b => a < b) (assigned_serials s ops)
        ∧ ∀ s', run s ops = some s' →
            (s'.1.first_present_priv.map (fun n => n.serial)).Nodup := by
  induction ops with
  | nil =>
    intro s _ _ _ hnd
    refine ⟨by simp [assigned_serials], by simp [assigned_serials], ?_⟩
    intro s' h
    simp only [run, Option.some.injEq] at h
    subst h; exact hnd
  | cons op rest ih =>
    intro s hreg hlen hle hnd
    have hrest : ∀ o ∈ rest, is_registry_op o = true :=
      fun o ho => hreg o (List.mem_cons_of_mem _ ho)
    have hop := hreg op (List.mem_cons_self _ _)
    cases hs : step s op with
    | none => simp [assigned_serials, run, hs]
    | some s1 =>
      cases op with
      | register pixmap alloc =>
        cases alloc with
        | none =>
          have e1 : s1 = s := by
            simp only [step, PRESENTPixmapInit, Option.some.injEq] at hs
            exact hs.symm
          subst e1
          have hl : assigned_serials s1 (Op.register pixmap none :: rest)
              = assigned_serials s1 rest := by
            simp [assigned_serials, hs]
          rw [hl] at hlen ⊢
          obtain ⟨h1, h2, h3⟩ := ih s1 hrest hlen hle hnd
          refine ⟨h1, h2, ?_⟩
          intro s' h
          simp only [run, hs] at h
          exact h3 s' h
        | some p =>
          have hl : assigned_serials s (Op.register pixmap (some p) :: rest)
              = s1.1.last_serial_given :: assigned_serials s1 rest := by
            simp [assigned_serials, hs]
          rw [hl] at hlen ⊢
          simp only [List.length_cons] at hlen
          have e1 : s1.1.last_serial_given = s.1.last_serial_given + 1
              ∧ s1.1.first_present_priv
                = { ptr := p, pixmap := pixmap, released := true,
                    present_complete_pending := false,
                    serial := s.1.last_serial_given + 1,
                    last_present_was_flip := false } :: s.1.first_present_priv := by
            simp only [step] at hs
            split at hs
            · cases hs
            · injection hs with hs
              subst hs
              simp only [PRESENTPixmapInit, toU32_succ]
              have : (s.1.last_serial_given + 1) % 4294967296 = s.1.last_serial_given + 1 :=
                Nat.mod_eq_of_lt (by omega)
              rw [this]
              exact ⟨rfl, rfl⟩
          have hle1 : ∀ n ∈ s1.1.first_present_priv, n.serial ≤ s1.1.last_serial_given := by
            intro n hn
            rw [e1.2] at hn
            rw [e1.1]
            rcases List.mem_cons.1 hn with rfl | hn
            · exact Nat.le_refl _
            · exact Nat.le_succ_of_le (hle n hn)
          have hnd1 : (s1.1.first_present_priv.map (fun n => n.serial)).Nodup := by
            rw [e1.2, List.map_cons, List.nodup_cons]
            refine ⟨?_, hnd⟩
            intro hmem
            obtain ⟨n, hn, hser⟩ := List.mem_map.1 hmem
            have := hle n hn
            simp only at hser
            omega
          obtain ⟨h1, h2, h3⟩ := ih s1 hrest (by omega) hle1 hnd1
          refine ⟨?_, ?_, ?_⟩
          · intro x hx
            rcases List.mem_cons.1 hx with rfl | hx
            · omega
            · have := h1 x hx
              omega
          · exact List.Pairwise.cons h1 h2
          · intro s' h
            simp only [run, hs] at h
            exact h3 s' h
      | release p =>
        have hl : assigned_serials s (Op.release p :: rest) = assigned_serials s1 rest := by
          simp [assigned_serials, hs]
        rw [hl] at hlen ⊢
        have e1 : s1.1.last_serial_given = s.1.last_serial_given
            ∧ List.Sublist s1.1.first_present_priv s.1.first_present_priv := by
          simp only [step, PRESENTTryFreePixmap] at hs
          split at hs
          · cases hs
          · rename_i r hr
            injection hs with hs
            subst hs
            split at hr
            · cases hr
            · split at hr
              · injection hr with hr; subst hr
                exact ⟨rfl, List.Sublist.refl _⟩
              · injection hr with hr; subst hr
                exact ⟨rfl, PRESENTTryFreePixmap_unlink_sublist _ _⟩
        have hle1 : ∀ n ∈ s1.1.first_present_priv, n.serial ≤ s1.1.last_serial_given := by
          intro n hn
          rw [e1.1]
          exact hle n (e1.2.subset hn)
        have hnd1 : (s1.1.first_present_priv.map (fun n => n.serial)).Nodup :=
          List.Nodup.sublist (List.Sublist.map _ e1.2) hnd
        obtain ⟨h1, h2, h3⟩ := ih s1 hrest (by omega) hle1 hnd1
        refine ⟨fun x hx => by have := h1 x hx; omega, h2, ?_⟩
        intro s' h
        simp only [run, hs] at h
        exact h3 s' h
      | present _ _ _ _ _ _ => simp [is_registry_op] at hop
      | attach _ => simp [is_registry_op] at hop
      | dispatch _ => simp [is_registry_op] at hop
      | wait_enter => simp [is_registry_op] at hop
      | wait_leave _ => simp [is_registry_op] at hop
      | server _ _ _ => simp [is_registry_op] at hop

/-- C8, amended: in a sequence of registrations and releases on a fresh channel that hands
out fewer than 2^32 serials, every newly registered handle receives a serial strictly
greater than every serial handed out before, and the handles registered at the end carry
pairwise distinct serials. -/
theorem serials_increase_below_wrap (st0 : PRESENTpriv) (w0 : Xcb) (ops : List Op)
    (hinit : PRESENTInit true = some st0)
    (hops : ∀ op ∈ ops, is_registry_op op = true)
    (hcount : (assigned_serials (st0, w0) ops).length < 4294967296) :
    List.Pairwise (fun a b => a < b) (assigned_serials (st0, w0) ops)
      ∧ ∀ s', run (st0, w0) ops = some s' →
          (s'.1.first_present_priv.map (fun n => n.serial)).Nodup := by
  unfold PRESENTInit at hinit
  simp only [if_true, Option.some.injEq] at hinit
  subst hinit
  exact (registry_run_serials ops _ hops (by simpa using hcount) (by simp) (by simp)).2

/-- C8 amended, at a concrete run: three registrations with a release in between. -/
theorem serials_increase_below_wrap_witness :
    assigned_serials (channel0, xcb0)
        [Op.register 100 (some 1), Op.register 101 (some 2), Op.release 1,
         Op.register 102 (some 1)] = [1, 2, 3] ∧
    (List.Pairwise (fun a b => a < b) (assigned_serials (channel0, xcb0)
        [Op.register 100 (some 1), Op.register 101 (some 2), Op.release 1,
         Op.register 102 (some 1)])
      ∧ ∀ s', run (channel0, xcb0)
        [Op.register 100 (some 1), Op.register 101 (some 2), Op.release 1,
         Op.register 102 (some 1)] = some s' →
          (s'.1.first_present_priv.map (fun n => n.serial)).Nodup) :=
  ⟨by decide, serials_increase_below_wrap channel0 xcb0 _ (by decide) (by decide) (by decide)⟩

/-! ## C6: when a present request is sent -/

/-- C6, counterexample: after `flip_ops` the handle of pixmap 100 has `released == false`
and no event is queued; the attach to window 9 that follows sends a present request for
pixmap 100 (the forced present of the drain) while the handle is still not released. -/
theorem forced_present_counterexample :
    (run (channel0, xcb0) flip_ops).map (fun s => (s.1.first_present_priv, s.2.events, s.2.sent))
      = some ([{ free_node with released := false, last_present_was_flip := true }], [],
          [Request.present_select_input 1 5 6,
           Request.present_pixmap true 5 100 1 0 0 0 0 0 1]) ∧
    (run (channel0, xcb0) (flip_ops ++ [Op.attach 9])).map (fun s => s.2.sent)
      = some [Request.present_select_input 1 5 6,
          Request.present_pixmap true 5 100 1 0 0 0 0 0 1,
          Request.xfixes_create_region 2 [force_rect_update],
          Request.xfixes_create_region 3 [force_rect_update],
          Request.present_pixmap false 5 100 0 2 3 0 0 3 0,
          Request.unregister_for_special_event (some 1),
          Request.present_select_input 4 9 6] := by
  refine ⟨?_, ?_⟩ <;> decide

theorem appends_unchecked_refl (w : Xcb) : appends_unchecked w w :=
  ⟨[], by simp, by simp⟩

theorem appends_unchecked_of_sent_eq {w w' : Xcb} (h : w'.sent = w.sent) :
    appends_unchecked w w' :=
  ⟨[], by simp [h], by simp⟩

theorem appends_unchecked_trans {w1 w2 w3 : Xcb} (h1 : appends_unchecked w1 w2)
    (h2 : appends_unchecked w2 w3) : appends_unchecked w1 w3 := by
  obtain ⟨n1, e1, c1⟩ := h1
  obtain ⟨n2, e2, c2⟩ := h2
  refine ⟨n1 ++ n2, by rw [e2, e1, List.append_assoc], ?_⟩
  intro q hq
  rcases List.mem_append.1 hq with hq | hq
  · exact c1 q hq
  · exact c2 q hq

theorem appends_unchecked_send (w : Xcb) (r : Request) (hr : is_checked_present r = false) :
    appends_unchecked w (xcb_send w r) :=
  ⟨[r], rfl, by simpa using hr⟩

theorem PRESENTwait_events_sent (st : PRESENTpriv) (w : Xcb) (b : Bool) :
    (PRESENTwait_events st w b).2.2.sent = w.sent := by
  unfold PRESENTwait_events xcb_next_event
  cases hw : w.events with
  | nil => rfl
  | cons e rest => cases e <;> rfl

theorem PRESENTwait_while_unchecked (cond : PRESENTpriv → Bool) (fuel : Nat) :
    ∀ (st : PRESENTpriv) (w : Xcb) (a : PRESENTpriv × Xcb),
      PRESENTwait_while cond fuel st w = some a → appends_unchecked w a.2 := by
  induction fuel with
  | zero =>
    intro st w a h
    unfold PRESENTwait_while at h
    split at h
    · cases h
    · injection h with h; subst h; exact appends_unchecked_refl w
  | succ n ih =>
    intro st w a h
    unfold PRESENTwait_while at h
    split at h
    · exact appends_unchecked_trans
        (appends_unchecked_of_sent_eq (PRESENTwait_events_sent st w false)) (ih _ _ _ h)
    · injection h with h; subst h; exact appends_unchecked_refl w

theorem PRESENTflush_events_unchecked (st : PRESENTpriv) (w : Xcb) (b : Bool) :
    appends_unchecked w (PRESENTflush_events st w b).2 :=
  appends_unchecked_of_sent_eq (PRESENTflush_events_sent st w b)

theorem PRESENTForceReleases_present_unchecked (st : PRESENTpriv) (w : Xcb) (pixmap : Nat) :
    appends_unchecked w (PRESENTForceReleases_present st w pixmap) := by
  unfold PRESENTForceReleases_present
  have h0 : appends_unchecked w (xcb_generate_id (xcb_generate_id w).2).2 :=
    appends_unchecked_of_sent_eq rfl
  exact appends_unchecked_trans h0
    (appends_unchecked_trans (appends_unchecked_send _ _ (by rfl))
      (appends_unchecked_trans (appends_unchecked_send _ _ (by rfl))
        (appends_unchecked_send _ _ (by rfl))))

theorem PRESENTForceReleases_walk_unchecked (l : List Nat) :
    ∀ (st : PRESENTpriv) (w : Xcb),
      appends_unchecked w (PRESENTForceReleases_walk l st w).2 := by
  induction l with
  | nil => intro st w; exact appends_unchecked_refl w
  | cons c rest ih =>
    intro st w
    unfold PRESENTForceReleases_walk
    split
    · exact ih st w
    · split
      · split
        · exact ih st w
        · refine appends_unchecked_trans ?_ (ih _ _)
          refine appends_unchecked_trans ?_ (PRESENTflush_events_unchecked _ _ true)
          exact appends_unchecked_trans (PRESENTForceReleases_present_unchecked _ _ _)
            (appends_unchecked_of_sent_eq (PRESENTwait_events_sent _ _ false))
      · exact ih st w

theorem PRESENTForceReleases_unchecked (st : PRESENTpriv) (w : Xcb) (a : PRESENTpriv × Xcb)
    (h : PRESENTForceReleases st w = some a) : appends_unchecked w a.2 := by
  unfold PRESENTForceReleases at h
  split at h
  · injection h with h; subst h; exact appends_unchecked_refl w
  · cases hw : PRESENTForceReleases_wait st w with
    | none => simp [hw] at h
    | some b =>
      simp only [hw, Option.some.injEq] at h
      subst h
      refine appends_unchecked_trans ?_ (PRESENTForceReleases_walk_unchecked _ _ _)
      unfold PRESENTForceReleases_wait at hw
      split at hw
      · dsimp only at hw
        split at hw
        · cases hw
        · rename_i c hc
          have h1 := PRESENTwait_while_unchecked _ _ _ _ _ hc
          have h2 := PRESENTwait_while_unchecked _ _ _ _ _ hw
          have h3 := PRESENTflush_events_unchecked c.1 c.2 true
          exact appends_unchecked_trans
            (appends_unchecked_trans
              (appends_unchecked_trans (appends_unchecked_send _ _ (by rfl)) h1) h3)
            (appends_unchecked_trans (appends_unchecked_send _ _ (by rfl)) h2)
      · split at hw
        · cases hw
        · rename_i c hc
          injection hw with hw
          subst hw
          exact appends_unchecked_trans (PRESENTwait_while_unchecked _ _ _ _ _ hc)
            (PRESENTflush_events_unchecked c.1 c.2 true)

theorem PRESENTPrivChangeWindow_unchecked (st : PRESENTpriv) (w : Xcb) (window : Nat)
    (r : Bool × PRESENTpriv × Xcb) (h : PRESENTPrivChangeWindow st w window = some r) :
    appends_unchecked w r.2.2 := by
  unfold PRESENTPrivChangeWindow at h
  cases hf : PRESENTForceReleases st w with
  | none => simp [hf] at h
  | some a =>
    simp only [hf, Option.some.injEq] at h
    subst h
    refine appends_unchecked_trans (PRESENTForceReleases_unchecked st w a hf) ?_
    have hq : appends_unchecked a.2 (PRESENTFreeXcbQueue a.1 a.2).2 := by
      unfold PRESENTFreeXcbQueue
      split
      · exact appends_unchecked_send _ _ (by rfl)
      · exact appends_unchecked_refl _
    refine appends_unchecked_trans hq ?_
    generalize (PRESENTFreeXcbQueue a.1 a.2).1 = q1
    generalize (PRESENTFreeXcbQueue a.1 a.2).2 = q2
    unfold PRESENTPrivChangeWindow_select
    by_cases hw : window = 0
    · simp only [hw, ne_eq, not_true_eq_false, if_false]
      exact appends_unchecked_refl _
    · simp only [ne_eq, hw, not_false_eq_true, if_true]
      have hsel : appends_unchecked q2 (xcb_request_check (xcb_register_for_special_xge
          (xcb_send (xcb_generate_id q2).2 (Request.present_select_input (xcb_generate_id q2).1
            window (XCB_PRESENT_EVENT_MASK_COMPLETE_NOTIFY ||| XCB_PRESENT_EVENT_MASK_IDLE_NOTIFY)))
          (xcb_generate_id q2).1).2).2 := by
        have hreg : ∀ (x : Xcb) (e : Nat), (xcb_register_for_special_xge x e).2.sent = x.sent := by
          intro x e
          unfold xcb_register_for_special_xge
          split <;> rfl
        refine appends_unchecked_trans (appends_unchecked_of_sent_eq rfl)
          (appends_unchecked_trans (appends_unchecked_send (xcb_generate_id q2).2
            (Request.present_select_input (xcb_generate_id q2).1 window
              (XCB_PRESENT_EVENT_MASK_COMPLETE_NOTIFY ||| XCB_PRESENT_EVENT_MASK_IDLE_NOTIFY))
            (by rfl)) ?_)
        refine appends_unchecked_of_sent_eq ?_
        rw [xcb_request_check_sent, hreg]
      split
      · split
        · exact appends_unchecked_trans hsel (appends_unchecked_send _ _ (by rfl))
        · exact hsel
      · exact hsel

theorem PRESENTPixmap_regions_unchecked (w : Xcb) (pixmap : Nat) (src dst : Option RECT)
    (dirty : Option (List RECT)) :
    appends_unchecked w (PRESENTPixmap_regions w pixmap src dst dirty).2 := by
  unfold PRESENTPixmap_regions
  split
  · exact appends_unchecked_refl w
  · have h0 : appends_unchecked w (xcb_generate_id (xcb_generate_id w).2).2 :=
      appends_unchecked_of_sent_eq rfl
    refine appends_unchecked_trans h0 ?_
    dsimp only
    split
    · exact appends_unchecked_trans (appends_unchecked_send _ _ (by rfl))
        (appends_unchecked_send _ _ (by rfl))
    · exact appends_unchecked_trans (appends_unchecked_send _ _ (by rfl))
        (appends_unchecked_send _ _ (by rfl))

/-- What `PRESENTPixmap_send` sends: requests that are not checked presents, then the checked
present request of the node. -/
theorem PRESENTPixmap_send_prior (st : PRESENTpriv) (w : Xcb) (window : Nat)
    (h : PRESENTPixmapPriv) (params : D3DPRESENT_PARAMETERS) (src dst : Option RECT)
    (dirty : Option (List RECT)) :
    ∃ prior valid update x_off y_off options,
      (∀ q ∈ prior, is_checked_present q = false) ∧
      (PRESENTPixmap_send st w window h params src dst dirty).sent
        = w.sent ++ prior ++ [Request.present_pixmap true window h.pixmap h.serial valid update
            x_off y_off options (toU64 (target_msc st params.PresentationInterval))] := by
  have h1 : appends_unchecked w
      (if st.xcb_wait then xcb_send w (Request.present_notify_msc st.window 0 0 0 0) else w) := by
    split
    · exact appends_unchecked_send _ _ (by rfl)
    · exact appends_unchecked_refl w
  obtain ⟨prior, e, c⟩ := appends_unchecked_trans h1
    (PRESENTPixmap_regions_unchecked
      (if st.xcb_wait then xcb_send w (Request.present_notify_msc st.window 0 0 0 0) else w)
      h.pixmap src dst dirty)
  have key : ∀ (rq : Request) (x : Xcb), x.sent = w.sent ++ prior →
      (xcb_send x rq).sent = w.sent ++ prior ++ [rq] := by
    intro rq x hx
    simp only [xcb_send, hx]
  exact ⟨prior, _, _, _, _, _, c, key _ _ e⟩

/-- C6, amended: a checked present request, the one `PRESENTPixmap` submits for its handle, is
sent only when after the drain the handle has `released` set and `present_complete_pending`
clear, and it is then the last request of the call; the retarget inside the call sends no
checked present request.  The unchecked forced present of the drain is not covered: the walk
of `PRESENTForceReleases` sends nothing for a node it reads as released. -/
theorem present_request_only_when_free (st : PRESENTpriv) (w : Xcb) (window p : Nat)
    (params : D3DPRESENT_PARAMETERS) (src dst : Option RECT) (dirty : Option (List RECT))
    (r : Bool × PRESENTpriv × Xcb)
    (h : PRESENTPixmap st w window p params src dst dirty = some r) :
    (∃ a, PRESENTPixmap_attach st w window = some a ∧ appends_unchecked w a.2 ∧
      (r.2.2.sent = a.2.sent ∨
       ∃ node prior valid update x_off y_off options target,
         derefPixmapPriv (PRESENTflush_events a.1 a.2 false).1.first_present_priv p = some node ∧
         node.released = true ∧ node.present_complete_pending = false ∧
         (∀ q ∈ prior, is_checked_present q = false) ∧
         r.2.2.sent = a.2.sent ++ prior ++ [Request.present_pixmap true window node.pixmap
           node.serial valid update x_off y_off options target])) ∧
    (∀ (current : Nat) (rest : List Nat) (s : PRESENTpriv) (x : Xcb) (cur : PRESENTPixmapPriv),
      derefPixmapPriv s.first_present_priv current = some cur → cur.released = true →
      PRESENTForceReleases_walk (current :: rest) s x = PRESENTForceReleases_walk rest s x) := by
  constructor
  · obtain ⟨a, ha, hcase⟩ := PRESENTPixmap_cases _ _ _ _ _ _ _ _ _ h
    have hatt : appends_unchecked w a.2 := by
      unfold PRESENTPixmap_attach at ha
      split at ha
      · cases hc : PRESENTPrivChangeWindow st w window with
        | none => simp [hc] at ha
        | some c =>
          simp only [hc, Option.some.injEq] at ha
          subst ha
          exact PRESENTPrivChangeWindow_unchecked st w window c hc
      · injection ha with ha; subst ha; exact appends_unchecked_refl w
    refine ⟨a, ha, hatt, ?_⟩
    rcases hcase with ⟨_, hr⟩ | ⟨_, hsub⟩
    · left; rw [hr]
    · obtain ⟨node, hd, hcase⟩ := PRESENTPixmap_submit_cases _ _ _ _ _ _ _ _ _ hsub
      rcases hcase with ⟨_, hr⟩ | ⟨hrel, hpend, hw, _⟩
      · left; rw [hr]; exact PRESENTflush_events_sent a.1 a.2 false
      · right
        obtain ⟨prior, valid, update, x_off, y_off, options, hc, hsent⟩ :=
          PRESENTPixmap_send_prior (PRESENTflush_events a.1 a.2 false).1
            (PRESENTflush_events a.1 a.2 false).2 window node params src dst dirty
        refine ⟨node, prior, valid, update, x_off, y_off, options,
          toU64 (target_msc (PRESENTflush_events a.1 a.2 false).1 params.PresentationInterval),
          hd, hrel, hpend, hc, ?_⟩
        rw [hw, xcb_request_check_sent, hsent, PRESENTflush_events_sent]
  · intro current rest s x cur hd hrel
    simp only [PRESENTForceReleases_walk, hd, hrel, Bool.not_true, Bool.false_eq_true, if_false]

/-- C6 amended, at a concrete input: the present of the free handle of `idle_channel`. -/
theorem present_request_only_when_free_witness :
    PRESENTPixmap idle_channel xcb0 5 1 params_one none none none
        = some (true, busy_channel, xcb_presented) ∧
    (∃ a, PRESENTPixmap_attach idle_channel xcb0 5 = some a ∧ appends_unchecked xcb0 a.2 ∧
      (xcb_presented.sent = a.2.sent ∨
       ∃ node prior valid update x_off y_off options target,
         derefPixmapPriv (PRESENTflush_events a.1 a.2 false).1.first_present_priv 1 = some node ∧
         node.released = true ∧ node.present_complete_pending = false ∧
         (∀ q ∈ prior, is_checked_present q = false) ∧
         xcb_presented.sent = a.2.sent ++ prior ++ [Request.present_pixmap true 5 node.pixmap
           node.serial valid update x_off y_off options target])) :=
  ⟨by decide, (present_request_only_when_free idle_channel xcb0 5 1 params_one none none none
    (true, busy_channel, xcb_presented) (by decide)).1⟩

/-! ## C7: the counter of pending presentations -/

/-- C7, counterexample: a pixmap completion dispatched for a registered handle that was never
presented drives `pixmap_present_pending` to -1 while no handle is completion-pending. -/
theorem pending_count_counterexample :
    (run (channel0, xcb0)
        [Op.register 100 (some 1), Op.dispatch (Event.complete_notify 0 0 1 77)]).map
      (fun s => (s.1.pixmap_present_pending, pending_handles s.1.first_present_priv))
      = some (-1, 0) := by
  decide

theorem PRESENTFindPixmapPrivList_mem (l : List PRESENTPixmapPriv) (serial : Nat)
    (h : PRESENTPixmapPriv) (hf : PRESENTFindPixmapPrivList l serial = some h) : h ∈ l := by
  induction l with
  | nil => simp [PRESENTFindPixmapPrivList] at hf
  | cons a l ih =>
    unfold PRESENTFindPixmapPrivList at hf
    split at hf
    · injection hf with hf; subst hf; exact List.mem_cons_self _ _
    · exact List.mem_cons_of_mem _ (ih hf)

theorem storePixmapPriv_ptrs (l : List PRESENTPixmapPriv) (p : Nat)
    (f : PRESENTPixmapPriv → PRESENTPixmapPriv) (hf : ∀ n, (f n).ptr = n.ptr) :
    (storePixmapPriv l p f).map (fun n => n.ptr) = l.map (fun n => n.ptr) := by
  unfold storePixmapPriv
  rw [List.map_map]
  apply List.map_congr_left
  intro n _
  simp only [Function.comp]
  split
  · exact hf n
  · rfl

theorem storePixmapPriv_absent (l : List PRESENTPixmapPriv) (p : Nat)
    (f : PRESENTPixmapPriv → PRESENTPixmapPriv) (hp : p ∉ l.map (fun n => n.ptr)) :
    storePixmapPriv l p f = l := by
  unfold storePixmapPriv
  conv => rhs; rw [← List.map_id l]
  apply List.map_congr_left
  intro n hn
  have : n.ptr ≠ p := fun e => hp (e ▸ List.mem_map_of_mem (fun n => n.ptr) hn)
  simp [this]

/-- A store through the pointer of a registered node changes the number of pending handles by
the change of that node alone. -/
theorem storePixmapPriv_pending (l : List PRESENTPixmapPriv) (h : PRESENTPixmapPriv)
    (f : PRESENTPixmapPriv → PRESENTPixmapPriv)
    (hnd : (l.map (fun n => n.ptr)).Nodup) (hmem : h ∈ l) :
    pending_handles (storePixmapPriv l h.ptr f) + (if h.present_complete_pending then 1 else 0)
      = pending_handles l + (if (f h).present_complete_pending then 1 else 0) := by
  induction l with
  | nil => simp at hmem
  | cons a l ih =>
    rw [List.map_cons, List.nodup_cons] at hnd
    rcases List.mem_cons.1 hmem with rfl | hin
    · have habs := storePixmapPriv_absent l h.ptr f hnd.1
      have e : storePixmapPriv (h :: l) h.ptr f = f h :: l := by
        unfold storePixmapPriv at habs ⊢
        simp only [List.map_cons, if_true, habs]
      rw [e]
      unfold pending_handles
      simp only [List.filter_cons]
      cases h.present_complete_pending <;> cases (f h).present_complete_pending <;> simp
    · have hne : a.ptr ≠ h.ptr := by
        intro e
        exact hnd.1 (e ▸ List.mem_map_of_mem (fun n => n.ptr) hin)
      have e : storePixmapPriv (a :: l) h.ptr f = a :: storePixmapPriv l h.ptr f := by
        unfold storePixmapPriv
        simp only [List.map_cons, hne, if_false]
      rw [e]
      have ih1 := ih hnd.2 hin
      unfold pending_handles at ih1 ⊢
      simp only [List.filter_cons]
      cases a.present_complete_pending <;> simp <;> omega

theorem pending_consistent_congr {st st' : PRESENTpriv}
    (hl : st'.first_present_priv = st.first_present_priv)
    (hp : st'.pixmap_present_pending = st.pixmap_present_pending)
    (hc : pending_consistent st) : pending_consistent st' := by
  unfold pending_consistent at *
  rw [hl, hp]; exact hc

theorem PRESENThandle_events_registry_congr (st1 st2 : PRESENTpriv) (ev : Event)
    (h : st1.first_present_priv = st2.first_present_priv) :
    (PRESENThandle_events st1 ev).first_present_priv
      = (PRESENThandle_events st2 ev).first_present_priv := by
  cases ev with
  | complete_notify kind mode serial msc =>
    simp only [PRESENThandle_events, PRESENTFindPixmapPriv, h]
    split
    · split <;> first | rfl | exact h
    · split
      · exact h
      · split <;> first | rfl | exact h
  | idle_notify serial pixmap =>
    simp only [PRESENThandle_events, PRESENTFindPixmapPriv, h]
    split
    · exact h
    · split <;> first | rfl | exact h
  | other t => exact h

theorem completion_expected_congr (st1 st2 : PRESENTpriv) (ev : Event)
    (h : st1.first_present_priv = st2.first_present_priv) :
    completion_expected st1 ev = completion_expected st2 ev := by
  cases ev with
  | complete_notify kind mode serial msc =>
    simp only [completion_expected, PRESENTFindPixmapPriv, h]
  | idle_notify serial pixmap => rfl
  | other t => rfl

theorem events_expected_congr (evs : List (Option Event)) :
    ∀ (st1 st2 : PRESENTpriv), st1.first_present_priv = st2.first_present_priv →
      events_expected st1 evs = events_expected st2 evs := by
  induction evs with
  | nil => intro st1 st2 _; rfl
  | cons e rest ih =>
    intro st1 st2 h
    cases e with
    | none => simp only [events_expected]; exact ih st1 st2 h
    | some ev =>
      simp only [events_expected]
      rw [completion_expected_congr st1 st2 ev h,
        ih _ _ (PRESENThandle_events_registry_congr st1 st2 ev h)]

theorem drain_ready_congr {st st' : PRESENTpriv} {w w' : Xcb} (h : drain_ready st w)
    (hl : st'.first_present_priv = st.first_present_priv)
    (hp : st'.pixmap_present_pending = st.pixmap_present_pending)
    (he : w'.events = w.events) : drain_ready st' w' := by
  unfold drain_ready at *
  refine ⟨pending_consistent_congr hl hp h.1, ?_⟩
  rw [he, events_expected_congr _ st' st hl]; exact h.2

/-- Dispatching an expected event keeps the counter consistent. -/
theorem PRESENThandle_events_consistent (st : PRESENTpriv) (ev : Event)
    (hc : pending_consistent st) (he : completion_expected st ev = true) :
    pending_consistent (PRESENThandle_events st ev) := by
  cases ev with
  | complete_notify kind mode serial msc =>
    unfold PRESENThandle_events
    simp only
    split
    · split
      · exact pending_consistent_congr rfl rfl hc
      · exact hc
    · cases hf : PRESENTFindPixmapPriv st serial with
      | none => exact hc
      | some h =>
        simp only
        split
        · exact hc
        · rename_i hk
          have hkind : kind = XCB_PRESENT_COMPLETE_KIND_PIXMAP := by
            by_contra hne; exact hk hne
          have hpend : h.present_complete_pending = true := by
            simp only [completion_expected, hkind, if_true, hf] at he
            exact he
          have hmem := PRESENTFindPixmapPrivList_mem _ _ _ hf
          have hcount := storePixmapPriv_pending st.first_present_priv h
            (fun n => { n with present_complete_pending := false,
                               last_present_was_flip :=
                                 if mode = XCB_PRESENT_COMPLETE_MODE_FLIP then true
                                 else if mode = XCB_PRESENT_COMPLETE_MODE_COPY then false
                                 else n.last_present_was_flip }) hc.2 hmem
          simp only [hpend, if_true, Bool.false_eq_true, if_false, Nat.add_zero] at hcount
          unfold pending_consistent at hc ⊢
          refine ⟨?_, ?_⟩
          · simp only
            rw [hc.1, ← hcount]
            push_cast
            omega
          · simp only
            refine (storePixmapPriv_ptrs _ _ _ ?_).symm ▸ hc.2
            intro _; rfl
  | idle_notify serial pixmap =>
    unfold PRESENThandle_events
    simp only
    cases hf : PRESENTFindPixmapPriv st serial with
    | none => exact hc
    | some h =>
      simp only
      split
      · exact hc
      · have hmem := PRESENTFindPixmapPrivList_mem _ _ _ hf
        have hcount := storePixmapPriv_pending st.first_present_priv h
          (fun n => { n with released := true }) hc.2 hmem
        simp only [Nat.add_right_cancel_iff] at hcount
        unfold pending_consistent at hc ⊢
        refine ⟨?_, ?_⟩
        · simp only
          rw [hc.1, hcount]
        · simp only
          refine (storePixmapPriv_ptrs _ _ _ ?_).symm ▸ hc.2
          intro _; rfl
  | other t => exact hc

theorem PRESENTwait_events_ready (st : PRESENTpriv) (w : Xcb) (h : drain_ready st w) :
    drain_ready (PRESENTwait_events st w false).2.1 (PRESENTwait_events st w false).2.2 := by
  cases hw : w.events with
  | nil =>
    have e : PRESENTwait_events st w false = (false, st, w) := by
      simp only [PRESENTwait_events, xcb_next_event, hw, Bool.false_eq_true, if_false]
    rw [e]; exact h
  | cons e rest =>
    cases e with
    | none =>
      have e : PRESENTwait_events st w false = (false, st, { w with events := rest }) := by
        simp only [PRESENTwait_events, xcb_next_event, hw, Bool.false_eq_true, if_false]
      rw [e]
      have h2 := h.2
      rw [hw] at h2
      exact ⟨h.1, h2⟩
    | some ev =>
      have e : PRESENTwait_events st w false
          = (true, PRESENThandle_events st ev, { w with events := rest }) := by
        simp only [PRESENTwait_events, xcb_next_event, hw, Bool.false_eq_true, if_false]
      rw [e]
      have h2 := h.2
      rw [hw] at h2
      simp only [events_expected, Bool.and_eq_true] at h2
      exact ⟨PRESENThandle_events_consistent st ev h.1 h2.1, h2.2⟩

theorem PRESENTwait_while_ready (cond : PRESENTpriv → Bool) (fuel : Nat) :
    ∀ (st : PRESENTpriv) (w : Xcb) (a : PRESENTpriv × Xcb),
      PRESENTwait_while cond fuel st w = some a → drain_ready st w → drain_ready a.1 a.2 := by
  induction fuel with
  | zero =>
    intro st w a h hr
    unfold PRESENTwait_while at h
    split at h
    · cases h
    · injection h with h; subst h; exact hr
  | succ n ih =>
    intro st w a h hr
    unfold PRESENTwait_while at h
    split at h
    · exact ih _ _ _ h (PRESENTwait_events_ready st w hr)
    · injection h with h; subst h; exact hr

theorem PRESENTflush_loop_ready (evs : List (Option Event)) :
    ∀ st : PRESENTpriv, pending_consistent st → events_expected st evs = true →
      pending_consistent (PRESENTflush_loop evs st).1
        ∧ events_expected (PRESENTflush_loop evs st).1 (PRESENTflush_loop evs st).2 = true := by
  induction evs with
  | nil => intro st hc _; exact ⟨hc, rfl⟩
  | cons e rest ih =>
    intro st hc he
    cases e with
    | none => exact ⟨hc, he⟩
    | some ev =>
      simp only [events_expected, Bool.and_eq_true] at he
      unfold PRESENTflush_loop
      exact ih _ (PRESENThandle_events_consistent st ev hc he.1) he.2

theorem PRESENTflush_events_ready (st : PRESENTpriv) (w : Xcb) (b : Bool)
    (h : drain_ready st w) :
    drain_ready (PRESENTflush_events st w b).1 (PRESENTflush_events st w b).2 := by
  unfold PRESENTflush_events
  split
  · exact h
  · exact PRESENTflush_loop_ready w.events st h.1 h.2

theorem PRESENTForceReleases_walk_ready (l : List Nat) :
    ∀ (st : PRESENTpriv) (w : Xcb), drain_ready st w →
      drain_ready (PRESENTForceReleases_walk l st w).1 (PRESENTForceReleases_walk l st w).2 := by
  induction l with
  | nil => intro st w h; exact h
  | cons c rest ih =>
    intro st w h
    unfold PRESENTForceReleases_walk
    split
    · exact ih st w h
    · split
      · split
        · exact ih st w h
        · refine ih _ _ (PRESENTflush_events_ready _ _ true (PRESENTwait_events_ready _ _ ?_))
          exact drain_ready_congr h rfl rfl rfl
      · exact ih st w h

theorem PRESENTForceReleases_ready (st : PRESENTpriv) (w : Xcb) (a : PRESENTpriv × Xcb)
    (h : PRESENTForceReleases st w = some a) (hr : drain_ready st w) : drain_ready a.1 a.2 := by
  unfold PRESENTForceReleases at h
  split at h
  · injection h with h; subst h; exact hr
  · cases hw : PRESENTForceReleases_wait st w with
    | none => simp [hw] at h
    | some b =>
      simp only [hw, Option.some.injEq] at h
      subst h
      refine PRESENTForceReleases_walk_ready _ _ _ ?_
      unfold PRESENTForceReleases_wait at hw
      split at hw
      · dsimp only at hw
        split at hw
        · cases hw
        · rename_i c hc
          have h1 := PRESENTwait_while_ready _ _ _ _ _ hc (drain_ready_congr hr rfl rfl rfl)
          have h3 := PRESENTflush_events_ready c.1 c.2 true h1
          exact PRESENTwait_while_ready _ _ _ _ _ hw (drain_ready_congr h3 rfl rfl rfl)
      · split at hw
        · cases hw
        · rename_i c hc
          injection hw with hw
          subst hw
          exact PRESENTflush_events_ready c.1 c.2 true
            (PRESENTwait_while_ready _ _ _ _ _ hc hr)

theorem PRESENTPrivChangeWindow_select_ready (st : PRESENTpriv) (w : Xcb) (window : Nat)
    (h : drain_ready st w) :
    drain_ready (PRESENTPrivChangeWindow_select st w window).2.1
      (PRESENTPrivChangeWindow_select st w window).2.2 := by
  have hreg : ∀ (x : Xcb) (e : Nat), (xcb_register_for_special_xge x e).2.events = x.events := by
    intro x e
    unfold xcb_register_for_special_xge
    split <;> rfl
  have hchk : ∀ x : Xcb, (xcb_request_check x).2.events = x.events := by
    intro x
    unfold xcb_request_check
    split <;> rfl
  unfold PRESENTPrivChangeWindow_select
  by_cases hw : window = 0
  · simp only [hw, ne_eq, not_true_eq_false, if_false]
    exact drain_ready_congr h rfl rfl rfl
  · simp only [ne_eq, hw, not_false_eq_true, if_true]
    split
    · split
      · refine drain_ready_congr h rfl rfl ?_
        simp only [xcb_send]
        rw [hchk, hreg]; rfl
      · refine drain_ready_congr h rfl rfl ?_
        rw [hchk, hreg]; rfl
    · refine drain_ready_congr h rfl rfl ?_
      rw [hchk, hreg]; rfl

theorem PRESENTPrivChangeWindow_ready (st : PRESENTpriv) (w : Xcb) (window : Nat)
    (r : Bool × PRESENTpriv × Xcb) (h : PRESENTPrivChangeWindow st w window = some r)
    (hr : drain_ready st w) : drain_ready r.2.1 r.2.2 := by
  unfold PRESENTPrivChangeWindow at h
  cases hf : PRESENTForceReleases st w with
  | none => simp [hf] at h
  | some a =>
    simp only [hf, Option.some.injEq] at h
    subst h
    refine PRESENTPrivChangeWindow_select_ready _ _ _ ?_
    have ha := PRESENTForceReleases_ready st w a hf hr
    unfold PRESENTFreeXcbQueue
    split
    · exact drain_ready_congr ha rfl rfl rfl
    · exact ha

theorem PRESENTPixmap_attach_ready (st : PRESENTpriv) (w : Xcb) (window : Nat)
    (a : PRESENTpriv × Xcb) (ha : PRESENTPixmap_attach st w window = some a)
    (hr : drain_ready st w) : drain_ready a.1 a.2 := by
  unfold PRESENTPixmap_attach at ha
  split at ha
  · cases hc : PRESENTPrivChangeWindow st w window with
    | none => simp [hc] at ha
    | some c =>
      simp only [hc, Option.some.injEq] at ha
      subst ha
      exact PRESENTPrivChangeWindow_ready st w window c hc hr
  · injection ha with ha; subst ha; exact hr

theorem PRESENTPixmap_submit_consistent (st : PRESENTpriv) (w : Xcb) (window p : Nat)
    (params : D3DPRESENT_PARAMETERS) (src dst : Option RECT) (dirty : Option (List RECT))
    (r : Bool × PRESENTpriv × Xcb) (hc : pending_consistent st)
    (h : PRESENTPixmap_submit st w window p params src dst dirty = some r) :
    pending_consistent r.2.1 := by
  obtain ⟨node, hd, hcase⟩ := PRESENTPixmap_submit_cases _ _ _ _ _ _ _ _ _ h
  rcases hcase with ⟨_, hr⟩ | ⟨_, hpend, _, hcase⟩
  · subst hr; exact hc
  · rcases hcase with ⟨_, _, hst⟩ | ⟨_, _, hst⟩
    · rw [hst]; exact hc
    · have hp := derefPixmapPriv_ptr _ _ _ hd
      have hcount := storePixmapPriv_pending st.first_present_priv node
        (fun n => { n with present_complete_pending := true, released := false }) hc.2 hp.2
      simp only [hpend, Bool.false_eq_true, if_false, if_true, Nat.add_zero] at hcount
      rw [hp.1] at hcount
      rw [hst]
      unfold pending_consistent at hc ⊢
      refine ⟨?_, ?_⟩
      · simp only
        rw [hc.1, hcount]
        push_cast
        rfl
      · simp only
        refine (storePixmapPriv_ptrs _ _ _ ?_).symm ▸ hc.2
        intro _; rfl

theorem PRESENTPixmap_consistent (st : PRESENTpriv) (w : Xcb) (window p : Nat)
    (params : D3DPRESENT_PARAMETERS) (src dst : Option RECT) (dirty : Option (List RECT))
    (r : Bool × PRESENTpriv × Xcb) (hr : drain_ready st w)
    (h : PRESENTPixmap st w window p params src dst dirty = some r) :
    pending_consistent r.2.1 := by
  obtain ⟨a, ha, hcase⟩ := PRESENTPixmap_cases _ _ _ _ _ _ _ _ _ h
  have hra := PRESENTPixmap_attach_ready st w window a ha hr
  rcases hcase with ⟨_, hres⟩ | ⟨_, hsub⟩
  · subst hres; exact hra.1
  · exact PRESENTPixmap_submit_consistent _ _ _ _ _ _ _ _ r
      (PRESENTflush_events_ready a.1 a.2 false hra).1 hsub

theorem PRESENTPixmapInit_consistent (st : PRESENTpriv) (pixmap p : Nat)
    (hc : pending_consistent st) (hfresh : p ∉ st.first_present_priv.map (fun n => n.ptr)) :
    pending_consistent (PRESENTPixmapInit st pixmap (some p)).2 := by
  unfold pending_consistent at hc ⊢
  unfold PRESENTPixmapInit
  refine ⟨?_, ?_⟩
  · simp only [pending_handles, List.filter_cons, Bool.false_eq_true, if_false]
    exact hc.1
  · simp only [List.map_cons, List.nodup_cons]
    exact ⟨hfresh, hc.2⟩

theorem PRESENTTryFreePixmap_consistent (st : PRESENTpriv) (p : Nat) (r : Bool × PRESENTpriv)
    (hc : pending_consistent st) (h : PRESENTTryFreePixmap st p = some r) :
    pending_consistent r.2 := by
  unfold PRESENTTryFreePixmap at h
  cases hd : derefPixmapPriv st.first_present_priv p with
  | none => simp [hd] at h
  | some node =>
    simp only [hd] at h
    split at h
    · injection h with h; subst h; exact hc
    · rename_i hb
      injection h with h; subst h
      have hpend : node.present_complete_pending = false := by
        cases hp : node.present_complete_pending
        · rfl
        · simp [hp] at hb
      obtain ⟨before, after, hl, _, hu⟩ := PRESENTTryFreePixmap_unlink_split _ _ _ hd
      unfold pending_consistent at hc ⊢
      simp only
      rw [hu]
      rw [hl] at hc
      refine ⟨?_, ?_⟩
      · rw [hc.1]
        simp only [pending_handles, List.filter_append, List.filter_cons, hpend,
          Bool.false_eq_true, if_false]
      · have hsub : List.Sublist (before ++ after) (before ++ node :: after) :=
          List.Sublist.append_left (List.sublist_cons_self node after) before
        exact List.Nodup.sublist (List.Sublist.map _ hsub) hc.2

theorem step_consistent (s : PRESENTpriv × Xcb) (op : Op) (s' : PRESENTpriv × Xcb)
    (hc : pending_consistent s.1) (he : op_expected s op = true)
    (h : step s op = some s') : pending_consistent s'.1 := by
  cases op with
  | register pixmap alloc =>
    unfold step at h
    cases alloc with
    | none => simp only [Option.some.injEq] at h; subst h; exact hc
    | some p =>
      simp only at h
      split at h
      · cases h
      · rename_i hfresh
        injection h with h; subst h
        exact PRESENTPixmapInit_consistent s.1 pixmap p hc hfresh
  | release p =>
    unfold step at h
    simp only at h
    split at h
    · cases h
    · rename_i r hr
      injection h with h; subst h
      exact PRESENTTryFreePixmap_consistent s.1 p r hc hr
  | present window p params src dst dirty =>
    unfold step at h
    simp only at h
    split at h
    · cases h
    · rename_i r hr
      injection h with h; subst h
      exact PRESENTPixmap_consistent _ _ _ _ _ _ _ _ r ⟨hc, he⟩ hr
  | attach window =>
    unfold step at h
    simp only at h
    split at h
    · cases h
    · rename_i r hr
      injection h with h; subst h
      exact (PRESENTPrivChangeWindow_ready _ _ _ r hr ⟨hc, he⟩).1
  | dispatch ev =>
    unfold step at h
    injection h with h; subst h
    exact PRESENThandle_events_consistent _ _ hc he
  | wait_enter =>
    unfold step at h
    injection h with h; subst h
    exact pending_consistent_congr rfl rfl hc
  | wait_leave ev =>
    unfold step at h
    cases ev with
    | none =>
      injection h with h; subst h
      exact pending_consistent_congr rfl rfl hc
    | some e =>
      injection h with h; subst h
      refine PRESENThandle_events_consistent _ _ (pending_consistent_congr rfl rfl hc) ?_
      exact (completion_expected_congr _ s.1 e rfl).trans he
  | server events checks specials =>
    unfold step at h
    injection h with h; subst h; exact hc

theorem run_consistent (ops : List Op) :
    ∀ (s s' : PRESENTpriv × Xcb), pending_consistent s.1 → ops_expected s ops = true →
      run s ops = some s' → pending_consistent s'.1 := by
  induction ops with
  | nil =>
    intro s s' hc _ h
    unfold run at h
    injection h with h; subst h; exact hc
  | cons op rest ih =>
    intro s s' hc he h
    unfold run at h
    unfold ops_expected at he
    cases hs : step s op with
    | none => simp [hs] at h
    | some s1 =>
      simp only [hs, Bool.and_eq_true] at h he
      exact ih s1 s' (step_consistent s op s1 hc he.1 hs) he.2 h

/-- C7, amended: in every state reached from the channel `PRESENTInit` creates by
registrations, presents, releases, attaches and dispatched events, provided every pixmap
completion that is dispatched finds its handle completion-pending, `pixmap_present_pending`
is at least 0 and equals the number of registered handles with `present_complete_pending`
set. -/
theorem pending_count_matches_flags (st0 : PRESENTpriv) (w0 : Xcb) (ops : List Op)
    (st : PRESENTpriv) (w : Xcb) (hinit : PRESENTInit true = some st0)
    (hexpected : ops_expected (st0, w0) ops = true)
    (hrun : run (st0, w0) ops = some (st, w)) :
    0 ≤ st.pixmap_present_pending
      ∧ st.pixmap_present_pending = (pending_handles st.first_present_priv : Int) := by
  have h0 : pending_consistent st0 := by
    unfold PRESENTInit at hinit
    simp only [if_true, Option.some.injEq] at hinit
    subst hinit
    exact ⟨rfl, List.nodup_nil⟩
  have h := run_consistent ops (st0, w0) (st, w) h0 hexpected hrun
  exact ⟨by rw [h.1]; exact Int.natCast_nonneg _, h.1⟩

/-- C7 amended, at a concrete run: scenario A. -/
theorem pending_count_matches_flags_witness :
    ops_expected (channel0, xcb0) (scenario_a_ops.take 5) = true ∧
    (run (channel0, xcb0) (scenario_a_ops.take 5)).map
      (fun s => (s.1.pixmap_present_pending, pending_handles s.1.first_present_priv))
      = some (1, 1) ∧
    ∀ st w, run (channel0, xcb0) (scenario_a_ops.take 5) = some (st, w) →
      (0 ≤ st.pixmap_present_pending
        ∧ st.pixmap_present_pending = (pending_handles st.first_present_priv : Int)) :=
  ⟨by decide, by decide, fun st w h =>
    pending_count_matches_flags channel0 xcb0 (scenario_a_ops.take 5) st w (by decide)
      (by decide) h⟩

/-! ## C11: scenario A -/

theorem storePixmapPriv_head (n : PRESENTPixmapPriv) (l : List PRESENTPixmapPriv) (p : Nat)
    (f : PRESENTPixmapPriv → PRESENTPixmapPriv) (hn : n.ptr = p)
    (hp : p ∉ l.map (fun n => n.ptr)) : storePixmapPriv (n :: l) p f = f n :: l := by
  have habs := storePixmapPriv_absent l p f hp
  unfold storePixmapPriv at habs ⊢
  simp only [List.map_cons, hn, if_true, habs]

theorem derefPixmapPriv_head (n : PRESENTPixmapPriv) (l : List PRESENTPixmapPriv) (p : Nat)
    (hn : n.ptr = p) : derefPixmapPriv (n :: l) p = some n := by
  unfold derefPixmapPriv
  rw [List.find?_cons]
  simp [hn]

/-- A submission for a free handle that the server accepts. -/
theorem PRESENTPixmap_submit_accept (st : PRESENTpriv) (w : Xcb) (window p : Nat)
    (params : D3DPRESENT_PARAMETERS) (src dst : Option RECT) (dirty : Option (List RECT))
    (h : PRESENTPixmapPriv) (hd : derefPixmapPriv st.first_present_priv p = some h)
    (hrel : h.released = true) (hpend : h.present_complete_pending = false)
    (hacc : w.checks.head? ≠ some true) :
    PRESENTPixmap_submit st w window p params src dst dirty
      = some (true,
          { st with
            last_target := toU64 (target_msc st params.PresentationInterval)
            pixmap_present_pending := st.pixmap_present_pending + 1
            first_present_priv := storePixmapPriv st.first_present_priv p
              (fun n => { n with present_complete_pending := true, released := false }) },
          (xcb_request_check (PRESENTPixmap_send st w window h params src dst dirty)).2) := by
  have hc : ¬ (xcb_request_check (PRESENTPixmap_send st w window h params src dst dirty)).1
      = true := by
    rw [xcb_request_check_error, PRESENTPixmap_send_checks]; exact hacc
  simp only [PRESENTPixmap_submit, hd, hrel, hpend, Bool.not_true, Bool.or_false,
    Bool.false_eq_true, if_false, hc]

/-- A pixmap completion for the serial of the node at the head of the registry. -/
theorem PRESENThandle_events_complete_head (st : PRESENTpriv) (B : PRESENTPixmapPriv)
    (l : List PRESENTPixmapPriv) (mode msc : Nat) (hl : st.first_present_priv = B :: l)
    (hfresh : B.ptr ∉ l.map (fun n => n.ptr)) :
    PRESENThandle_events st
        (Event.complete_notify XCB_PRESENT_COMPLETE_KIND_PIXMAP mode B.serial msc)
      = { st with
          first_present_priv :=
            { B with present_complete_pending := false,
                     last_present_was_flip :=
                       if mode = XCB_PRESENT_COMPLETE_MODE_FLIP then true
                       else if mode = XCB_PRESENT_COMPLETE_MODE_COPY then false
                       else B.last_present_was_flip } :: l
          pixmap_present_pending := st.pixmap_present_pending - 1
          last_msc := msc } := by
  have hfind : PRESENTFindPixmapPriv st B.serial = some B := by
    unfold PRESENTFindPixmapPriv
    rw [hl]
    unfold PRESENTFindPixmapPrivList
    rw [if_pos rfl]
  have hkind : ¬ XCB_PRESENT_COMPLETE_KIND_PIXMAP = XCB_PRESENT_COMPLETE_KIND_NOTIFY_MSC := by
    decide
  unfold PRESENThandle_events
  simp only [hkind, if_false, hfind, ne_eq, not_true_eq_false]
  rw [hl, storePixmapPriv_head B l B.ptr _ rfl hfresh]

/-- An idle notice for the serial and the pixmap of the node at the head of the registry. -/
theorem PRESENThandle_events_idle_head (st : PRESENTpriv) (B : PRESENTPixmapPriv)
    (l : List PRESENTPixmapPriv) (hl : st.first_present_priv = B :: l)
    (hfresh : B.ptr ∉ l.map (fun n => n.ptr)) :
    PRESENThandle_events st (Event.idle_notify B.serial B.pixmap)
      = { st with first_present_priv := { B with released := true } :: l } := by
  have hfind : PRESENTFindPixmapPriv st B.serial = some B := by
    unfold PRESENTFindPixmapPriv
    rw [hl]
    unfold PRESENTFindPixmapPrivList
    rw [if_pos rfl]
  unfold PRESENThandle_events
  simp only [hfind, ne_eq, not_true_eq_false, if_false]
  rw [hl, storePixmapPriv_head B l B.ptr _ rfl hfresh]

/-- Scenario A for a free node at the head of the registry. -/
theorem scenario_a_head (st1 : PRESENTpriv) (w : Xcb) (S msc : Nat) (B : PRESENTPixmapPriv)
    (l : List PRESENTPixmapPriv)
    (params : D3DPRESENT_PARAMETERS) (src dst : Option RECT) (dirty : Option (List RECT))
    (hl : st1.first_present_priv = B :: l) (hfresh : B.ptr ∉ l.map (fun n => n.ptr))
    (hrel : B.released = true) (hpend : B.present_complete_pending = false)
    (hattached : st1.window = S) (hS : S ≠ 0) (hcount : st1.pixmap_present_pending = 0)
    (hquiet : ∀ e, w.events.head? ≠ some (some e))
    (haccept : w.checks.head? ≠ some true) :
    ∃ st2 w2,
      PRESENTPixmap st1 w S B.ptr params src dst dirty = some (true, st2, w2) ∧
      st2.first_present_priv
        = { B with released := false, present_complete_pending := true } :: l ∧
      st2.pixmap_present_pending = 1 ∧
      (PRESENThandle_events st2 (Event.complete_notify XCB_PRESENT_COMPLETE_KIND_PIXMAP
          XCB_PRESENT_COMPLETE_MODE_COPY B.serial msc)).first_present_priv
        = { B with released := false, present_complete_pending := false,
                   last_present_was_flip := false } :: l ∧
      (PRESENThandle_events st2 (Event.complete_notify XCB_PRESENT_COMPLETE_KIND_PIXMAP
          XCB_PRESENT_COMPLETE_MODE_COPY B.serial msc)).pixmap_present_pending = 0 ∧
      (PRESENThandle_events (PRESENThandle_events st2 (Event.complete_notify
          XCB_PRESENT_COMPLETE_KIND_PIXMAP XCB_PRESENT_COMPLETE_MODE_COPY B.serial msc))
          (Event.idle_notify B.serial B.pixmap)).first_present_priv
        = { B with released := true, present_complete_pending := false,
                   last_present_was_flip := false } :: l ∧
      ∃ st5, PRESENTTryFreePixmap (PRESENThandle_events (PRESENThandle_events st2
          (Event.complete_notify XCB_PRESENT_COMPLETE_KIND_PIXMAP XCB_PRESENT_COMPLETE_MODE_COPY
            B.serial msc)) (Event.idle_notify B.serial B.pixmap)) B.ptr = some (true, st5) := by
  have hflush : (PRESENTflush_events st1 w false).1 = st1 :=
    PRESENTflush_events_idle st1 w false hquiet
  have hd1 : derefPixmapPriv st1.first_present_priv B.ptr = some B := by
    rw [hl]; exact derefPixmapPriv_head _ _ _ rfl
  have hsub := PRESENTPixmap_submit_accept st1 (PRESENTflush_events st1 w false).2 S B.ptr params
    src dst dirty B hd1 hrel hpend
    (by rw [(PRESENTflush_events_checks st1 w false).1]; exact haccept)
  have hpresent : PRESENTPixmap st1 w S B.ptr params src dst dirty
      = PRESENTPixmap_submit st1 (PRESENTflush_events st1 w false).2 S B.ptr params src dst
          dirty := by
    have ha : PRESENTPixmap_attach st1 w S = some (st1, w) := by
      rw [← hattached]; exact PRESENTPixmap_attach_same st1 w
    simp only [PRESENTPixmap, ha, hS, if_false, hflush]
  have hstore : storePixmapPriv st1.first_present_priv B.ptr
      (fun n => { n with present_complete_pending := true, released := false })
      = { B with released := false, present_complete_pending := true } :: l := by
    rw [hl]; exact storePixmapPriv_head _ _ _ _ rfl hfresh
  rw [hpresent, hsub, hstore, hcount]
  generalize toU64 (target_msc st1 params.PresentationInterval) = t
  refine ⟨_, _, rfl, rfl, rfl, ?_⟩
  have hcomplete := PRESENThandle_events_complete_head
    { st1 with
      last_target := t
      pixmap_present_pending := 0 + 1
      first_present_priv := { B with released := false, present_complete_pending := true } :: l }
    { B with released := false, present_complete_pending := true } l
    XCB_PRESENT_COMPLETE_MODE_COPY msc rfl hfresh
  have hmode : (if XCB_PRESENT_COMPLETE_MODE_COPY = XCB_PRESENT_COMPLETE_MODE_FLIP then true
      else if XCB_PRESENT_COMPLETE_MODE_COPY = XCB_PRESENT_COMPLETE_MODE_COPY then false
      else B.last_present_was_flip) = false := rfl
  rw [hmode] at hcomplete
  have hidle := PRESENThandle_events_idle_head
    { st1 with
      last_target := t
      last_msc := msc
      pixmap_present_pending := 0 + 1 - 1
      first_present_priv :=
        { B with released := false, present_complete_pending := false,
                 last_present_was_flip := false } :: l }
    { B with released := false, present_complete_pending := false,
             last_present_was_flip := false } l rfl hfresh
  refine ⟨?_, ?_, ?_, ?_⟩
  · exact congrArg PRESENTpriv.first_present_priv hcomplete
  · exact (congrArg PRESENTpriv.pixmap_present_pending hcomplete).trans rfl
  · exact (congrArg (fun s => (PRESENThandle_events s
        (Event.idle_notify B.serial B.pixmap)).first_present_priv) hcomplete).trans
      (congrArg PRESENTpriv.first_present_priv hidle)
  · have h5 : PRESENThandle_events (PRESENThandle_events
        { st1 with
          last_target := t
          pixmap_present_pending := 0 + 1
          first_present_priv :=
            { B with released := false, present_complete_pending := true } :: l }
        (Event.complete_notify XCB_PRESENT_COMPLETE_KIND_PIXMAP XCB_PRESENT_COMPLETE_MODE_COPY
          B.serial msc)) (Event.idle_notify B.serial B.pixmap)
        = { st1 with
            last_target := t
            last_msc := msc
            pixmap_present_pending := 0 + 1 - 1
            first_present_priv :=
              { B with released := true, present_complete_pending := false,
                       last_present_was_flip := false } :: l } :=
      (congrArg (fun s => PRESENThandle_events s (Event.idle_notify B.serial B.pixmap))
        hcomplete).trans hidle
    rw [h5]
    unfold PRESENTTryFreePixmap
    rw [derefPixmapPriv_head _ _ _ rfl]
    exact ⟨_, rfl⟩

/-- C11: on a channel attached to window `S` with nothing pending, for a buffer just
registered at the fresh address `p`, with no event queued and a server that accepts the
request: `PRESENTPixmap` (with interval one as with any other) returns TRUE and leaves the
handle not released, completion-pending, with `pixmap_present_pending` 1; the pixmap
completion of its serial in copy mode then clears the pending flag and brings the counter
to 0; the idle notice then sets `released`; and `PRESENTTryFreePixmap` then returns TRUE. -/
theorem scenario_a_holds (st : PRESENTpriv) (w : Xcb) (S pixmap p msc : Nat)
    (params : D3DPRESENT_PARAMETERS) (src dst : Option RECT) (dirty : Option (List RECT))
    (hattached : st.window = S) (hS : S ≠ 0) (hcount : st.pixmap_present_pending = 0)
    (hfresh : p ∉ st.first_present_priv.map (fun n => n.ptr))
    (hquiet : ∀ e, w.events.head? ≠ some (some e))
    (haccept : w.checks.head? ≠ some true) :
    ∃ st2 w2,
      PRESENTPixmap (PRESENTPixmapInit st pixmap (some p)).2 w S p params src dst dirty
        = some (true, st2, w2) ∧
      st2.first_present_priv
        = { registered_node st pixmap p with
            released := false, present_complete_pending := true } :: st.first_present_priv ∧
      st2.pixmap_present_pending = 1 ∧
      (PRESENThandle_events st2 (Event.complete_notify XCB_PRESENT_COMPLETE_KIND_PIXMAP
          XCB_PRESENT_COMPLETE_MODE_COPY (registered_node st pixmap p).serial msc)).first_present_priv
        = { registered_node st pixmap p with
            released := false, present_complete_pending := false } :: st.first_present_priv ∧
      (PRESENThandle_events st2 (Event.complete_notify XCB_PRESENT_COMPLETE_KIND_PIXMAP
          XCB_PRESENT_COMPLETE_MODE_COPY
          (registered_node st pixmap p).serial msc)).pixmap_present_pending = 0 ∧
      (PRESENThandle_events (PRESENThandle_events st2 (Event.complete_notify
          XCB_PRESENT_COMPLETE_KIND_PIXMAP XCB_PRESENT_COMPLETE_MODE_COPY
          (registered_node st pixmap p).serial msc))
          (Event.idle_notify (registered_node st pixmap p).serial pixmap)).first_present_priv
        = { registered_node st pixmap p with
            released := true, present_complete_pending := false } :: st.first_present_priv ∧
      ∃ st5, PRESENTTryFreePixmap (PRESENThandle_events (PRESENThandle_events st2
          (Event.complete_notify XCB_PRESENT_COMPLETE_KIND_PIXMAP XCB_PRESENT_COMPLETE_MODE_COPY
            (registered_node st pixmap p).serial msc))
          (Event.idle_notify (registered_node st pixmap p).serial pixmap)) p
        = some (true, st5) :=
  scenario_a_head (PRESENTPixmapInit st pixmap (some p)).2 w S msc (registered_node st pixmap p)
    st.first_present_priv params src dst dirty rfl hfresh rfl rfl hattached hS hcount hquiet
    haccept

/-- C11 at a concrete input: buffer 100 registered at address 1 on a channel attached to
window 5, presented with interval one. -/
theorem scenario_a_holds_witness :
    (run (channel0, xcb0) scenario_a_ops).map
      (fun s => (s.1.first_present_priv, s.1.pixmap_present_pending)) = some ([], 0) ∧
    ∃ st2 w2,
      PRESENTPixmap (PRESENTPixmapInit { channel0 with window := 5, special_event := some 1 }
          100 (some 1)).2 xcb0 5 1 params_one none none none = some (true, st2, w2) ∧
      st2.first_present_priv
        = { registered_node { channel0 with window := 5, special_event := some 1 } 100 1 with
            released := false, present_complete_pending := true } :: [] ∧
      st2.pixmap_present_pending = 1 ∧
      (PRESENThandle_events st2 (Event.complete_notify XCB_PRESENT_COMPLETE_KIND_PIXMAP
          XCB_PRESENT_COMPLETE_MODE_COPY 1 77)).pixmap_present_pending = 0 ∧
      ∃ st5, PRESENTTryFreePixmap (PRESENThandle_events (PRESENThandle_events st2
          (Event.complete_notify XCB_PRESENT_COMPLETE_KIND_PIXMAP XCB_PRESENT_COMPLETE_MODE_COPY
            1 77)) (Event.idle_notify 1 100)) 1 = some (true, st5) := by
  refine ⟨by decide, ?_⟩
  obtain ⟨st2, w2, h1, h2, h3, _, h5, _, h7⟩ :=
    scenario_a_holds { channel0 with window := 5, special_event := some 1 } xcb0 5 100 1 77
      params_one none none none rfl (by decide) rfl (by decide) (fun e h => by cases h)
      (by decide)
  exact ⟨st2, w2, h1, h2, h3, h5, h7⟩

/-! ## C12: waiting for a buffer -/

/-- A shared wait reports failure only when the transport returned no event. -/
theorem PRESENTwait_events_shared_false (st : PRESENTpriv) (w : Xcb) (foreign : List Op)
    (r : Bool × PRESENTpriv × Xcb)
    (h : PRESENTwait_events_shared st w foreign = some r) (hr : r.1 = false) :
    ∃ s, run ({ st with xcb_wait := true }, w) foreign = some s
      ∧ (xcb_next_event s.2).1 = none := by
  unfold PRESENTwait_events_shared at h
  cases hrun : run ({ st with xcb_wait := true }, w) foreign with
  | none => simp [hrun] at h
  | some s =>
    refine ⟨s, rfl, ?_⟩
    simp only [hrun] at h
    cases hev : (xcb_next_event s.2).1 with
    | none => rfl
    | some ev =>
      simp only [hev, Option.some.injEq] at h
      subst h
      simp at hr

/-- What a return of the loop of `PRESENTWaitPixmapReleased` means. -/
theorem PRESENTWaitPixmapReleased_loop_spec (fuel : Nat) :
    ∀ (st : PRESENTpriv) (w : Xcb) (p : Nat) (foreign : List (List Op))
      (r : Bool × PRESENTpriv × Xcb),
      PRESENTWaitPixmapReleased_loop fuel st w p foreign = some r →
      (r.1 = true → ∃ h, derefPixmapPriv r.2.1.first_present_priv p = some h
          ∧ h.released = true ∧ h.present_complete_pending = false) ∧
      (r.1 = false → ∃ sti wi ops s,
          sti.xcb_wait = false ∧
          PRESENTwait_events_shared sti wi ops = some r ∧
          run ({ sti with xcb_wait := true }, wi) ops = some s ∧
          (xcb_next_event s.2).1 = none) := by
  induction fuel with
  | zero =>
    intro st w p foreign r h
    unfold PRESENTWaitPixmapReleased_loop at h
    cases hd : derefPixmapPriv st.first_present_priv p with
    | none => simp [hd] at h
    | some node =>
      simp only [hd] at h
      split at h
      · cases h
      · rename_i hb
        injection h with h; subst h
        refine ⟨fun _ => ⟨node, hd, ?_, ?_⟩, fun hf => by simp at hf⟩
        · cases hx : node.released <;> simp [hx] at hb ⊢
        · cases hx : node.present_complete_pending <;> simp [hx] at hb ⊢
  | succ n ih =>
    intro st w p foreign r h
    unfold PRESENTWaitPixmapReleased_loop at h
    cases hd : derefPixmapPriv st.first_present_priv p with
    | none => simp [hd] at h
    | some node =>
      simp only [hd] at h
      split at h
      · split at h
        · split at h
          · cases h
          · exact ih _ _ _ _ _ h
        · rename_i hw
          split at h
          · cases h
          · rename_i r1 hr1
            split at h
            · rename_i hfalse
              injection h with h; subst h
              have hf : r1.1 = false := by
                cases hx : r1.1 <;> simp [hx] at hfalse ⊢
              obtain ⟨b1, p1, x1⟩ := r1
              simp only at hf
              subst hf
              obtain ⟨s, hs, hnone⟩ := PRESENTwait_events_shared_false _ _ _ _ hr1 rfl
              refine ⟨fun ht => by simp at ht, fun _ => ⟨st, w, _, s, ?_, hr1, hs, hnone⟩⟩
              cases hx : st.xcb_wait
              · rfl
              · exact absurd hx hw
            · exact ih _ _ _ _ _ h
      · rename_i hb
        injection h with h; subst h
        refine ⟨fun _ => ⟨node, hd, ?_, ?_⟩, fun hf => by simp at hf⟩
        · cases hx : node.released <;> simp [hx] at hb ⊢
        · cases hx : node.present_complete_pending <;> simp [hx] at hb ⊢

/-- The traced wait is the shared wait with the result of the blocking call in front. -/
theorem PRESENTwait_events_waited_erase (st : PRESENTpriv) (w : Xcb) (foreign : List Op) :
    (PRESENTwait_events_waited st w foreign).map Prod.snd
      = PRESENTwait_events_shared st w foreign := by
  unfold PRESENTwait_events_waited PRESENTwait_events_shared
  cases run ({ st with xcb_wait := true }, w) foreign with
  | none => rfl
  | some s =>
    dsimp only
    cases (xcb_next_event s.2).1 <;> rfl

/-- The wait reports failure exactly when the blocking call returned no event. -/
theorem PRESENTwait_events_waited_result (st : PRESENTpriv) (w : Xcb) (foreign : List Op)
    (r : Option Event × Bool × PRESENTpriv × Xcb)
    (h : PRESENTwait_events_waited st w foreign = some r) :
    (r.2.1 = false ∧ r.1 = none) ∨ (r.2.1 = true ∧ r.1 ≠ none) := by
  unfold PRESENTwait_events_waited at h
  cases hrun : run ({ st with xcb_wait := true }, w) foreign with
  | none => simp [hrun] at h
  | some s =>
    simp only [hrun] at h
    cases hev : (xcb_next_event s.2).1 with
    | none =>
      simp only [hev, Option.some.injEq] at h
      subst h
      exact Or.inl ⟨rfl, rfl⟩
    | some ev =>
      simp only [hev, Option.some.injEq] at h
      subst h
      exact Or.inr ⟨rfl, fun e => by cases e⟩

/-- The traced loop returns what the loop returns. -/
theorem PRESENTWaitPixmapReleased_traced_erase (fuel : Nat) :
    ∀ (st : PRESENTpriv) (w : Xcb) (p : Nat) (foreign : List (List Op)),
      (PRESENTWaitPixmapReleased_traced fuel st w p foreign).map Prod.fst
        = PRESENTWaitPixmapReleased_loop fuel st w p foreign := by
  induction fuel with
  | zero =>
    intro st w p foreign
    unfold PRESENTWaitPixmapReleased_traced PRESENTWaitPixmapReleased_loop
    cases derefPixmapPriv st.first_present_priv p with
    | none => rfl
    | some node =>
      dsimp only
      split <;> rfl
  | succ n ih =>
    intro st w p foreign
    unfold PRESENTWaitPixmapReleased_traced PRESENTWaitPixmapReleased_loop
    cases derefPixmapPriv st.first_present_priv p with
    | none => rfl
    | some node =>
      dsimp only
      split
      · split
        · cases run (st, w) (foreign.headD []) with
          | none => rfl
          | some s => exact ih _ _ _ _
        · rw [← PRESENTwait_events_waited_erase]
          cases PRESENTwait_events_waited st w (foreign.headD []) with
          | none => rfl
          | some r =>
            simp only [Option.map_some']
            split
            · rfl
            · rw [← ih]
              cases PRESENTWaitPixmapReleased_traced n r.2.2.1 r.2.2.2 p foreign.tail <;> rfl
      · rfl

/-- What a return of the traced loop means. -/
theorem PRESENTWaitPixmapReleased_traced_spec (fuel : Nat) :
    ∀ (st : PRESENTpriv) (w : Xcb) (p : Nat) (foreign : List (List Op))
      (r : Bool × PRESENTpriv × Xcb) (waits : List (Option Event)),
      PRESENTWaitPixmapReleased_traced fuel st w p foreign = some (r, waits) →
      (r.1 = true →
        (∃ h, derefPixmapPriv r.2.1.first_present_priv p = some h
          ∧ h.released = true ∧ h.present_complete_pending = false) ∧
        ∀ e ∈ waits, e ≠ none) ∧
      (r.1 = false → ∃ init, waits = init ++ [none] ∧ ∀ e ∈ init, e ≠ none) := by
  induction fuel with
  | zero =>
    intro st w p foreign r waits h
    unfold PRESENTWaitPixmapReleased_traced at h
    cases hd : derefPixmapPriv st.first_present_priv p with
    | none => simp [hd] at h
    | some node =>
      simp only [hd] at h
      split at h
      · cases h
      · rename_i hb
        injection h with h
        injection h with h1 h2
        subst h1; subst h2
        refine ⟨fun _ => ⟨⟨node, hd, ?_, ?_⟩, fun e he => absurd he (List.not_mem_nil _)⟩,
          fun hf => by simp at hf⟩
        · cases hx : node.released <;> simp [hx] at hb ⊢
        · cases hx : node.present_complete_pending <;> simp [hx] at hb ⊢
  | succ n ih =>
    intro st w p foreign r waits h
    unfold PRESENTWaitPixmapReleased_traced at h
    cases hd : derefPixmapPriv st.first_present_priv p with
    | none => simp [hd] at h
    | some node =>
      simp only [hd] at h
      split at h
      · split at h
        · split at h
          · cases h
          · exact ih _ _ _ _ _ _ h
        · split at h
          · cases h
          · rename_i r1 hr1
            have hres := PRESENTwait_events_waited_result _ _ _ _ hr1
            split at h
            · rename_i hfalse
              injection h with h
              injection h with h1 h2
              subst h1; subst h2
              rcases hres with ⟨_, hnone⟩ | ⟨htrue, _⟩
              · refine ⟨fun ht => by simp at ht, fun _ => ⟨[], ?_, ?_⟩⟩
                · rw [hnone]; rfl
                · intro e he; exact absurd he (List.not_mem_nil _)
              · rw [htrue] at hfalse; simp at hfalse
            · rename_i hnot
              split at h
              · cases h
              · rename_i t ht
                injection h with h
                injection h with h1 h2
                subst h1; subst h2
                have hsome : r1.1 ≠ none := by
                  rcases hres with ⟨hf, _⟩ | ⟨_, hs⟩
                  · rw [hf] at hnot; simp at hnot
                  · exact hs
                obtain ⟨t1, t2⟩ := t
                have hih := ih _ _ _ _ t1 t2 ht
                refine ⟨fun htrue => ⟨(hih.1 htrue).1, ?_⟩, fun hfalse => ?_⟩
                · intro e he
                  rcases List.mem_cons.1 he with rfl | hin
                  · exact hsome
                  · exact (hih.1 htrue).2 e hin
                · obtain ⟨init, hinit, hall⟩ := hih.2 hfalse
                  refine ⟨r1.1 :: init, ?_, ?_⟩
                  · rw [hinit]; rfl
                  · intro e he
                    rcases List.mem_cons.1 he with rfl | hin
                    · exact hsome
                    · exact hall e hin
      · rename_i hb
        injection h with h
        injection h with h1 h2
        subst h1; subst h2
        refine ⟨fun _ => ⟨⟨node, hd, ?_, ?_⟩, fun e he => absurd he (List.not_mem_nil _)⟩,
          fun hf => by simp at hf⟩
        · cases hx : node.released <;> simp [hx] at hb ⊢
        · cases hx : node.present_complete_pending <;> simp [hx] at hb ⊢

/-- With no step of another thread in between, the traced wait returns the next result of
the connection. -/
theorem PRESENTwait_events_waited_alone (st : PRESENTpriv) (w : Xcb)
    (r : Option Event × Bool × PRESENTpriv × Xcb)
    (h : PRESENTwait_events_waited st w [] = some r) :
    r.1 = (xcb_next_event w).1 ∧ r.2.2.2 = (xcb_next_event w).2 := by
  unfold PRESENTwait_events_waited at h
  simp only [run] at h
  cases hev : (xcb_next_event w).1 with
  | none =>
    simp only [hev, Option.some.injEq] at h
    subst h
    exact ⟨rfl, rfl⟩
  | some ev =>
    simp only [hev, Option.some.injEq] at h
    subst h
    exact ⟨rfl, rfl⟩

/-- With no other thread at work, the blocking waits of the loop return the successive
results of the connection the loop started on. -/
theorem PRESENTWaitPixmapReleased_traced_alone (fuel : Nat) :
    ∀ (st : PRESENTpriv) (w : Xcb) (p : Nat) (r : Bool × PRESENTpriv × Xcb)
      (waits : List (Option Event)),
      PRESENTWaitPixmapReleased_traced fuel st w p [] = some (r, waits) →
      waits = xcb_wait_results waits.length w := by
  induction fuel with
  | zero =>
    intro st w p r waits h
    unfold PRESENTWaitPixmapReleased_traced at h
    cases hd : derefPixmapPriv st.first_present_priv p with
    | none => simp [hd] at h
    | some node =>
      simp only [hd] at h
      split at h
      · cases h
      · injection h with h
        injection h with h1 h2
        subst h2
        rfl
  | succ n ih =>
    intro st w p r waits h
    unfold PRESENTWaitPixmapReleased_traced at h
    cases hd : derefPixmapPriv st.first_present_priv p with
    | none => simp [hd] at h
    | some node =>
      simp only [hd] at h
      split at h
      · split at h
        · split at h
          · cases h
          · rename_i s hs
            have e : s = (st, w) := by
              have hs1 : some (st, w) = some s := hs
              injection hs1 with hs1
              exact hs1.symm
            subst e
            exact ih _ _ _ _ _ h
        · split at h
          · cases h
          · rename_i r1 hr1
            have hal := PRESENTwait_events_waited_alone st w r1 hr1
            split at h
            · injection h with h
              injection h with h1 h2
              subst h2
              rw [hal.1]
              rfl
            · split at h
              · cases h
              · rename_i t ht
                injection h with h
                injection h with h1 h2
                subst h2
                obtain ⟨t1, t2⟩ := t
                have hih := ih _ _ _ t1 t2 ht
                rw [hal.2] at hih
                simp only [List.length_cons, xcb_wait_results]
                rw [← hih, hal.1]
      · injection h with h
        injection h with h1 h2
        subst h2
        rfl

/-- C12: a return of `PRESENTWaitPixmapReleased` comes with the results of the blocking waits
the call performed (`PRESENTWaitPixmapReleased_traced` erases to the function).  When it
returns TRUE the handle is released and not completion-pending and every blocking wait
returned an event; when it returns FALSE the last blocking wait returned no event and every
wait before it returned one; and when the handle is free after the initial non-blocking
drain it returns TRUE at once, with no blocking wait: the state and the event queue are
those the drain left.  With no other thread at work the results of the blocking waits are
the successive results of the connection the drain left. -/
theorem wait_released_spec (fuel : Nat) (st : PRESENTpriv) (w : Xcb) (p : Nat)
    (foreign : List (List Op)) :
    (PRESENTWaitPixmapReleased_traced fuel (PRESENTflush_events st w false).1
        (PRESENTflush_events st w false).2 p foreign).map Prod.fst
      = PRESENTWaitPixmapReleased fuel st w p foreign ∧
    (∀ r, PRESENTWaitPixmapReleased fuel st w p foreign = some r →
      ∃ waits,
        PRESENTWaitPixmapReleased_traced fuel (PRESENTflush_events st w false).1
          (PRESENTflush_events st w false).2 p foreign = some (r, waits) ∧
        (r.1 = true →
          (∃ h, derefPixmapPriv r.2.1.first_present_priv p = some h
            ∧ h.released = true ∧ h.present_complete_pending = false) ∧
          ∀ e ∈ waits, e ≠ none) ∧
        (r.1 = false → ∃ init, waits = init ++ [none] ∧ ∀ e ∈ init, e ≠ none)) ∧
    (∀ h, derefPixmapPriv (PRESENTflush_events st w false).1.first_present_priv p = some h →
      h.released = true → h.present_complete_pending = false →
      PRESENTWaitPixmapReleased fuel st w p foreign
        = some (true, (PRESENTflush_events st w false).1, (PRESENTflush_events st w false).2) ∧
      PRESENTWaitPixmapReleased_traced fuel (PRESENTflush_events st w false).1
          (PRESENTflush_events st w false).2 p foreign
        = some ((true, (PRESENTflush_events st w false).1, (PRESENTflush_events st w false).2),
            [])) ∧
    (∀ r waits,
      PRESENTWaitPixmapReleased_traced fuel (PRESENTflush_events st w false).1
          (PRESENTflush_events st w false).2 p [] = some (r, waits) →
      waits = xcb_wait_results waits.length (PRESENTflush_events st w false).2) := by
  have herase : (PRESENTWaitPixmapReleased_traced fuel (PRESENTflush_events st w false).1
        (PRESENTflush_events st w false).2 p foreign).map Prod.fst
      = PRESENTWaitPixmapReleased fuel st w p foreign :=
    PRESENTWaitPixmapReleased_traced_erase fuel _ _ p foreign
  refine ⟨herase, ?_, ?_, PRESENTWaitPixmapReleased_traced_alone fuel _ _ p⟩
  · intro r h
    rw [← herase] at h
    cases ht : PRESENTWaitPixmapReleased_traced fuel (PRESENTflush_events st w false).1
        (PRESENTflush_events st w false).2 p foreign with
    | none => rw [ht] at h; cases h
    | some t =>
      rw [ht] at h
      obtain ⟨t1, t2⟩ := t
      injection h with h
      simp only at h
      subst h
      exact ⟨t2, rfl, PRESENTWaitPixmapReleased_traced_spec fuel _ _ p foreign t1 t2 ht⟩
  · intro h hd hrel hpend
    refine ⟨?_, ?_⟩
    · unfold PRESENTWaitPixmapReleased
      cases fuel with
      | zero =>
        simp only [PRESENTWaitPixmapReleased_loop, hd, hrel, hpend, Bool.not_true,
          Bool.or_false, Bool.false_eq_true, if_false]
      | succ n =>
        simp only [PRESENTWaitPixmapReleased_loop, hd, hrel, hpend, Bool.not_true,
          Bool.or_false, Bool.false_eq_true, if_false]
    · cases fuel with
      | zero =>
        simp only [PRESENTWaitPixmapReleased_traced, hd, hrel, hpend, Bool.not_true,
          Bool.or_false, Bool.false_eq_true, if_false]
      | succ n =>
        simp only [PRESENTWaitPixmapReleased_traced, hd, hrel, hpend, Bool.not_true,
          Bool.or_false, Bool.false_eq_true, if_false]

/-- C12 at concrete inputs: two blocking waits, each returning an event, free the handle of
`busy_channel`; on a dead transport the first blocking wait returns no event and the call
fails; the free handle of `idle_channel` needs no wait. -/
theorem wait_released_spec_witness :
    PRESENTWaitPixmapReleased_traced 3 (PRESENTflush_events busy_channel xcb_late_events false).1
        (PRESENTflush_events busy_channel xcb_late_events false).2 1 []
      = some ((true, { idle_channel with last_msc := 10, last_target := 1 }, xcb0),
          [some (Event.complete_notify 0 0 1 10), some (Event.idle_notify 1 100)]) ∧
    PRESENTWaitPixmapReleased_traced 3 (PRESENTflush_events busy_channel xcb0 false).1
        (PRESENTflush_events busy_channel xcb0 false).2 1 []
      = some ((false, busy_channel, xcb0), [none]) ∧
    PRESENTWaitPixmapReleased 3 busy_channel xcb0 1 [] = some (false, busy_channel, xcb0) ∧
    (PRESENTWaitPixmapReleased 0 idle_channel xcb0 1 []
      = some (true, (PRESENTflush_events idle_channel xcb0 false).1,
          (PRESENTflush_events idle_channel xcb0 false).2) ∧
     PRESENTWaitPixmapReleased_traced 0 (PRESENTflush_events idle_channel xcb0 false).1
        (PRESENTflush_events idle_channel xcb0 false).2 1 []
      = some ((true, (PRESENTflush_events idle_channel xcb0 false).1,
          (PRESENTflush_events idle_channel xcb0 false).2), [])) :=
  ⟨by decide, by decide, by decide,
    (wait_released_spec 0 idle_channel xcb0 1 []).2.2.1 free_node (by decide) rfl rfl⟩

/-! ## C13: retargeting -/

/-- C13, counterexample: in `foreign_waiter_ops` a foreign thread holds the wait rights, and
the attach to window 9 returns with `pixmap_present_pending` still 1 and the handle still
completion-pending. -/
theorem retarget_counterexample :
    (run (channel0, xcb0) foreign_waiter_ops).map
      (fun s => (s.1.window, s.1.pixmap_present_pending,
        s.1.first_present_priv.map (fun n => n.present_complete_pending)))
      = some (9, 1, [true]) := by
  decide

theorem PRESENTwait_while_exit (cond : PRESENTpriv → Bool) (fuel : Nat) :
    ∀ (st : PRESENTpriv) (w : Xcb) (a : PRESENTpriv × Xcb),
      PRESENTwait_while cond fuel st w = some a → cond a.1 = false := by
  induction fuel with
  | zero =>
    intro st w a h
    unfold PRESENTwait_while at h
    split at h
    · cases h
    · rename_i hc
      injection h with h; subst h
      simpa using hc
  | succ n ih =>
    intro st w a h
    unfold PRESENTwait_while at h
    split at h
    · exact ih _ _ _ h
    · rename_i hc
      injection h with h; subst h
      simpa using hc

theorem PRESENThandle_events_pending_le (st : PRESENTpriv) (ev : Event) :
    (PRESENThandle_events st ev).pixmap_present_pending ≤ st.pixmap_present_pending := by
  cases ev with
  | complete_notify kind mode serial msc =>
    unfold PRESENThandle_events
    simp only
    split
    · split <;> exact Int.le_refl _
    · split
      · exact Int.le_refl _
      · split
        · exact Int.le_refl _
        · exact Int.sub_le_self _ (by decide)
  | idle_notify serial pixmap =>
    unfold PRESENThandle_events
    simp only
    split
    · exact Int.le_refl _
    · split <;> exact Int.le_refl _
  | other t => exact Int.le_refl _

theorem PRESENTflush_loop_pending_le (evs : List (Option Event)) :
    ∀ st : PRESENTpriv,
      (PRESENTflush_loop evs st).1.pixmap_present_pending ≤ st.pixmap_present_pending := by
  induction evs with
  | nil => intro st; exact Int.le_refl _
  | cons e rest ih =>
    intro st
    cases e with
    | none => exact Int.le_refl _
    | some ev =>
      unfold PRESENTflush_loop
      exact Int.le_trans (ih _) (PRESENThandle_events_pending_le st ev)

theorem PRESENTflush_events_pending_le (st : PRESENTpriv) (w : Xcb) (b : Bool) :
    (PRESENTflush_events st w b).1.pixmap_present_pending ≤ st.pixmap_present_pending := by
  unfold PRESENTflush_events
  split
  · exact Int.le_refl _
  · exact PRESENTflush_loop_pending_le _ _

theorem PRESENTwait_events_pending_le (st : PRESENTpriv) (w : Xcb) :
    (PRESENTwait_events st w false).2.1.pixmap_present_pending ≤ st.pixmap_present_pending := by
  unfold PRESENTwait_events xcb_next_event
  cases hw : w.events with
  | nil => exact Int.le_refl _
  | cons e rest =>
    cases e with
    | none => exact Int.le_refl _
    | some ev => exact PRESENThandle_events_pending_le st ev

theorem PRESENTForceReleases_walk_pending_le (l : List Nat) :
    ∀ (st : PRESENTpriv) (w : Xcb),
      (PRESENTForceReleases_walk l st w).1.pixmap_present_pending
        ≤ st.pixmap_present_pending := by
  induction l with
  | nil => intro st w; exact Int.le_refl _
  | cons c rest ih =>
    intro st w
    unfold PRESENTForceReleases_walk
    split
    · exact ih st w
    · split
      · split
        · exact ih st w
        · exact Int.le_trans (ih _ _)
            (Int.le_trans (PRESENTflush_events_pending_le _ _ true)
              (PRESENTwait_events_pending_le _ _))
      · exact ih st w

theorem pending_consistent_nonneg (st : PRESENTpriv) (h : pending_consistent st) :
    0 ≤ st.pixmap_present_pending := by
  rw [h.1]; exact Int.natCast_nonneg _

/-- Without a foreign waiter and with expected events, a drain that returns leaves nothing
pending. -/
theorem PRESENTForceReleases_quiescent (st : PRESENTpriv) (w : Xcb) (a : PRESENTpriv × Xcb)
    (hattached : st.window ≠ 0) (hnowaiter : st.xcb_wait = false) (hready : drain_ready st w)
    (h : PRESENTForceReleases st w = some a) : a.1.pixmap_present_pending = 0 := by
  have hra := PRESENTForceReleases_ready st w a h hready
  have hnonneg := pending_consistent_nonneg a.1 hra.1
  unfold PRESENTForceReleases at h
  rw [if_neg hattached] at h
  cases hw : PRESENTForceReleases_wait st w with
  | none => simp [hw] at h
  | some b =>
    simp only [hw, Option.some.injEq] at h
    subst h
    have hwalk := PRESENTForceReleases_walk_pending_le
      (b.1.first_present_priv.map (fun n => n.ptr)) b.1 b.2
    have hb : b.1.pixmap_present_pending ≤ 0 := by
      unfold PRESENTForceReleases_wait at hw
      simp only [hnowaiter, Bool.false_eq_true, if_false] at hw
      split at hw
      · cases hw
      · rename_i c hc
        injection hw with hw
        subst hw
        have hexit := PRESENTwait_while_exit _ _ _ _ _ hc
        have hzero : c.1.pixmap_present_pending = 0 := by
          simpa using hexit
        exact hzero ▸ PRESENTflush_events_pending_le c.1 c.2 true
    omega

theorem PRESENTPrivChangeWindow_select_pending (st : PRESENTpriv) (w : Xcb) (window : Nat) :
    (PRESENTPrivChangeWindow_select st w window).2.1.pixmap_present_pending
      = st.pixmap_present_pending := by
  unfold PRESENTPrivChangeWindow_select
  dsimp only
  split
  · split <;> rfl
  · rfl

theorem PRESENTFreeXcbQueue_pending (st : PRESENTpriv) (w : Xcb) :
    (PRESENTFreeXcbQueue st w).1.pixmap_present_pending = st.pixmap_present_pending := by
  unfold PRESENTFreeXcbQueue
  split <;> rfl

/-- C13, amended: on an attached channel with no foreign thread in the blocking wait, a
consistent counter and expected events, whenever `PRESENTPrivChangeWindow` returns,
`pixmap_present_pending` is 0. -/
theorem retarget_leaves_nothing_pending (st : PRESENTpriv) (w : Xcb) (window : Nat)
    (r : Bool × PRESENTpriv × Xcb) (hattached : st.window ≠ 0)
    (hnowaiter : st.xcb_wait = false) (hready : drain_ready st w)
    (h : PRESENTPrivChangeWindow st w window = some r) :
    r.2.1.pixmap_present_pending = 0 := by
  unfold PRESENTPrivChangeWindow at h
  cases hf : PRESENTForceReleases st w with
  | none => simp [hf] at h
  | some a =>
    simp only [hf, Option.some.injEq] at h
    subst h
    rw [PRESENTPrivChangeWindow_select_pending, PRESENTFreeXcbQueue_pending]
    exact PRESENTForceReleases_quiescent st w a hattached hnowaiter hready hf

/-- C13 amended, at a concrete input: `busy_channel` is retargeted to window 9 while the
completion and the idle notice of its presentation are queued. -/
theorem retarget_leaves_nothing_pending_witness :
    drain_ready busy_channel xcb_drain_noqueue ∧
    ∃ r, PRESENTPrivChangeWindow busy_channel xcb_drain_noqueue 9 = some r ∧
      r.2.1.pixmap_present_pending = 0 := by
  have hready : drain_ready busy_channel xcb_drain_noqueue :=
    ⟨⟨by decide, by decide⟩, by decide⟩
  refine ⟨hready, ?_⟩
  cases hr : PRESENTPrivChangeWindow busy_channel xcb_drain_noqueue 9 with
  | none => exact absurd hr (by decide)
  | some r =>
    exact ⟨r, rfl, retarget_leaves_nothing_pending busy_channel xcb_drain_noqueue 9 r
      (by decide) rfl hready hr⟩

/-! ## C14: termination of the drain -/

/-- C15, counterexample: the blocking wait that consumes a pixmap completion for the unknown
serial 99 returns TRUE, and the drain that meets an idle notice for the unknown serial 99
goes on and dispatches the completion queued behind it. -/
theorem dispatcher_fault_counterexample :
    (PRESENTwait_events busy_channel
        { xcb0 with events := [some (Event.complete_notify 0 0 99 5)] } false).1 = true ∧
    (PRESENTflush_events busy_channel
        { xcb0 with events := [some (Event.idle_notify 99 100),
                               some (Event.complete_notify 0 0 1 5)] } false).1
      = { busy_channel with
          first_present_priv := [{ busy_node with present_complete_pending := false }],
          pixmap_present_pending := 0, last_msc := 5 } := by
  refine ⟨?_, ?_⟩ <;> decide

/-- C15, amended: a fault of the dispatcher (pixmap completion with an unregistered serial,
idle notice with an unregistered serial or another pixmap) leaves the channel unchanged; the
blocking wait that consumed it returns TRUE; the drain goes on with the next queued event. -/
theorem dispatcher_fault_ignored (st : PRESENTpriv) (ev : Event)
    (hfault : faulty_event st ev = true) :
    PRESENThandle_events st ev = st ∧
    (∀ (w : Xcb) (rest : List (Option Event)), w.events = some ev :: rest →
      PRESENTwait_events st w false = (true, st, { w with events := rest })) ∧
    (∀ rest : List (Option Event),
      PRESENTflush_loop (some ev :: rest) st = PRESENTflush_loop rest st) := by
  have h1 : PRESENThandle_events st ev = st := by
    cases ev with
    | complete_notify kind mode serial msc =>
      simp only [faulty_event, Bool.and_eq_true, decide_eq_true_eq, Option.isNone_iff_eq_none]
        at hfault
      have hkind : ¬ kind = XCB_PRESENT_COMPLETE_KIND_NOTIFY_MSC := by
        rw [hfault.1]; decide
      simp only [PRESENThandle_events, hkind, if_false, hfault.2]
    | idle_notify serial pixmap =>
      simp only [faulty_event] at hfault
      unfold PRESENThandle_events
      simp only
      split
      · rfl
      · rename_i h hf
        simp only [hf, decide_eq_true_eq] at hfault
        rw [if_pos hfault]
    | other t => simp [faulty_event] at hfault
  refine ⟨h1, ?_, ?_⟩
  · intro w rest hw
    simp only [PRESENTwait_events, xcb_next_event, hw, Bool.false_eq_true, if_false, h1]
  · intro rest
    simp only [PRESENTflush_loop, h1]

/-- C15 amended, at a concrete input: the completion for serial 99 on `busy_channel`. -/
theorem dispatcher_fault_ignored_witness :
    faulty_event busy_channel (Event.complete_notify 0 0 99 5) = true ∧
    PRESENThandle_events busy_channel (Event.complete_notify 0 0 99 5) = busy_channel :=
  ⟨by decide, (dispatcher_fault_ignored busy_channel (Event.complete_notify 0 0 99 5)
    (by decide)).1⟩

/-! ## C16: buffer export -/

/-- C16, the code at a failing input: for a reply with depth 24 and 32 bits per pixel,
`DRI3DmaBufFromPixmap` returns 24 as bits per pixel, the depth of the reply; the other four
values are those of the reply. -/
theorem export_returns_depth_as_bpp :
    DRI3DmaBufFromPixmap
        (some { fd := 7, width := 640, height := 480, stride := 2560, depth := 24, bpp := 32 })
      = some { fd := 7, width := 640, height := 480, stride := 2560, depth := 24, bpp := 24 } ∧
    ∀ r : buffer_from_pixmap_reply_t,
      (DRI3DmaBufFromPixmap (some r)).map (fun b => b.bpp) = some r.depth := by
  exact ⟨rfl, fun _ => rfl⟩

/-! ## C17: capability queries -/

/-- C17, counterexample: for a request of version 1.0 answered with a reply that advertises
version 0.0, both check functions return TRUE. -/
theorem check_extension_counterexample :
    DRI3CheckExtension (some true) (some { major_version := 0, minor_version := 0 }) 1 0 = true ∧
    PRESENTCheckExtension (some true) (some { major_version := 0, minor_version := 0 }) 1 0
      = true := by
  exact ⟨rfl, rfl⟩

/-- C17, amended: each check function returns TRUE exactly when the extension is present on
the server and a version reply is obtained, whatever version the reply advertises and
whatever version was requested; it returns FALSE when the extension is missing or no reply
is obtained. -/
theorem check_extension_spec (extension : Option Bool) (reply : Option query_version_reply_t)
    (major minor : Nat) :
    (DRI3CheckExtension extension reply major minor = true
      ↔ extension = some true ∧ reply.isSome = true) ∧
    (PRESENTCheckExtension extension reply major minor = true
      ↔ extension = some true ∧ reply.isSome = true) := by
  constructor
  · unfold DRI3CheckExtension
    cases extension with
    | none => simp
    | some b => cases b <;> cases reply <;> simp
  · unfold PRESENTCheckExtension
    cases extension with
    | none => simp
    | some b => cases b <;> cases reply <;> simp

/-! ## C19: pacing -/

theorem toU64_toI64_add (a b : Int) : toU64 (toI64 (toI64 a + b)) = toU64 (a + b) := by
  unfold toU64 toI64
  omega

theorem toU64_of_range (x : Int) (h0 : 0 ≤ x) (h1 : x < 18446744073709551616) :
    (toU64 x : Int) = x := by
  unfold toU64
  omega

/-- The checked present request is the last request `PRESENTPixmap_send` issues; it carries
the option bits `present_options` and the target sequence computed from the state. -/
theorem PRESENTPixmap_send_request (st : PRESENTpriv) (w : Xcb) (window : Nat)
    (h : PRESENTPixmapPriv) (params : D3DPRESENT_PARAMETERS) (src dst : Option RECT)
    (dirty : Option (List RECT)) :
    ∃ prior valid update x_off y_off,
      (PRESENTPixmap_send st w window h params src dst dirty).sent
        = prior ++ [Request.present_pixmap true window h.pixmap h.serial valid update
            x_off y_off (present_options params)
            (toU64 (target_msc st params.PresentationInterval))] :=
  ⟨_, _, _, _, _, rfl⟩

/-- C19: the present request that `PRESENTPixmap` submits carries as target sequence
`last_msc + paceStep * (pixmap_present_pending + 1)` reduced to the `uint64_t` field (the
value itself when it is in range), the counter being the one before the increment; the pace
step is 1 for the intervals default and one, 2 for two, 3 for three, 4 for four and 0 for
immediate and every other value; the async option bit is set exactly when the step is 0. -/
theorem present_target_sequence (st : PRESENTpriv) (w : Xcb) (window : Nat)
    (h : PRESENTPixmapPriv) (params : D3DPRESENT_PARAMETERS) (src dst : Option RECT)
    (dirty : Option (List RECT)) :
    (∃ prior valid update x_off y_off,
      (PRESENTPixmap_send st w window h params src dst dirty).sent
        = prior ++ [Request.present_pixmap true window h.pixmap h.serial valid update
            x_off y_off (present_options params)
            (toU64 (st.last_msc + (presentationInterval params.PresentationInterval).1
              * (st.pixmap_present_pending + 1)))]) ∧
    (0 ≤ (st.last_msc : Int) + (presentationInterval params.PresentationInterval).1
          * (st.pixmap_present_pending + 1) →
      (st.last_msc : Int) + (presentationInterval params.PresentationInterval).1
          * (st.pixmap_present_pending + 1) < 18446744073709551616 →
      (toU64 (st.last_msc + (presentationInterval params.PresentationInterval).1
          * (st.pixmap_present_pending + 1)) : Int)
        = st.last_msc + (presentationInterval params.PresentationInterval).1
          * (st.pixmap_present_pending + 1)) ∧
    ((presentationInterval params.PresentationInterval).1 =
      if params.PresentationInterval = D3DPRESENT_INTERVAL_DEFAULT
          ∨ params.PresentationInterval = D3DPRESENT_INTERVAL_ONE then 1
      else if params.PresentationInterval = D3DPRESENT_INTERVAL_TWO then 2
      else if params.PresentationInterval = D3DPRESENT_INTERVAL_THREE then 3
      else if params.PresentationInterval = D3DPRESENT_INTERVAL_FOUR then 4
      else 0) ∧
    (present_options params &&& XCB_PRESENT_OPTION_ASYNC = XCB_PRESENT_OPTION_ASYNC
      ↔ (presentationInterval params.PresentationInterval).1 = 0) := by
  refine ⟨?_, ?_, ?_, ?_⟩
  · obtain ⟨prior, valid, update, x_off, y_off, hs⟩ :=
      PRESENTPixmap_send_request st w window h params src dst dirty
    refine ⟨prior, valid, update, x_off, y_off, ?_⟩
    rw [hs]
    unfold target_msc
    rw [toU64_toI64_add]
  · intro h0 h1
    exact toU64_of_range _ h0 h1
  · unfold presentationInterval
    split
    · rfl
    · split
      · rfl
      · split
        · rfl
        · split <;> rfl
  · unfold present_options presentationInterval
    split
    · split <;> simp <;> decide
    · split
      · split <;> simp <;> decide
      · split
        · split <;> simp <;> decide
        · split
          · split <;> simp <;> decide
          · split <;> simp <;> decide

/-- C19 at a concrete input: on `idle_channel` with interval one the target sequence is 1. -/
theorem present_target_sequence_witness :
    (PRESENTPixmap_send idle_channel xcb0 5 free_node params_one none none none).sent
      = [Request.present_pixmap true 5 100 1 0 0 0 0 0 1] ∧
    (toU64 (idle_channel.last_msc + (presentationInterval params_one.PresentationInterval).1
        * (idle_channel.pixmap_present_pending + 1)) : Int)
      = idle_channel.last_msc + (presentationInterval params_one.PresentationInterval).1
        * (idle_channel.pixmap_present_pending + 1) :=
  ⟨by decide,
    (present_target_sequence idle_channel xcb0 5 free_node params_one none none none).2.1
      (by decide) (by decide)⟩

/-! ## C20: pixmap completions -/

theorem derefPixmapPriv_of_mem (l : List PRESENTPixmapPriv) (h : PRESENTPixmapPriv)
    (hmem : h ∈ l) (hnd : (l.map (fun n => n.ptr)).Nodup) :
    derefPixmapPriv l h.ptr = some h := by
  induction l with
  | nil => simp at hmem
  | cons a l ih =>
    rw [List.map_cons, List.nodup_cons] at hnd
    unfold derefPixmapPriv
    rw [List.find?_cons]
    rcases List.mem_cons.1 hmem with rfl | hin
    · simp
    · have hne : a.ptr ≠ h.ptr := by
        intro e
        exact hnd.1 (e ▸ List.mem_map_of_mem (fun n => n.ptr) hin)
      have hb : (a.ptr == h.ptr) = false := by simp [hne]
      rw [hb]
      exact ih hin hnd.2

/-- C20: for a pixmap completion whose serial is found at the registered node `h`, the
dispatcher subtracts one from `pixmap_present_pending`, stores the sequence of the event in
`last_msc`, and at the address of `h` clears `present_complete_pending` and sets
`last_present_was_flip` to TRUE for mode flip and to FALSE for mode copy; nothing else
changes.  With nodes at distinct addresses the node at the address of `h` is `h` itself. -/
theorem completion_dispatch (st : PRESENTpriv) (h : PRESENTPixmapPriv) (mode serial msc : Nat)
    (hfind : PRESENTFindPixmapPriv st serial = some h) :
    PRESENThandle_events st
        (Event.complete_notify XCB_PRESENT_COMPLETE_KIND_PIXMAP mode serial msc)
      = { st with
          pixmap_present_pending := st.pixmap_present_pending - 1
          last_msc := msc
          first_present_priv := st.first_present_priv.map (fun n =>
            if n.ptr = h.ptr then
              { n with present_complete_pending := false,
                       last_present_was_flip :=
                         if mode = XCB_PRESENT_COMPLETE_MODE_FLIP then true
                         else if mode = XCB_PRESENT_COMPLETE_MODE_COPY then false
                         else n.last_present_was_flip }
            else n) } ∧
    ((st.first_present_priv.map (fun n => n.ptr)).Nodup →
      derefPixmapPriv (PRESENThandle_events st
          (Event.complete_notify XCB_PRESENT_COMPLETE_KIND_PIXMAP mode serial msc)).first_present_priv
          h.ptr
        = some { h with present_complete_pending := false,
                        last_present_was_flip :=
                          if mode = XCB_PRESENT_COMPLETE_MODE_FLIP then true
                          else if mode = XCB_PRESENT_COMPLETE_MODE_COPY then false
                          else h.last_present_was_flip }) := by
  have hkind : ¬ XCB_PRESENT_COMPLETE_KIND_PIXMAP = XCB_PRESENT_COMPLETE_KIND_NOTIFY_MSC := by
    decide
  have hev : PRESENThandle_events st
        (Event.complete_notify XCB_PRESENT_COMPLETE_KIND_PIXMAP mode serial msc)
      = { st with
          pixmap_present_pending := st.pixmap_present_pending - 1
          last_msc := msc
          first_present_priv := storePixmapPriv st.first_present_priv h.ptr (fun n =>
              { n with present_complete_pending := false,
                       last_present_was_flip :=
                         if mode = XCB_PRESENT_COMPLETE_MODE_FLIP then true
                         else if mode = XCB_PRESENT_COMPLETE_MODE_COPY then false
                         else n.last_present_was_flip }) } := by
    unfold PRESENThandle_events
    simp only [hkind, if_false, hfind, ne_eq, not_true_eq_false]
  refine ⟨hev, ?_⟩
  intro hnd
  rw [hev]
  simp only
  have hmem := PRESENTFindPixmapPrivList_mem _ _ _ hfind
  have hd : derefPixmapPriv st.first_present_priv h.ptr = some h :=
    derefPixmapPriv_of_mem _ h hmem hnd
  rw [derefPixmapPriv_store _ _ _ (fun n =>
      { n with present_complete_pending := false,
               last_present_was_flip :=
                 if mode = XCB_PRESENT_COMPLETE_MODE_FLIP then true
                 else if mode = XCB_PRESENT_COMPLETE_MODE_COPY then false
                 else n.last_present_was_flip }) (fun _ => rfl), hd]
  simp

/-- C20 at a concrete input: the flip completion of serial 1 on `busy_channel`. -/
theorem completion_dispatch_witness :
    PRESENTFindPixmapPriv busy_channel 1 = some busy_node ∧
    derefPixmapPriv (PRESENThandle_events busy_channel
        (Event.complete_notify XCB_PRESENT_COMPLETE_KIND_PIXMAP 1 1 9)).first_present_priv
        busy_node.ptr
      = some { busy_node with present_complete_pending := false,
                              last_present_was_flip :=
                                if 1 = XCB_PRESENT_COMPLETE_MODE_FLIP then true
                                else if 1 = XCB_PRESENT_COMPLETE_MODE_COPY then false
                                else busy_node.last_present_was_flip } :=
  ⟨by decide, (completion_dispatch busy_channel busy_node 1 1 9 (by decide)).2 (by decide)⟩

/-! ## C21: idle notices -/

/-- C21: for an idle notice whose serial is found at the registered node `h` with the same
pixmap, the dispatcher sets `released` at the address of `h` and changes nothing else in the
channel or in any node; when no node has the serial, or the pixmap differs, the channel is
unchanged. -/
theorem idle_dispatch (st : PRESENTpriv) (serial pixmap : Nat) :
    (∀ h, PRESENTFindPixmapPriv st serial = some h → h.pixmap = pixmap →
      PRESENThandle_events st (Event.idle_notify serial pixmap)
        = { st with first_present_priv := st.first_present_priv.map (fun n =>
              if n.ptr = h.ptr then { n with released := true } else n) }) ∧
    (PRESENTFindPixmapPriv st serial = none →
      PRESENThandle_events st (Event.idle_notify serial pixmap) = st) ∧
    (∀ h, PRESENTFindPixmapPriv st serial = some h → h.pixmap ≠ pixmap →
      PRESENThandle_events st (Event.idle_notify serial pixmap) = st) := by
  refine ⟨?_, ?_, ?_⟩
  · intro h hf hp
    unfold PRESENThandle_events
    simp only [hf, hp, ne_eq, not_true_eq_false, if_false]
    rfl
  · intro hf
    unfold PRESENThandle_events
    simp only [hf]
  · intro h hf hp
    unfold PRESENThandle_events
    simp only [hf, ne_eq, hp, not_false_eq_true, if_true]

/-- C21 at a concrete input: the idle notice of serial 1 for pixmap 100 on `busy_channel`. -/
theorem idle_dispatch_witness :
    PRESENThandle_events busy_channel (Event.idle_notify 1 100)
      = { busy_channel with first_present_priv := busy_channel.first_present_priv.map (fun n =>
            if n.ptr = busy_node.ptr then { n with released := true } else n) } ∧
    PRESENThandle_events busy_channel (Event.idle_notify 1 555) = busy_channel :=
  ⟨(idle_dispatch busy_channel 1 100).1 busy_node (by decide) (by decide),
   (idle_dispatch busy_channel 1 555).2.2 busy_node (by decide) (by decide)⟩

/-! ## C22: fence completions -/

/-- C22, counterexample: a fence completion that carries serial 0 leaves the marker
`notify_with_serial_pending` set. -/
theorem fence_serial_zero_counterexample :
    (PRESENThandle_events { busy_channel with notify_with_serial_pending := true }
        (Event.complete_notify XCB_PRESENT_COMPLETE_KIND_NOTIFY_MSC 0 0 6)).notify_with_serial_pending
      = true := by
  decide

/-- C22, amended: for a completion of kind NotifyMsc the dispatcher clears
`notify_with_serial_pending` when the event carries a non-zero serial and leaves the channel
as it is when the serial is 0; in both cases no node, `pixmap_present_pending` or `last_msc`
changes. -/
theorem fence_dispatch (st : PRESENTpriv) (mode serial msc : Nat) :
    PRESENThandle_events st
        (Event.complete_notify XCB_PRESENT_COMPLETE_KIND_NOTIFY_MSC mode serial msc)
      = (if serial ≠ 0 then { st with notify_with_serial_pending := false } else st) ∧
    (PRESENThandle_events st (Event.complete_notify XCB_PRESENT_COMPLETE_KIND_NOTIFY_MSC mode
        serial msc)).first_present_priv = st.first_present_priv ∧
    (PRESENThandle_events st (Event.complete_notify XCB_PRESENT_COMPLETE_KIND_NOTIFY_MSC mode
        serial msc)).pixmap_present_pending = st.pixmap_present_pending ∧
    (PRESENThandle_events st (Event.complete_notify XCB_PRESENT_COMPLETE_KIND_NOTIFY_MSC mode
        serial msc)).last_msc = st.last_msc := by
  have h : PRESENThandle_events st
        (Event.complete_notify XCB_PRESENT_COMPLETE_KIND_NOTIFY_MSC mode serial msc)
      = (if serial ≠ 0 then { st with notify_with_serial_pending := false } else st) := by
    unfold PRESENThandle_events
    simp only [if_true]
  rw [h]
  refine ⟨rfl, ?_, ?_, ?_⟩ <;> split <;> rfl

/-! ## C30: the frame of a dispatch -/

/-- C30: on a channel whose nodes live at distinct addresses, a completion or idle event
with serial `s` rewrites the registry node by node, in place: membership and order, and the
address, serial and pixmap of every node stay; every node whose serial is not `s` is
unchanged; so with pairwise distinct serials at most one node changes. -/
theorem dispatch_frame (st : PRESENTpriv) (ev : Event)
    (hptr : (st.first_present_priv.map (fun n => n.ptr)).Nodup) :
    ∃ g : PRESENTPixmapPriv → PRESENTPixmapPriv,
      (PRESENThandle_events st ev).first_present_priv = st.first_present_priv.map g ∧
      (∀ n, (g n).ptr = n.ptr ∧ (g n).serial = n.serial ∧ (g n).pixmap = n.pixmap) ∧
      (∀ n ∈ st.first_present_priv, n.serial ≠ event_serial ev → g n = n) ∧
      ((st.first_present_priv.map (fun n => n.serial)).Nodup →
        ∀ n ∈ st.first_present_priv, ∀ m ∈ st.first_present_priv,
          g n ≠ n → g m ≠ m → n = m) := by
  have key : ∀ (h : PRESENTPixmapPriv) (f : PRESENTPixmapPriv → PRESENTPixmapPriv),
      PRESENTFindPixmapPriv st (event_serial ev) = some h →
      (∀ n, (f n).ptr = n.ptr ∧ (f n).serial = n.serial ∧ (f n).pixmap = n.pixmap) →
      (PRESENThandle_events st ev).first_present_priv
        = storePixmapPriv st.first_present_priv h.ptr f →
      ∃ g : PRESENTPixmapPriv → PRESENTPixmapPriv,
        (PRESENThandle_events st ev).first_present_priv = st.first_present_priv.map g ∧
        (∀ n, (g n).ptr = n.ptr ∧ (g n).serial = n.serial ∧ (g n).pixmap = n.pixmap) ∧
        (∀ n ∈ st.first_present_priv, n.serial ≠ event_serial ev → g n = n) ∧
        ((st.first_present_priv.map (fun n => n.serial)).Nodup →
          ∀ n ∈ st.first_present_priv, ∀ m ∈ st.first_present_priv,
            g n ≠ n → g m ≠ m → n = m) := by
    intro h f hfind hf hreg
    have hmem := PRESENTFindPixmapPrivList_mem _ _ _ hfind
    have hserial : h.serial = event_serial ev := by
      have : ∀ (l : List PRESENTPixmapPriv) (s : Nat) (x : PRESENTPixmapPriv),
          PRESENTFindPixmapPrivList l s = some x → x.serial = s := by
        intro l s x
        induction l with
        | nil => intro hx; simp [PRESENTFindPixmapPrivList] at hx
        | cons a l ih =>
          intro hx
          unfold PRESENTFindPixmapPrivList at hx
          split at hx
          · rename_i ha
            injection hx with hx; subst hx; exact ha
          · exact ih hx
      exact this _ _ _ hfind
    have hsame : ∀ n ∈ st.first_present_priv, n.ptr = h.ptr → n = h := by
      intro n hn hp
      have h1 := derefPixmapPriv_of_mem _ n hn hptr
      have h2 := derefPixmapPriv_of_mem _ h hmem hptr
      rw [hp] at h1
      rw [h1] at h2
      injection h2
    refine ⟨fun n => if n.ptr = h.ptr then f n else n, hreg, ?_, ?_, ?_⟩
    · intro n
      simp only
      split
      · exact hf n
      · exact ⟨rfl, rfl, rfl⟩
    · intro n hn hne
      simp only
      split
      · rename_i hp
        exact absurd ((hsame n hn hp) ▸ hserial) hne
      · rfl
    · intro _ n hn m hm hgn hgm
      simp only at hgn hgm
      have hn1 : n.ptr = h.ptr := by
        by_contra hc; rw [if_neg hc] at hgn; exact hgn rfl
      have hm1 : m.ptr = h.ptr := by
        by_contra hc; rw [if_neg hc] at hgm; exact hgm rfl
      rw [hsame n hn hn1, hsame m hm hm1]
  have trivial_case : (PRESENThandle_events st ev).first_present_priv = st.first_present_priv →
      ∃ g : PRESENTPixmapPriv → PRESENTPixmapPriv,
        (PRESENThandle_events st ev).first_present_priv = st.first_present_priv.map g ∧
        (∀ n, (g n).ptr = n.ptr ∧ (g n).serial = n.serial ∧ (g n).pixmap = n.pixmap) ∧
        (∀ n ∈ st.first_present_priv, n.serial ≠ event_serial ev → g n = n) ∧
        ((st.first_present_priv.map (fun n => n.serial)).Nodup →
          ∀ n ∈ st.first_present_priv, ∀ m ∈ st.first_present_priv,
            g n ≠ n → g m ≠ m → n = m) := by
    intro h
    exact ⟨id, by rw [h, List.map_id], fun _ => ⟨rfl, rfl, rfl⟩, fun _ _ _ => rfl,
      fun _ n _ _ _ hgn _ => absurd rfl hgn⟩
  cases ev with
  | complete_notify kind mode serial msc =>
    by_cases hk : kind = XCB_PRESENT_COMPLETE_KIND_NOTIFY_MSC
    · apply trivial_case
      unfold PRESENThandle_events
      simp only [hk, if_true]
      split <;> rfl
    · cases hf : PRESENTFindPixmapPriv st serial with
      | none =>
        apply trivial_case
        unfold PRESENThandle_events
        simp only [hk, if_false, hf]
      | some h =>
        by_cases hp : kind ≠ XCB_PRESENT_COMPLETE_KIND_PIXMAP
        · apply trivial_case
          unfold PRESENThandle_events
          simp only [hk, if_false, hf]
          rw [if_pos hp]
        · refine key h (fun n => { n with
              present_complete_pending := false,
              last_present_was_flip :=
                if mode = XCB_PRESENT_COMPLETE_MODE_FLIP then true
                else if mode = XCB_PRESENT_COMPLETE_MODE_COPY then false
                else n.last_present_was_flip }) hf (fun n => ⟨rfl, rfl, rfl⟩) ?_
          unfold PRESENThandle_events
          simp only [hk, if_false, hf]
          rw [if_neg hp]
  | idle_notify serial pixmap =>
    cases hf : PRESENTFindPixmapPriv st serial with
    | none =>
      apply trivial_case
      unfold PRESENThandle_events
      simp only [hf]
    | some h =>
      by_cases hp : h.pixmap ≠ pixmap
      · apply trivial_case
        unfold PRESENThandle_events
        simp only [hf]
        rw [if_pos hp]
      · refine key h (fun n => { n with released := true }) hf (fun n => ⟨rfl, rfl, rfl⟩) ?_
        unfold PRESENThandle_events
        simp only [hf]
        rw [if_neg hp]
  | other t => exact trivial_case rfl

/-- C30 at a concrete input: the completion of serial 1 on the two-handle channel changes
only the node at address 1. -/
theorem dispatch_frame_witness :
    ∃ g : PRESENTPixmapPriv → PRESENTPixmapPriv,
      (PRESENThandle_events two_channel
          (Event.complete_notify XCB_PRESENT_COMPLETE_KIND_PIXMAP XCB_PRESENT_COMPLETE_MODE_FLIP
            1 7)).first_present_priv = two_channel.first_present_priv.map g ∧
      (∀ n, (g n).ptr = n.ptr ∧ (g n).serial = n.serial ∧ (g n).pixmap = n.pixmap) ∧
      (∀ n ∈ two_channel.first_present_priv,
        n.serial ≠ event_serial (Event.complete_notify XCB_PRESENT_COMPLETE_KIND_PIXMAP
          XCB_PRESENT_COMPLETE_MODE_FLIP 1 7) → g n = n) ∧
      ((two_channel.first_present_priv.map (fun n => n.serial)).Nodup →
        ∀ n ∈ two_channel.first_present_priv, ∀ m ∈ two_channel.first_present_priv,
          g n ≠ n → g m ≠ m → n = m) :=
  dispatch_frame two_channel
    (Event.complete_notify XCB_PRESENT_COMPLETE_KIND_PIXMAP XCB_PRESENT_COMPLETE_MODE_FLIP 1 7)
    (by decide)

/-! ## C23: the offsets of a present request -/

theorem toI16_of_fits (x : Int) (h : fits_int16 x = true) : toI16 x = x := by
  unfold fits_int16 at h
  have h1 := of_decide_eq_true h
  unfold toI16
  omega

theorem toI16_add_toI16 (a b : Int) : toI16 (toI16 a + b) = toI16 (a + b) := by
  unfold toI16
  omega

theorem present_offsets_eq (src dst : Option RECT)
    (hx : fits_int16 ((rect_origin dst).1 - (rect_origin src).1) = true)
    (hy : fits_int16 ((rect_origin dst).2 - (rect_origin src).2) = true) :
    present_offsets src dst
      = ((rect_origin dst).1 - (rect_origin src).1, (rect_origin dst).2 - (rect_origin src).2) := by
  cases src with
  | none =>
    cases dst with
    | none => rfl
    | some d =>
      simp only [rect_origin, sub_zero] at hx hy
      simp only [present_offsets, rect_origin, sub_zero, zero_add, toI16_of_fits _ hx,
        toI16_of_fits _ hy]
  | some s =>
    cases dst with
    | none =>
      simp only [rect_origin, zero_sub] at hx hy
      simp only [present_offsets, rect_origin, zero_sub, toI16_of_fits _ hx,
        toI16_of_fits _ hy]
    | some d =>
      simp only [rect_origin] at hx hy
      have e1 : -s.left + d.left = d.left - s.left := by omega
      have e2 : -s.top + d.top = d.top - s.top := by omega
      simp only [present_offsets, rect_origin, toI16_add_toI16, e1, e2, toI16_of_fits _ hx,
        toI16_of_fits _ hy]

theorem PRESENTPixmap_regions_offsets (w : Xcb) (pixmap : Nat) (src dst : Option RECT)
    (dirty : Option (List RECT)) :
    (PRESENTPixmap_regions w pixmap src dst dirty).1.2.2 = present_offsets src dst := by
  unfold PRESENTPixmap_regions
  split
  · rename_i h
    obtain ⟨h1, h2, _⟩ := h
    cases src with
    | some _ => simp at h1
    | none =>
      cases dst with
      | some _ => simp at h2
      | none => rfl
  · rfl

/-- C23: the present request that `PRESENTPixmap` sends carries the offset
(dest.left - source.left, dest.top - source.top), an absent rectangle having origin (0, 0),
whenever both differences fit the `int16_t` offset fields; when no source rect, dest rect or
dirty region is given it carries valid region 0, update region 0 and offset (0, 0), and no
region request is issued before it. -/
theorem present_offset_spec (st : PRESENTpriv) (w : Xcb) (window : Nat)
    (h : PRESENTPixmapPriv) (params : D3DPRESENT_PARAMETERS) (src dst : Option RECT)
    (dirty : Option (List RECT)) :
    (fits_int16 ((rect_origin dst).1 - (rect_origin src).1) = true →
     fits_int16 ((rect_origin dst).2 - (rect_origin src).2) = true →
      ∃ prior valid update,
        (PRESENTPixmap_send st w window h params src dst dirty).sent
          = prior ++ [Request.present_pixmap true window h.pixmap h.serial valid update
              ((rect_origin dst).1 - (rect_origin src).1)
              ((rect_origin dst).2 - (rect_origin src).2) (present_options params)
              (toU64 (target_msc st params.PresentationInterval))]) ∧
    (PRESENTPixmap_send st w window h params none none none).sent
      = (if st.xcb_wait then w.sent ++ [Request.present_notify_msc st.window 0 0 0 0]
         else w.sent)
        ++ [Request.present_pixmap true window h.pixmap h.serial 0 0 0 0
              (present_options params) (toU64 (target_msc st params.PresentationInterval))] := by
  refine ⟨?_, ?_⟩
  · intro hx hy
    have ho := PRESENTPixmap_regions_offsets
      (if st.xcb_wait then xcb_send w (Request.present_notify_msc st.window 0 0 0 0) else w)
      h.pixmap src dst dirty
    rw [present_offsets_eq src dst hx hy] at ho
    refine ⟨(PRESENTPixmap_regions
        (if st.xcb_wait then xcb_send w (Request.present_notify_msc st.window 0 0 0 0) else w)
        h.pixmap src dst dirty).2.sent,
      (PRESENTPixmap_regions
        (if st.xcb_wait then xcb_send w (Request.present_notify_msc st.window 0 0 0 0) else w)
        h.pixmap src dst dirty).1.1,
      (PRESENTPixmap_regions
        (if st.xcb_wait then xcb_send w (Request.present_notify_msc st.window 0 0 0 0) else w)
        h.pixmap src dst dirty).1.2.1, ?_⟩
    have h1 := congrArg Prod.fst ho
    have h2 := congrArg Prod.snd ho
    simp only at h1 h2
    rw [← h1, ← h2]
    rfl
  · cases hw : st.xcb_wait <;>
      simp only [PRESENTPixmap_send, hw, PRESENTPixmap_regions, Option.isNone_none, and_self,
        if_true, xcb_send, present_options, Bool.false_eq_true, if_false]

/-- C23 at a concrete input: source rect at (10, 20) and dest rect at (30, 50) give the
offset (20, 30). -/
theorem present_offset_spec_witness :
    ∃ prior valid update,
      (PRESENTPixmap_send idle_channel xcb0 5 free_node params_one
          (some { left := 10, top := 20, right := 110, bottom := 120 })
          (some { left := 30, top := 50, right := 130, bottom := 150 }) none).sent
        = prior ++ [Request.present_pixmap true 5 free_node.pixmap free_node.serial valid update
            (30 - 10) (50 - 20) (present_options params_one)
            (toU64 (target_msc idle_channel params_one.PresentationInterval))] :=
  (present_offset_spec idle_channel xcb0 5 free_node params_one
    (some { left := 10, top := 20, right := 110, bottom := 120 })
    (some { left := 30, top := 50, right := 130, bottom := 150 }) none).1
    (by decide) (by decide)

/-! ## C24: the valid region -/

/-- C24, counterexample: for a buffer of 100 by 100 pixels and the source rect
(0, 0, 200, 200) both regions sent are the rectangle of 200 by 200 pixels, which extends
outside the buffer. -/
theorem valid_region_counterexample :
    XGetGeometry xcb_geometry 100 = (100, 100) ∧
    (PRESENTPixmap_regions xcb_geometry 100
        (some { left := 0, top := 0, right := 200, bottom := 200 }) none none).2.sent
      = [Request.xfixes_create_region 1 [{ x := 0, y := 0, width := 200, height := 200 }],
         Request.xfixes_create_region 2 [{ x := 0, y := 0, width := 200, height := 200 }]] := by
  refine ⟨?_, ?_⟩ <;> decide

/-- C24, amended: given a source rect, the valid region sent is the single rectangle with
the origin of the source rect and the size of the dest rect when one is given, of the source
rect otherwise, each reduced to its 16-bit field; the buffer geometry has no part in it. -/
theorem valid_region_spec (w : Xcb) (pixmap : Nat) (s : RECT) (dst : Option RECT)
    (dirty : Option (List RECT)) :
    (PRESENTPixmap_regions w pixmap (some s) dst dirty).1.1 = w.next_id ∧
    ∃ update,
      (PRESENTPixmap_regions w pixmap (some s) dst dirty).2.sent
        = w.sent ++
          [Request.xfixes_create_region w.next_id
            [{ x := toI16 s.left, y := toI16 s.top,
               width := toU16 (match dst with
                 | some d => d.right - d.left
                 | none => s.right - s.left),
               height := toU16 (match dst with
                 | some d => d.bottom - d.top
                 | none => s.bottom - s.top) }],
           update] := by
  have hv : valid_rect_update (XGetGeometry w pixmap) (some s) dst
      = { x := toI16 s.left, y := toI16 s.top,
          width := toU16 (match dst with
            | some d => d.right - d.left
            | none => s.right - s.left),
          height := toU16 (match dst with
            | some d => d.bottom - d.top
            | none => s.bottom - s.top) } := by
    cases dst <;> rfl
  rw [← hv]
  unfold PRESENTPixmap_regions
  rw [if_neg (by simp)]
  refine ⟨rfl, ?_⟩
  cases dirty with
  | none => exact ⟨_, by simp only [xcb_send, xcb_generate_id, List.append_assoc]; rfl⟩
  | some l =>
    cases l with
    | nil => exact ⟨_, by simp only [xcb_send, xcb_generate_id, List.append_assoc]; rfl⟩
    | cons rc rest =>
      exact ⟨_, by simp only [xcb_send, xcb_generate_id, List.append_assoc]; rfl⟩

/-! ## C25, C27: the update region of a dirty list -/

theorem fill_rect_updates_beyond (rects : List RECT) :
    ∀ (i : Nat) (rect_updates : List xcb_rectangle_t), 1 ≤ i → rect_updates.length ≤ 8 →
      fill_rect_updates i rects rect_updates = rect_updates := by
  induction rects with
  | nil => intro i l _ _; rfl
  | cons rc rest ih =>
    intro i l hi hl
    unfold fill_rect_updates
    have hset : l.set (rect_updates_index i) (dirty_rect_update rc) = l := by
      apply List.set_eq_of_length_le
      unfold rect_updates_index
      omega
    rw [hset]
    exact ih (i + 1) l (by omega) hl

theorem rect_updates_writes_eq (rects : List RECT) :
    ∀ i : Nat, rect_updates_writes i rects
      = (List.range rects.length).map (fun j => (i + j) * 8) := by
  induction rects with
  | nil => intro i; rfl
  | cons rc rest ih =>
    intro i
    unfold rect_updates_writes
    rw [ih (i + 1), List.length_cons, List.range_succ_eq_map, List.map_cons, List.map_map]
    simp only [rect_updates_index, Nat.add_zero, List.cons.injEq, true_and]
    apply List.map_congr_left
    intro j _
    simp only [Function.comp, Nat.succ_eq_add_one]
    omega

/-- C25: for a dirty list of at most 8 rectangles, the update region `PRESENTPixmap` sends
holds the first dirty rectangle in buffer space followed by zero rectangles, one for each
further dirty rectangle: the stores of the rectangles after the first do not reach their
elements. -/
theorem dirty_region_keeps_first_only (w : Xcb) (pixmap : Nat) (src dst : Option RECT)
    (rc : RECT) (rest : List RECT) (hn : (rc :: rest).length ≤ 8) :
    (PRESENTPixmap_regions w pixmap src dst (some (rc :: rest))).2.sent
      = w.sent ++
        [Request.xfixes_create_region w.next_id
          [valid_rect_update (XGetGeometry w pixmap) src dst],
         Request.xfixes_create_region (w.next_id + 1)
          ({ x := toI16 rc.left, y := toI16 rc.top, width := toU16 (rc.right - rc.left),
             height := toU16 (rc.bottom - rc.top) } :: List.replicate rest.length zero_rect)] := by
  have hf : fill_rect_updates 0 (rc :: rest)
      (List.replicate (rc :: rest).length { x := 0, y := 0, width := 0, height := 0 })
      = dirty_rect_update rc :: List.replicate rest.length zero_rect := by
    unfold fill_rect_updates
    rw [fill_rect_updates_beyond rest 1 _ (Nat.le_refl 1)
      (by simp only [List.length_set, List.length_replicate]; exact hn)]
    rfl
  unfold PRESENTPixmap_regions
  rw [if_neg (by simp)]
  simp only [hf, xcb_send, xcb_generate_id, List.append_assoc]
  rfl

/-- C25 at a concrete input: of the two dirty rectangles (0, 0, 10, 10) and (20, 20, 30, 30)
the update region holds the first and a zero rectangle. -/
theorem dirty_region_keeps_first_only_witness :
    (PRESENTPixmap_regions xcb_geometry 100 none none
        (some [{ left := 0, top := 0, right := 10, bottom := 10 },
               { left := 20, top := 20, right := 30, bottom := 30 }])).2.sent
      = xcb_geometry.sent ++
        [Request.xfixes_create_region xcb_geometry.next_id
          [valid_rect_update (XGetGeometry xcb_geometry 100) none none],
         Request.xfixes_create_region (xcb_geometry.next_id + 1)
          ({ x := toI16 0, y := toI16 0, width := toU16 (10 - 0), height := toU16 (10 - 0) }
            :: List.replicate [({ left := 20, top := 20, right := 30, bottom := 30 } : RECT)].length
                zero_rect)] :=
  dirty_region_keeps_first_only xcb_geometry 100 none none
    { left := 0, top := 0, right := 10, bottom := 10 }
    [{ left := 20, top := 20, right := 30, bottom := 30 }] (by decide)

/-- C27: for a dirty list of `n >= 2` rectangles the loop of `PRESENTPixmap` stores to an
element index that is not below `n`: the store of rectangle `i` goes to element `8 * i` of
the array of `n` elements. -/
theorem dirty_store_out_of_bounds (rects : List RECT) (hn : 2 ≤ rects.length) :
    rect_updates_writes 0 rects = (List.range rects.length).map (fun i => i * 8) ∧
    ∃ k ∈ rect_updates_writes 0 rects, rects.length ≤ k := by
  have hw : rect_updates_writes 0 rects = (List.range rects.length).map (fun i => i * 8) := by
    rw [rect_updates_writes_eq rects 0]
    apply List.map_congr_left
    intro j _
    simp only [Nat.zero_add]
  refine ⟨hw, (rects.length - 1) * 8, ?_, by omega⟩
  rw [hw]
  exact List.mem_map.mpr ⟨rects.length - 1, List.mem_range.mpr (by omega), rfl⟩

/-- C27 at a concrete input: with two dirty rectangles the stores go to elements 0 and 8. -/
theorem dirty_store_out_of_bounds_witness :
    rect_updates_writes 0 [{ left := 0, top := 0, right := 10, bottom := 10 },
        { left := 20, top := 20, right := 30, bottom := 30 }]
      = (List.range 2).map (fun i => i * 8) ∧
    ∃ k ∈ rect_updates_writes 0 [{ left := 0, top := 0, right := 10, bottom := 10 },
        { left := 20, top := 20, right := 30, bottom := 30 }], 2 ≤ k :=
  dirty_store_out_of_bounds [{ left := 0, top := 0, right := 10, bottom := 10 },
    { left := 20, top := 20, right := 30, bottom := 30 }] (by decide)

/-! ## C26: the forced release of the drain -/

/-- C26, counterexample: with a foreign thread in the blocking wait and nothing pending,
the walk of the drain forces the release of a handle whose last present was a copy, and the
rectangle of the two regions is 8 by 1. -/
theorem force_release_counterexample :
    copy_waited_channel.pixmap_present_pending = 0 ∧
    copy_waited_channel.first_present_priv.map (fun n => (n.released, n.last_present_was_flip))
      = [(false, false)] ∧
    (PRESENTForceReleases_walk [1] copy_waited_channel xcb0).2.sent
      = [Request.xfixes_create_region 1 [{ x := 0, y := 0, width := 8, height := 1 }],
         Request.xfixes_create_region 2 [{ x := 0, y := 0, width := 8, height := 1 }],
         Request.present_pixmap false 5 100 0 1 2 0 0 3 0] := by
  refine ⟨?_, ?_, ?_⟩ <;> decide

/-- C26, amended: at a registered node the walk of the drain sends the forcing request
exactly when the node is not released and its last present was a flip or a thread is in the
blocking wait; the request is an unchecked present of the pixmap of the node with serial 0,
options copy and async, and two fresh regions of the single rectangle (0, 0, 8, 1); it is
followed by one wait for an event and one flush of the queue.  For every other node nothing
is sent and the channel is unchanged. -/
theorem force_release_step (current : Nat) (rest : List Nat) (st : PRESENTpriv) (w : Xcb)
    (cur : PRESENTPixmapPriv)
    (hcur : derefPixmapPriv st.first_present_priv current = some cur) :
    PRESENTForceReleases_walk (current :: rest) st w
      = (if cur.released = false ∧ (cur.last_present_was_flip = true ∨ st.xcb_wait = true) then
          PRESENTForceReleases_walk rest
            (PRESENTflush_events
              (PRESENTwait_events st (PRESENTForceReleases_present st w cur.pixmap) false).2.1
              (PRESENTwait_events st (PRESENTForceReleases_present st w cur.pixmap) false).2.2
              true).1
            (PRESENTflush_events
              (PRESENTwait_events st (PRESENTForceReleases_present st w cur.pixmap) false).2.1
              (PRESENTwait_events st (PRESENTForceReleases_present st w cur.pixmap) false).2.2
              true).2
         else PRESENTForceReleases_walk rest st w) ∧
    (PRESENTForceReleases_present st w cur.pixmap).sent
      = w.sent ++
        [Request.xfixes_create_region w.next_id [{ x := 0, y := 0, width := 8, height := 1 }],
         Request.xfixes_create_region (w.next_id + 1)
           [{ x := 0, y := 0, width := 8, height := 1 }],
         Request.present_pixmap false st.window cur.pixmap 0 w.next_id (w.next_id + 1) 0 0
           (XCB_PRESENT_OPTION_COPY ||| XCB_PRESENT_OPTION_ASYNC) 0] := by
  refine ⟨?_, ?_⟩
  · rw [PRESENTForceReleases_walk]
    simp only [hcur]
    cases hr : cur.released <;> cases hfl : cur.last_present_was_flip <;>
      cases hw : st.xcb_wait <;> simp
  · simp only [PRESENTForceReleases_present, xcb_send, xcb_generate_id, List.append_assoc,
      force_rect_update]
    rfl

/-- C26 at a concrete input: the node of `copy_waited_channel` is forced. -/
theorem force_release_step_witness :
    PRESENTForceReleases_walk [1] copy_waited_channel xcb0
      = PRESENTForceReleases_walk []
          (PRESENTflush_events
            (PRESENTwait_events copy_waited_channel
              (PRESENTForceReleases_present copy_waited_channel xcb0 100) false).2.1
            (PRESENTwait_events copy_waited_channel
              (PRESENTForceReleases_present copy_waited_channel xcb0 100) false).2.2 true).1
          (PRESENTflush_events
            (PRESENTwait_events copy_waited_channel
              (PRESENTForceReleases_present copy_waited_channel xcb0 100) false).2.1
            (PRESENTwait_events copy_waited_channel
              (PRESENTForceReleases_present copy_waited_channel xcb0 100) false).2.2 true).2 :=
  (force_release_step 1 [] copy_waited_channel xcb0 { free_node with released := false }
    (by decide)).1

/-! ## C28: the result of the front-buffer copy -/

theorem xcb_request_check_send (w : Xcb) (r : Request) :
    (xcb_request_check (xcb_send w r)).1 = (xcb_request_check w).1 := by
  unfold xcb_request_check xcb_send
  cases w.checks <;> rfl

/-- C28: for a registered handle, `PRESENTHelperCopyFront` returns TRUE exactly when the
channel is attached and `xcb_request_check` reports an error for the copy-area request, so
`DRI3Present_FrontBufferCopy` returns `D3D_OK` exactly when the copy failed on an attached
channel, and `D3DERR_DRIVERINTERNALERROR` when the server carried it out. -/
theorem copy_front_returns_error (st : PRESENTpriv) (w : Xcb) (p : Nat)
    (h : PRESENTPixmapPriv) (hh : derefPixmapPriv st.first_present_priv p = some h) :
    (PRESENTHelperCopyFront st w p).map Prod.fst
      = some (decide (st.window ≠ 0) && (xcb_request_check w).1) ∧
    (DRI3Present_FrontBufferCopy st w p).map Prod.fst
      = some (if st.window ≠ 0 ∧ (xcb_request_check w).1 = true then D3D_OK
              else D3DERR_DRIVERINTERNALERROR) ∧
    (st.window ≠ 0 →
      (PRESENTHelperCopyFront st w p).map (fun r => r.2.sent)
        = some (w.sent ++
            [Request.create_gc w.next_id st.window XCB_GC_GRAPHICS_EXPOSURES [0],
             Request.copy_area true st.window h.pixmap w.next_id 0 0 0 0
               (toU16 (XGetGeometry w h.pixmap).1) (toU16 (XGetGeometry w h.pixmap).2),
             Request.free_gc w.next_id])) := by
  have hc : ∀ r1 r2 : Request,
      (xcb_request_check (xcb_send (xcb_send (xcb_generate_id w).2 r1) r2)).1
        = (xcb_request_check w).1 := by
    intro r1 r2
    rw [xcb_request_check_send, xcb_request_check_send]
    unfold xcb_request_check xcb_generate_id
    cases w.checks <;> rfl
  by_cases hw : st.window = 0
  · have h1 : PRESENTHelperCopyFront st w p = some (false, w) := by
      unfold PRESENTHelperCopyFront
      simp only [hh, hw, if_true]
    refine ⟨?_, ?_, fun hne => absurd hw hne⟩
    · rw [h1]; simp [hw]
    · unfold DRI3Present_FrontBufferCopy
      rw [h1]; simp [hw]
  · have h1 : PRESENTHelperCopyFront st w p
        = some ((xcb_request_check w).1,
            xcb_send (xcb_request_check (xcb_send (xcb_send (xcb_generate_id w).2
              (Request.create_gc w.next_id st.window XCB_GC_GRAPHICS_EXPOSURES [0]))
              (Request.copy_area true st.window h.pixmap w.next_id 0 0 0 0
                (toU16 (XGetGeometry w h.pixmap).1) (toU16 (XGetGeometry w h.pixmap).2)))).2
              (Request.free_gc w.next_id)) := by
      unfold PRESENTHelperCopyFront
      simp only [hh, hw, if_false]
      rw [hc]
      rfl
    have h2 : (xcb_send (xcb_request_check (xcb_send (xcb_send (xcb_generate_id w).2
              (Request.create_gc w.next_id st.window XCB_GC_GRAPHICS_EXPOSURES [0]))
              (Request.copy_area true st.window h.pixmap w.next_id 0 0 0 0
                (toU16 (XGetGeometry w h.pixmap).1) (toU16 (XGetGeometry w h.pixmap).2)))).2
              (Request.free_gc w.next_id)).sent
        = w.sent ++
            [Request.create_gc w.next_id st.window XCB_GC_GRAPHICS_EXPOSURES [0],
             Request.copy_area true st.window h.pixmap w.next_id 0 0 0 0
               (toU16 (XGetGeometry w h.pixmap).1) (toU16 (XGetGeometry w h.pixmap).2),
             Request.free_gc w.next_id] := by
      unfold xcb_request_check
      simp only [xcb_send, xcb_generate_id]
      cases w.checks <;> simp
    refine ⟨?_, ?_, fun _ => ?_⟩
    · rw [h1]; simp [hw]
    · unfold DRI3Present_FrontBufferCopy
      rw [h1]
      cases (xcb_request_check w).1 <;> simp [hw]
    · rw [h1]; simp [h2]

/-- C28 at a concrete input: on the attached channel `idle_channel` with a server that
reports no error, the copy is refused to the caller. -/
theorem copy_front_returns_error_witness :
    (PRESENTHelperCopyFront idle_channel xcb0 1).map Prod.fst
      = some (decide (idle_channel.window ≠ 0) && (xcb_request_check xcb0).1) ∧
    (DRI3Present_FrontBufferCopy idle_channel xcb0 1).map Prod.fst
      = some D3DERR_DRIVERINTERNALERROR ∧
    (DRI3Present_FrontBufferCopy idle_channel xcb_reject 1).map Prod.fst = some D3D_OK :=
  ⟨(copy_front_returns_error idle_channel xcb0 1 free_node (by decide)).1,
   (copy_front_returns_error idle_channel xcb0 1 free_node (by decide)).2.1,
   (copy_front_returns_error idle_channel xcb_reject 1 free_node (by decide)).2.1⟩

/-! ## C29: the critical section of the drawables -/

theorem HeapAlloc_section (c : D3DContexts) :
    (HeapAlloc c).2.enters = c.enters ∧ (HeapAlloc c).2.leaves = c.leaves := by
  unfold HeapAlloc
  cases c.alloc_fails <;> exact ⟨rfl, rfl⟩

theorem ExtEscape_section (c : D3DContexts) :
    (ExtEscape c).2.enters = c.enters ∧ (ExtEscape c).2.leaves = c.leaves := by
  unfold ExtEscape
  cases c.escapes <;> exact ⟨rfl, rfl⟩

theorem create_d3dadapter_drawable_section (c : D3DContexts) (hwnd : Nat) :
    (create_d3dadapter_drawable c hwnd).2.enters = c.enters ∧
    (create_d3dadapter_drawable c hwnd).2.leaves = c.leaves := by
  unfold create_d3dadapter_drawable
  dsimp only
  split
  · exact HeapAlloc_section c
  · split
    · exact ⟨(ExtEscape_section _).1.trans (HeapAlloc_section c).1,
        (ExtEscape_section _).2.trans (HeapAlloc_section c).2⟩
    · exact ⟨(ExtEscape_section _).1.trans (HeapAlloc_section c).1,
        (ExtEscape_section _).2.trans (HeapAlloc_section c).2⟩

/-- The function `get_d3d_drawable` returns with `context_section` entered once more than
left when it returns a drawable, and as often as left when it returns `NULL`. -/
theorem get_d3d_drawable_section (c : D3DContexts) (hwnd : Nat) :
    section_held (get_d3d_drawable c hwnd).2
      = section_held c + (if (get_d3d_drawable c hwnd).1.isSome then 1 else 0) := by
  have key : ∀ r, get_d3d_drawable c hwnd = r →
      section_held r.2 = section_held c + (if r.1.isSome then 1 else 0) := by
    intro r hr
    unfold get_d3d_drawable at hr
    dsimp only at hr
    cases hf : XFindContext (EnterCriticalSection c) hwnd with
    | some d3d =>
      rw [hf] at hr
      have he : (ExtEscape (EnterCriticalSection c)).2.enters = c.enters + 1 ∧
          (ExtEscape (EnterCriticalSection c)).2.leaves = c.leaves :=
        ExtEscape_section (EnterCriticalSection c)
      dsimp only at hr
      split at hr
      · rw [← hr]
        simp only [section_held, Option.isSome_some, if_true, he.1, he.2]
        push_cast
        omega
      · rw [← hr]
        simp only [section_held, Option.isSome_some, if_true, he.1, he.2]
        push_cast
        omega
    | none =>
      rw [hf] at hr
      dsimp only at hr
      have hc := create_d3dadapter_drawable_section
        (LeaveCriticalSection (EnterCriticalSection c)) hwnd
      have hc1 : (create_d3dadapter_drawable
          (LeaveCriticalSection (EnterCriticalSection c)) hwnd).2.enters = c.enters + 1 := hc.1
      have hc2 : (create_d3dadapter_drawable
          (LeaveCriticalSection (EnterCriticalSection c)) hwnd).2.leaves = c.leaves + 1 := hc.2
      cases hcr : (create_d3dadapter_drawable
          (LeaveCriticalSection (EnterCriticalSection c)) hwnd).1 with
      | none =>
        rw [hcr] at hr
        rw [← hr]
        simp only [section_held, Option.isSome_none, Bool.false_eq_true, if_false, hc1, hc2]
        push_cast
        omega
      | some d3d =>
        rw [hcr] at hr
        dsimp only at hr
        have h3 : ∀ c3 : D3DContexts,
            c3.enters = c.enters + 1 → c3.leaves = c.leaves + 1 →
            (match XFindContext (EnterCriticalSection c3) hwnd with
              | some race => (some race, EnterCriticalSection c3)
              | none => (some d3d, XSaveContext (EnterCriticalSection c3) hwnd d3d)) = r →
            section_held r.2 = section_held c + (if r.1.isSome then 1 else 0) := by
          intro c3 h1 h2 h
          cases hx : XFindContext (EnterCriticalSection c3) hwnd with
          | some race =>
            rw [hx] at h
            rw [← h]
            simp only [section_held, Option.isSome_some, if_true, EnterCriticalSection, h1, h2]
            push_cast
            omega
          | none =>
            rw [hx] at h
            rw [← h]
            simp only [section_held, Option.isSome_some, if_true, EnterCriticalSection,
              XSaveContext, h1, h2]
            push_cast
            omega
        refine h3 _ ?_ ?_ hr
        · split
          · exact hc1
          · exact hc1
          · exact hc1
        · split
          · exact hc2
          · exact hc2
          · exact hc2
  exact key _ rfl

theorem release_d3d_drawable_section (c : D3DContexts) (d3d : d3d_drawable) :
    section_held (release_d3d_drawable c (some d3d)) = section_held c - 1 := by
  simp only [release_d3d_drawable, Option.isSome_some, if_true, LeaveCriticalSection,
    section_held]
  push_cast
  omega

theorem DRI3Present_PresentBuffer_hwnd (This : DRI3Present) (c : D3DContexts)
    (hWndOverride : Nat) :
    (if hWndOverride ≠ 0 then get_d3d_drawable c hWndOverride
     else if This.hDeviceWindow ≠ 0 then get_d3d_drawable c This.hDeviceWindow
     else get_d3d_drawable c This.focus_wnd)
      = get_d3d_drawable c (present_hwnd This hWndOverride) := by
  unfold present_hwnd
  split
  · rfl
  · split <;> rfl

/-- C29: when `DRI3Present_PresentBuffer` returns `D3D_OK`, or returns because
`get_d3d_drawable` gave no drawable, `context_section` has been left as often as entered;
when it returns because `PRESENTPixmap` failed, the section that `get_d3d_drawable` left
held is still held: one enter has no leave. -/
theorem present_buffer_section (This : DRI3Present) (c : D3DContexts) (st : PRESENTpriv)
    (w : Xcb) (p hWndOverride : Nat) (src dst : Option RECT) (dirty : Option (List RECT))
    (r : Nat × D3DContexts × PRESENTpriv × Xcb)
    (hr : DRI3Present_PresentBuffer This c st w p hWndOverride src dst dirty = some r) :
    (r.1 = D3D_OK → section_held r.2.1 = section_held c) ∧
    ((get_d3d_drawable c (present_hwnd This hWndOverride)).1 = none →
      r.1 = D3DERR_DRIVERINTERNALERROR ∧ section_held r.2.1 = section_held c) ∧
    ((get_d3d_drawable c (present_hwnd This hWndOverride)).1 ≠ none → r.1 ≠ D3D_OK →
      section_held r.2.1 = section_held c + 1) := by
  unfold DRI3Present_PresentBuffer at hr
  dsimp only at hr
  rw [DRI3Present_PresentBuffer_hwnd] at hr
  have hs := get_d3d_drawable_section c (present_hwnd This hWndOverride)
  cases hg : (get_d3d_drawable c (present_hwnd This hWndOverride)).1 with
  | none =>
    rw [hg] at hr hs
    simp only [Option.isSome_none, Bool.false_eq_true, if_false, add_zero] at hs
    injection hr with hr
    rw [← hr]
    exact ⟨fun _ => hs, fun _ => ⟨rfl, hs⟩, fun h => absurd rfl h⟩
  | some d3d =>
    rw [hg] at hr hs
    simp only [Option.isSome_some, if_true] at hs
    dsimp only at hr
    cases hp : PRESENTPixmap st w d3d.drawable p This.params src
        (dest_translate d3d.dc_rect dst) dirty with
    | none => rw [hp] at hr; cases hr
    | some a =>
      rw [hp] at hr
      dsimp only at hr
      cases hb : a.1 with
      | false =>
        rw [hb] at hr
        injection hr with hr
        rw [← hr]
        refine ⟨fun h => ?_, (fun h => by cases h), fun _ _ => hs⟩
        have h0 : D3DERR_DRIVERINTERNALERROR = D3D_OK := h
        exact absurd h0 (by decide)
      | true =>
        rw [hb] at hr
        injection hr with hr
        rw [← hr]
        refine ⟨fun _ => ?_, (fun h => by cases h), fun _ h => absurd rfl h⟩
        rw [release_d3d_drawable_section, hs]
        omega

/-- C29 at a concrete input: a present of the busy handle of `busy_channel` on the window
of `device_seven` returns `D3DERR_DRIVERINTERNALERROR` with one enter of the section and no
leave. -/
theorem present_buffer_section_witness :
    (DRI3Present_PresentBuffer device_seven contexts_seven busy_channel xcb0 1 0
        none none none).map (fun r => (r.1, r.2.1.enters, r.2.1.leaves))
      = some (D3DERR_DRIVERINTERNALERROR, 1, 0) ∧
    section_held { contexts_seven with enters := 1 } = section_held contexts_seven + 1 :=
  ⟨by decide,
   (present_buffer_section device_seven contexts_seven busy_channel xcb0 1 0 none none none
      (D3DERR_DRIVERINTERNALERROR, { contexts_seven with enters := 1 }, busy_channel, xcb0)
      (by decide)).2.2 (by decide) (by decide)⟩

end Dri3
